import Mathlib

/-!
# vulkan-demo: the frame presentation pipeline of `src/main.c`

A shallow embedding of `create_buffer`, `init_vulkan`, `create_swapchain`,
`redraw` and `main` with its frame loop.

* The program talks to the Vulkan runtime only through API calls.  Every call
  the program makes is recorded, with the arguments the program passes, in a
  list of `Call`s; everything the runtime hands back (result codes, counts,
  capability words, the acquired image index) comes from an explicit
  environment record, so that every theorem quantifies over all the answers
  the runtime may give.
* `assert` is modelled as process abort (`Status.aborted`); an array access
  outside `win_buffers[MAX_NUM_IMAGES]` is `Status.undefined`; a `memcpy`
  through a host pointer that is `NULL` or is not the address of a live
  mapping is `Status.faulted`, and the function performs nothing after it.
* Objects are named by the place that creates them: `Handle.fence i` is the
  fence created by iteration `i` of the loop of `create_swapchain`, and
  `Handle.null` is `VK_NULL_HANDLE`.
* `float` constants are kept as their IEEE-754 single precision bit patterns.
* No result code is assumed to be `VK_SUCCESS`: where the program does not
  look at a result, the functions below do not either, and a theorem that
  needs a call to have succeeded says so in a hypothesis.
-/

set_option linter.dupNamespace false
set_option linter.constructorNameAsVariable false
set_option linter.unusedVariables false

namespace VulkanDemo

/-! ## Constants of `main.c` and of the Vulkan headers -/

/-- The C macro `MAX_NUM_IMAGES`. -/
def MAX_NUM_IMAGES : Nat := 4

/-- The C constant `UINT_MAX` for a 32 bit `unsigned int`. -/
def UINT_MAX : Nat := 4294967295

/-- The C constant `UINT64_MAX`. -/
def UINT64_MAX : Nat := 18446744073709551615

/-- The C macro `MAX(x, y) ((x) > (y) ? (x) : (y))`. -/
def MAX (x y : Nat) : Nat := if x > y then x else y

/-- Values of the C enum `VkResult`. -/
abbrev VkResult := Int

def VK_SUCCESS : VkResult := 0
def VK_NOT_READY : VkResult := 1
def VK_TIMEOUT : VkResult := 2
def VK_ERROR_OUT_OF_HOST_MEMORY : VkResult := -1
def VK_ERROR_OUT_OF_DEVICE_MEMORY : VkResult := -2
def VK_ERROR_DEVICE_LOST : VkResult := -4
def VK_ERROR_MEMORY_MAP_FAILED : VkResult := -5
def VK_ERROR_SURFACE_LOST_KHR : VkResult := -1000000000
def VK_SUBOPTIMAL_KHR : VkResult := 1000001003
def VK_ERROR_OUT_OF_DATE_KHR : VkResult := -1000001004

def VK_FORMAT_UNDEFINED : Nat := 0
def VK_FORMAT_R8G8B8A8_UNORM : Nat := 37
def VK_FORMAT_B8G8R8A8_UNORM : Nat := 44
def VK_COLOR_SPACE_SRGB_NONLINEAR_KHR : Nat := 0

def VK_QUEUE_GRAPHICS_BIT : Nat := 1

def VK_MEMORY_PROPERTY_DEVICE_LOCAL_BIT : Nat := 1
def VK_MEMORY_PROPERTY_HOST_VISIBLE_BIT : Nat := 2
def VK_MEMORY_PROPERTY_HOST_COHERENT_BIT : Nat := 4
def VK_MEMORY_PROPERTY_HOST_CACHED_BIT : Nat := 8

def VK_BUFFER_USAGE_UNIFORM_BUFFER_BIT : Nat := 16
def VK_BUFFER_USAGE_VERTEX_BUFFER_BIT : Nat := 128

def VK_COMPOSITE_ALPHA_OPAQUE_BIT_KHR : Nat := 1
def VK_COMPOSITE_ALPHA_PRE_MULTIPLIED_BIT_KHR : Nat := 2

def VK_IMAGE_USAGE_COLOR_ATTACHMENT_BIT : Nat := 16
def VK_SHARING_MODE_EXCLUSIVE : Nat := 0
def VK_SURFACE_TRANSFORM_IDENTITY_BIT_KHR : Nat := 1
def VK_PRESENT_MODE_FIFO_KHR : Nat := 2
def VK_IMAGE_VIEW_TYPE_2D : Nat := 1
def VK_FENCE_CREATE_SIGNALED_BIT : Nat := 1
def VK_COMMAND_BUFFER_LEVEL_PRIMARY : Nat := 0
def VK_COMMAND_POOL_CREATE_RESET_COMMAND_BUFFER_BIT : Nat := 2
def VK_PIPELINE_STAGE_COLOR_ATTACHMENT_OUTPUT_BIT : Nat := 1024
def VK_PIPELINE_BIND_POINT_GRAPHICS : Nat := 0
def VK_SUBPASS_CONTENTS_INLINE : Nat := 0

/-- The bit pattern of the `float` constant `0.0f`. -/
def f32_0 : Nat := 0
/-- The bit pattern of the `float` constant `0.5f`. -/
def f32_half : Nat := 0x3F000000
/-- The bit pattern of the `float` constant `1.0f`. -/
def f32_1 : Nat := 0x3F800000

/-! ## Object names -/

/-- Names of the Vulkan objects the program holds.  An object is named by the
place in the program that obtains it; `null` is `VK_NULL_HANDLE`. -/
inductive Handle where
  | null
  | surface
  | render_pass
  | desc_set_layout
  | pipeline_layout
  | pipeline
  | desc_pool
  | desc_set
  | cmd_pool
  | swap_chain
  | image_semaphore
  | render_semaphore
  | buffer (id : Nat)
  | memory (id : Nat)
  | image (i : Nat)
  | view (i : Nat)
  | framebuffer (i : Nat)
  | fence (i : Nat)
  | cmd_buffer (i : Nat)
  deriving DecidableEq, Repr

/-! ## The data model (`struct window_buffer`, `struct buffer`, `struct vk`,
`struct window`) -/

/-- The C `struct window_buffer`. -/
structure window_buffer where
  image : Handle
  view : Handle
  framebuffer : Handle
  cmd_fence : Handle
  cmd_buffer : Handle
  deriving DecidableEq, Repr

/-- The C `struct buffer`; `map` is a host address, `0` being `NULL`.
`map_valid` is not a member of the C struct: it records whether `map` is the
non-null address a successful `vkMapMemory` produced for memory that is still
mapped, which is the only case in which the program may store through `map`. -/
structure buffer where
  buffer : Handle
  memory : Handle
  size : Nat
  map : Nat
  map_valid : Bool
  deriving DecidableEq, Repr

/-- One entry of `VkPhysicalDeviceMemoryProperties.memoryTypes`. -/
structure VkMemoryType where
  propertyFlags : Nat
  heapIndex : Nat
  deriving DecidableEq, Repr

/-- The Vulkan `VkPhysicalDeviceMemoryProperties` (the heaps are not read by the
program).  `memoryTypes` is the array of `VK_MAX_MEMORY_TYPES` entries; entries
the list does not have read as zero. -/
structure VkPhysicalDeviceMemoryProperties where
  memoryTypeCount : Nat
  memoryTypes : List VkMemoryType
  deriving DecidableEq, Repr

/-- The Vulkan `VkMemoryRequirements`. -/
structure VkMemoryRequirements where
  size : Nat
  alignment : Nat
  memoryTypeBits : Nat
  deriving DecidableEq, Repr

/-- The Vulkan `VkSurfaceFormatKHR`. -/
structure VkSurfaceFormatKHR where
  format : Nat
  colorSpace : Nat
  deriving DecidableEq, Repr

/-- The C `struct vk` (the instance, device and queue handles, of which there is
one each, are left out).  `win_buffers` is the array
`win_buffers[MAX_NUM_IMAGES]`: only the indices below `MAX_NUM_IMAGES` are
cells of the array, and every access is guarded accordingly. -/
structure vk where
  swap_chain : Handle
  memory_properties : VkPhysicalDeviceMemoryProperties
  render_pass : Handle
  pipeline_layout : Handle
  pipeline : Handle
  desc_set_layout : Handle
  desc_set : Handle
  image_semaphore : Handle
  render_semaphore : Handle
  cmd_pool : Handle
  surface : Handle
  image_format : Nat
  image_count : Nat
  vert_buffer : buffer
  uniform_buffer : buffer
  desc_pool : Handle
  win_buffers : Nat → window_buffer

/-- The C `struct window` (the Wayland object pointers are left out). -/
structure window where
  width : Int
  height : Int
  wait_for_configure : Bool
  vk : vk

/-! ## Recorded calls -/

/-- The Vulkan `VkSwapchainCreateInfoKHR` as `create_swapchain` fills it. -/
structure VkSwapchainCreateInfoKHR where
  flags : Nat
  surface : Handle
  minImageCount : Nat
  imageFormat : Nat
  imageColorSpace : Nat
  imageExtent : Int × Int
  imageArrayLayers : Nat
  imageUsage : Nat
  imageSharingMode : Nat
  queueFamilyIndices : List Nat
  preTransform : Nat
  compositeAlpha : Nat
  presentMode : Nat
  deriving DecidableEq, Repr

/-- The Vulkan `VkSubmitInfo` as `redraw` fills it. -/
structure VkSubmitInfo where
  waitSemaphores : List Handle
  waitDstStageMask : List Nat
  signalSemaphores : List Handle
  commandBuffers : List Handle
  deriving DecidableEq, Repr

/-- The Vulkan `VkPresentInfoKHR` as `redraw` fills it. -/
structure VkPresentInfoKHR where
  waitSemaphores : List Handle
  swapchains : List Handle
  imageIndices : List Nat
  deriving DecidableEq, Repr

/-- The set-up calls of `init_vulkan` that take no part in any decision the
program makes later; they are recorded by name and result. -/
inductive SetupCall where
  | vkCreateInstance
  | vkEnumeratePhysicalDevices
  | vkGetPhysicalDeviceMemoryProperties
  | vkGetPhysicalDeviceQueueFamilyProperties
  | vkCreateDevice
  | vkGetDeviceQueue
  | vkGetPhysicalDeviceWaylandPresentationSupportKHR
  | vkCreateWaylandSurfaceKHR
  | vkGetPhysicalDeviceSurfaceFormatsKHR
  | vkCreateDescriptorSetLayout
  | vkCreatePipelineLayout
  | vkCreateShaderModule
  | vkCreateGraphicsPipelines
  | vkCreateDescriptorPool
  | vkAllocateDescriptorSets
  | vkUpdateDescriptorSets
  deriving DecidableEq, Repr

/-- One call made by the program, with the arguments it passes and, last, what
the runtime answered.  `r` is the `VkResult` the call returns. -/
inductive Call where
  | setup (c : SetupCall) (r : VkResult)
  | vkCreateRenderPass (format : Nat) (r : VkResult)
  | vkCreateCommandPool (flags : Nat) (r : VkResult)
  -- create_buffer
  | vkCreateBuffer (size usage : Nat) (r : VkResult)
  | vkGetBufferMemoryRequirements (buffer : Handle)
  | vkAllocateMemory (allocationSize memoryTypeIndex : Nat) (r : VkResult)
  | vkBindBufferMemory (buffer memory : Handle) (offset : Nat) (r : VkResult)
  | vkMapMemory (memory : Handle) (offset size : Nat) (r : VkResult)
  | vkUnmapMemory (memory : Handle)
  | memcpy (dst : Nat) (payload : List Nat)
  -- create_swapchain
  | vkGetPhysicalDeviceSurfaceSupportKHR (surface : Handle) (r : VkResult)
  | vkGetPhysicalDeviceSurfaceCapabilitiesKHR (surface : Handle) (r : VkResult)
  | vkCreateSwapchainKHR (info : VkSwapchainCreateInfoKHR) (r : VkResult)
  | vkGetSwapchainImagesKHR (swap_chain : Handle) (r : VkResult)
  | vkCreateImageView (image : Handle) (viewType format : Nat) (r : VkResult)
  | vkCreateFramebuffer (render_pass view : Handle) (width height : Int)
      (layers : Nat) (r : VkResult)
  | vkCreateFence (flags : Nat) (fence : Handle) (r : VkResult)
  | vkAllocateCommandBuffers (pool : Handle) (level count : Nat) (r : VkResult)
  | vkCreateSemaphore (semaphore : Handle) (r : VkResult)
  -- redraw
  | vkAcquireNextImageKHR (swap_chain : Handle) (timeout : Nat)
      (semaphore fence : Handle) (r : VkResult) (index : Nat)
  | vkWaitForFences (fence : Handle) (waitAll : Bool) (timeout : Nat)
      (r : VkResult)
  | vkResetFences (fence : Handle) (r : VkResult)
  | vkBeginCommandBuffer (cmd : Handle) (flags : Nat) (r : VkResult)
  | vkCmdBeginRenderPass (cmd render_pass framebuffer : Handle)
      (renderArea : (Int × Int) × (Int × Int)) (clear : List Nat) (contents : Nat)
  | vkCmdBindVertexBuffers (cmd vertex_buffer : Handle) (offset : Nat)
  | vkCmdBindPipeline (cmd : Handle) (bindPoint : Nat) (pipeline : Handle)
  | vkCmdBindDescriptorSets (cmd : Handle) (bindPoint : Nat)
      (layout desc_set : Handle)
  | vkCmdSetViewport (cmd : Handle) (x y width height : Int)
      (minDepth maxDepth : Nat)
  | vkCmdSetScissor (cmd : Handle) (offset extent : Int × Int)
  | vkCmdDraw (cmd : Handle)
      (vertexCount instanceCount firstVertex firstInstance : Nat)
  | vkCmdEndRenderPass (cmd : Handle)
  | vkEndCommandBuffer (cmd : Handle) (r : VkResult)
  | vkQueueSubmit (info : VkSubmitInfo) (fence : Handle) (r : VkResult)
  | vkQueuePresentKHR (info : VkPresentInfoKHR) (r : VkResult)
      (result0 : VkResult)
  | vkQueueWaitIdle (r : VkResult)
  deriving DecidableEq, Repr

/-- How a function of the program ends: it returns, an `assert` fails and the
process aborts, it indexes `win_buffers` outside the array (`undefined`), or it
stores through a host pointer that is not valid (`faulted`). -/
inductive Status where
  | returned
  | aborted
  | undefined
  | faulted
  deriving DecidableEq, Repr

/-- The execution of one function of the program: the calls it made, in order,
how it ended, and the value it leaves (meaningful when it returned). -/
structure Exec (α : Type) where
  value : α
  calls : List Call
  status : Status

/-! ## `create_buffer` -/

/-- What the runtime answers during one `create_buffer`. `id` names the buffer
and memory objects the runtime creates, `mapped` is the address `vkMapMemory`
writes, and `uninit_map` is the indeterminate content the local `struct buffer`
has in its `map` field before anything is stored there. -/
structure BufferEnv where
  id : Nat
  r_create : VkResult
  reqs : VkMemoryRequirements
  r_alloc : VkResult
  r_bind : VkResult
  r_map : VkResult
  mapped : Nat
  uninit_map : Nat

/-- The search loop of `create_buffer` (lines 138-147), entered at index `i`
with `n` iterations to go; its value is `mem_type` after the loop. `1u << i`
is a 32 bit shift. -/
def mem_type_loop (mp : VkPhysicalDeviceMemoryProperties)
    (memoryTypeBits properties : Nat) : Nat → Nat → Nat
  | 0, _ => UINT_MAX
  | n + 1, i =>
    if memoryTypeBits &&& ((1 <<< i) % 2 ^ 32) = 0 then
      mem_type_loop mp memoryTypeBits properties n (i + 1)
    else if (mp.memoryTypes.getD i ⟨0, 0⟩).propertyFlags &&& properties ≠ 0 then
      i
    else
      mem_type_loop mp memoryTypeBits properties n (i + 1)

/-- The C function `create_buffer`. The result of `vkMapMemory` is not looked
at; the address it leaves in `map` is valid when the call succeeded. -/
def create_buffer (be : BufferEnv) (v : vk) (size usage_flags properties : Nat)
    (map : Bool) : Exec buffer :=
  let b : buffer := ⟨Handle.buffer be.id, Handle.null, size, be.uninit_map, false⟩
  let c1 := [Call.vkCreateBuffer size usage_flags be.r_create,
             Call.vkGetBufferMemoryRequirements b.buffer]
  let reqs := be.reqs
  let mem_type := mem_type_loop v.memory_properties reqs.memoryTypeBits properties
    v.memory_properties.memoryTypeCount 0
  if mem_type = UINT_MAX then ⟨b, c1, Status.aborted⟩
  else
    let b : buffer := { b with memory := Handle.memory be.id }
    let c2 := c1 ++ [Call.vkAllocateMemory (MAX size reqs.size) mem_type be.r_alloc,
                     Call.vkBindBufferMemory b.buffer b.memory 0 be.r_bind]
    if map then
      ⟨{ b with
         map := be.mapped
         map_valid := decide (be.r_map = VK_SUCCESS ∧ be.mapped ≠ 0) },
       c2 ++ [Call.vkMapMemory b.memory 0 size be.r_map], Status.returned⟩
    else ⟨b, c2, Status.returned⟩

/-! ## `init_vulkan` -/

/-- What the runtime answers during `init_vulkan`. -/
structure InitEnv where
  r_setup : SetupCall → VkResult
  physical_device_count : Nat
  memory_properties : VkPhysicalDeviceMemoryProperties
  queue_family_count : Nat
  queue_flags0 : Nat
  wayland_presentation_support : Nat
  formats : List VkSurfaceFormatKHR
  r_render_pass : VkResult
  vert_env : BufferEnv
  uniform_env : BufferEnv
  r_cmd_pool : VkResult

/-- The C conversion `(int)count` of a `uint32_t` to a 32 bit `int`. -/
def int_of_uint32 (count : Nat) : Int :=
  if count % 2 ^ 32 < 2 ^ 31 then ((count % 2 ^ 32 : Nat) : Int)
  else ((count % 2 ^ 32 : Nat) : Int) - 2 ^ 32

/-- The format scan of `init_vulkan` (lines 258-263), entered at index `i` with
`n` iterations to go; its value is `vk->image_format` after the loop. -/
def format_loop (formats : List VkSurfaceFormatKHR) (image_format : Nat) :
    Nat → Nat → Nat
  | 0, _ => image_format
  | n + 1, i =>
    if (formats.getD i ⟨0, 0⟩).format = VK_FORMAT_B8G8R8A8_UNORM then
      (formats.getD i ⟨0, 0⟩).format
    else format_loop formats image_format n (i + 1)

/-- Lines 253-263 of `init_vulkan`: the value of `vk->image_format` when the
`assert` of line 264 is reached.  The loop runs while `i < (int)count`. -/
def select_format (formats : List VkSurfaceFormatKHR) (image_format : Nat) : Nat :=
  format_loop formats image_format (int_of_uint32 formats.length).toNat 0

/-- The array `vVertices` of `init_vulkan`, as `float` bit patterns. -/
def vVertices : List Nat :=
  [0, 0xBF000000, 0, 0x3F800000, 0, 0,
   0xBF000000, 0x3F000000, 0, 0, 0x3F800000, 0,
   0x3F000000, 0x3F000000, 0, 0, 0, 0x3F800000]

/-- The first part of `init_vulkan` (lines 170-264): instance, device, surface
and the choice of the image format. -/
def init_vulkan_device (ie : InitEnv) (w : window) : Exec window :=
  let s := fun c => Call.setup c (ie.r_setup c)
  let c1 := [s SetupCall.vkCreateInstance, s SetupCall.vkEnumeratePhysicalDevices]
  if ie.physical_device_count = 0 then ⟨w, c1, Status.aborted⟩
  else
    let v : vk := { w.vk with memory_properties := ie.memory_properties }
    let c2 := c1 ++ [s SetupCall.vkEnumeratePhysicalDevices,
                     s SetupCall.vkGetPhysicalDeviceMemoryProperties,
                     s SetupCall.vkGetPhysicalDeviceQueueFamilyProperties]
    if ie.queue_family_count = 0 then ⟨{ w with vk := v }, c2, Status.aborted⟩
    else
      let c3 := c2 ++ [s SetupCall.vkGetPhysicalDeviceQueueFamilyProperties]
      if ie.queue_flags0 &&& VK_QUEUE_GRAPHICS_BIT = 0 then
        ⟨{ w with vk := v }, c3, Status.aborted⟩
      else
        let c4 := c3 ++ [s SetupCall.vkCreateDevice, s SetupCall.vkGetDeviceQueue,
                         s SetupCall.vkGetPhysicalDeviceWaylandPresentationSupportKHR]
        if ie.wayland_presentation_support = 0 then
          ⟨{ w with vk := v }, c4, Status.aborted⟩
        else
          let v : vk := { v with surface := Handle.surface }
          let c5 := c4 ++ [s SetupCall.vkCreateWaylandSurfaceKHR,
                           s SetupCall.vkGetPhysicalDeviceSurfaceFormatsKHR,
                           s SetupCall.vkGetPhysicalDeviceSurfaceFormatsKHR]
          let v : vk := { v with image_format := select_format ie.formats v.image_format }
          if v.image_format = 0 then ⟨{ w with vk := v }, c5, Status.aborted⟩
          else ⟨{ w with vk := v }, c5, Status.returned⟩

/-- The C function `init_vulkan`. -/
def init_vulkan (ie : InitEnv) (w : window) : Exec window :=
  let s := fun c => Call.setup c (ie.r_setup c)
  let d := init_vulkan_device ie w
  if d.status ≠ Status.returned then d
  else
    let w := d.value
    let v : vk :=
      { w.vk with
        render_pass := Handle.render_pass
        desc_set_layout := Handle.desc_set_layout
        pipeline_layout := Handle.pipeline_layout
        pipeline := Handle.pipeline }
    let c1 := d.calls ++ [Call.vkCreateRenderPass v.image_format ie.r_render_pass,
                          s SetupCall.vkCreateDescriptorSetLayout,
                          s SetupCall.vkCreatePipelineLayout,
                          s SetupCall.vkCreateShaderModule,
                          s SetupCall.vkCreateShaderModule,
                          s SetupCall.vkCreateGraphicsPipelines]
    let vb := create_buffer ie.vert_env v 72 VK_BUFFER_USAGE_VERTEX_BUFFER_BIT
      (VK_MEMORY_PROPERTY_HOST_VISIBLE_BIT ||| VK_MEMORY_PROPERTY_HOST_COHERENT_BIT) true
    if vb.status ≠ Status.returned then
      ⟨{ w with vk := v }, c1 ++ vb.calls, vb.status⟩
    else
      let v : vk := { v with vert_buffer := vb.value }
      if v.vert_buffer.map_valid = false then
        ⟨{ w with vk := v }, c1 ++ vb.calls, Status.faulted⟩
      else
        let c2 := c1 ++ vb.calls ++ [Call.memcpy v.vert_buffer.map vVertices,
                                     Call.vkUnmapMemory v.vert_buffer.memory]
        let v : vk :=
          { v with vert_buffer := { v.vert_buffer with map := 0, map_valid := false } }
        let ub := create_buffer ie.uniform_env v 64 VK_BUFFER_USAGE_UNIFORM_BUFFER_BIT
          (VK_MEMORY_PROPERTY_HOST_VISIBLE_BIT ||| VK_MEMORY_PROPERTY_HOST_COHERENT_BIT) true
        if ub.status ≠ Status.returned then
          ⟨{ w with vk := v }, c2 ++ ub.calls, ub.status⟩
        else
          let v : vk :=
            { v with
              uniform_buffer := ub.value
              desc_pool := Handle.desc_pool
              desc_set := Handle.desc_set
              cmd_pool := Handle.cmd_pool }
          ⟨{ w with vk := v },
           c2 ++ ub.calls ++ [s SetupCall.vkCreateDescriptorPool,
                              s SetupCall.vkAllocateDescriptorSets,
                              s SetupCall.vkUpdateDescriptorSets,
                              Call.vkCreateCommandPool
                                VK_COMMAND_POOL_CREATE_RESET_COMMAND_BUFFER_BIT ie.r_cmd_pool],
           Status.returned⟩

/-! ## `create_swapchain` -/

/-- What the runtime answers during `create_swapchain`: result codes, the
surface capabilities and the number of images of the swapchain.  `image_count`
is what the first `vkGetSwapchainImagesKHR` stores in `vk->image_count`; the
second call, which is handed that count, leaves it as it is. -/
structure SwapchainEnv where
  r_support : VkResult
  surface_supported : Nat
  r_caps : VkResult
  supportedCompositeAlpha : Nat
  minImageCount : Nat
  r_swapchain : VkResult
  r_images_count : VkResult
  image_count : Nat
  r_images : VkResult
  r_view : Nat → VkResult
  r_framebuffer : Nat → VkResult
  r_fence : Nat → VkResult
  r_cmd_buffer : Nat → VkResult
  r_image_semaphore : VkResult
  r_render_semaphore : VkResult

/-- The body of the per-image loop of `create_swapchain` (lines 577-632) for
index `i`: the slot it fills and the calls it makes. -/
def swapchain_slot (se : SwapchainEnv) (w : window) (i : Nat) :
    window_buffer × List Call :=
  let wb : window_buffer :=
    ⟨Handle.image i, Handle.view i, Handle.framebuffer i, Handle.fence i,
     Handle.cmd_buffer i⟩
  (wb,
   [Call.vkCreateImageView wb.image VK_IMAGE_VIEW_TYPE_2D w.vk.image_format (se.r_view i),
    Call.vkCreateFramebuffer w.vk.render_pass wb.view w.width w.height 1
      (se.r_framebuffer i),
    Call.vkCreateFence VK_FENCE_CREATE_SIGNALED_BIT wb.cmd_fence (se.r_fence i),
    Call.vkAllocateCommandBuffers w.vk.cmd_pool VK_COMMAND_BUFFER_LEVEL_PRIMARY 1
      (se.r_cmd_buffer i)])

/-- The per-image loop of `create_swapchain` (line 576), entered at index `i`
with `n` iterations to go, on the array and the calls made so far. -/
def swapchain_loop (se : SwapchainEnv) (w : window) :
    Nat → Nat → (Nat → window_buffer) × List Call → (Nat → window_buffer) × List Call
  | 0, _, acc => acc
  | n + 1, i, acc =>
    swapchain_loop se w n (i + 1)
      (Function.update acc.1 i (swapchain_slot se w i).1,
       acc.2 ++ (swapchain_slot se w i).2)

/-- The `VkSwapchainCreateInfoKHR` of lines 550-566. -/
def swapchain_info (se : SwapchainEnv) (w : window) : VkSwapchainCreateInfoKHR :=
  { flags := 0
    surface := w.vk.surface
    minImageCount := se.minImageCount
    imageFormat := w.vk.image_format
    imageColorSpace := VK_COLOR_SPACE_SRGB_NONLINEAR_KHR
    imageExtent := (w.width, w.height)
    imageArrayLayers := 1
    imageUsage := VK_IMAGE_USAGE_COLOR_ATTACHMENT_BIT
    imageSharingMode := VK_SHARING_MODE_EXCLUSIVE
    queueFamilyIndices := [0]
    preTransform := VK_SURFACE_TRANSFORM_IDENTITY_BIT_KHR
    compositeAlpha := VK_COMPOSITE_ALPHA_PRE_MULTIPLIED_BIT_KHR
    presentMode := VK_PRESENT_MODE_FIFO_KHR }

/-- The C function `create_swapchain`. -/
def create_swapchain (se : SwapchainEnv) (w : window) : Exec window :=
  let c1 := [Call.vkGetPhysicalDeviceSurfaceSupportKHR w.vk.surface se.r_support]
  if se.surface_supported = 0 then ⟨w, c1, Status.aborted⟩
  else
    let c2 := c1 ++ [Call.vkGetPhysicalDeviceSurfaceCapabilitiesKHR w.vk.surface se.r_caps]
    if se.supportedCompositeAlpha &&& VK_COMPOSITE_ALPHA_OPAQUE_BIT_KHR = 0 then
      ⟨w, c2, Status.aborted⟩
    else if ¬ (se.minImageCount ≥ 2 ∧ se.minImageCount ≤ MAX_NUM_IMAGES) then
      ⟨w, c2, Status.aborted⟩
    else
      let v : vk := { w.vk with swap_chain := Handle.swap_chain }
      let c3 := c2 ++ [Call.vkCreateSwapchainKHR (swapchain_info se w) se.r_swapchain,
                       Call.vkGetSwapchainImagesKHR v.swap_chain se.r_images_count]
      let v : vk := { v with image_count := se.image_count }
      if ¬ (v.image_count > 0 ∧ v.image_count ≤ MAX_NUM_IMAGES) then
        ⟨{ w with vk := v }, c3, Status.aborted⟩
      else
        let c4 := c3 ++ [Call.vkGetSwapchainImagesKHR v.swap_chain se.r_images]
        let l := swapchain_loop se { w with vk := v } v.image_count 0 (v.win_buffers, c4)
        let v : vk :=
          { v with
            win_buffers := l.1
            image_semaphore := Handle.image_semaphore
            render_semaphore := Handle.render_semaphore }
        ⟨{ w with vk := v },
         l.2 ++ [Call.vkCreateSemaphore Handle.image_semaphore se.r_image_semaphore,
                 Call.vkCreateSemaphore Handle.render_semaphore se.r_render_semaphore],
         Status.returned⟩

/-! ## `redraw` and the frame loop of `main` -/

/-- What the runtime answers during one `redraw`.  `index` is what
`vkAcquireNextImageKHR` leaves in the local `index`; `present_result` is the
content of the local `r` after `vkQueuePresentKHR`, which stores the
per-swapchain result there through `pResults`, and `r_present` is the value the
call returns. -/
structure FrameEnv where
  r_acquire : VkResult
  index : Nat
  r_wait : VkResult
  r_reset : VkResult
  r_begin : VkResult
  r_end : VkResult
  r_submit : VkResult
  r_present : VkResult
  present_result : VkResult
  r_idle : VkResult
  deriving DecidableEq, Repr

/-- The 4x4 identity matrix `redraw` copies into the uniform buffer. -/
def identity_matrix : List Nat :=
  [f32_1, f32_0, f32_0, f32_0,
   f32_0, f32_1, f32_0, f32_0,
   f32_0, f32_0, f32_1, f32_0,
   f32_0, f32_0, f32_0, f32_1]

/-- The call of lines 651-652. -/
def acquire_call (e : FrameEnv) (w : window) : Call :=
  Call.vkAcquireNextImageKHR w.vk.swap_chain UINT64_MAX w.vk.image_semaphore
    Handle.null e.r_acquire e.index

/-- The calls of lines 657-658 on the slot `wb`: fence wait and fence reset. -/
def fence_calls (e : FrameEnv) (wb : window_buffer) : List Call :=
  [Call.vkWaitForFences wb.cmd_fence true UINT64_MAX e.r_wait,
   Call.vkResetFences wb.cmd_fence e.r_reset]

/-- The calls of lines 660-720 on the slot `wb`: the recording of the command
buffer, with the host write of the uniform data in its place. -/
def record_calls (e : FrameEnv) (w : window) (wb : window_buffer) : List Call :=
  [Call.vkBeginCommandBuffer wb.cmd_buffer 0 e.r_begin,
   Call.vkCmdBeginRenderPass wb.cmd_buffer w.vk.render_pass wb.framebuffer
     ((0, 0), (w.width, w.height)) [f32_0, f32_0, f32_0, f32_half]
     VK_SUBPASS_CONTENTS_INLINE,
   Call.vkCmdBindVertexBuffers wb.cmd_buffer w.vk.vert_buffer.buffer 0,
   Call.vkCmdBindPipeline wb.cmd_buffer VK_PIPELINE_BIND_POINT_GRAPHICS w.vk.pipeline,
   Call.memcpy w.vk.uniform_buffer.map identity_matrix,
   Call.vkCmdBindDescriptorSets wb.cmd_buffer VK_PIPELINE_BIND_POINT_GRAPHICS
     w.vk.pipeline_layout w.vk.desc_set,
   Call.vkCmdSetViewport wb.cmd_buffer 0 0 w.width w.height 0 1,
   Call.vkCmdSetScissor wb.cmd_buffer (0, 0) (w.width, w.height),
   Call.vkCmdDraw wb.cmd_buffer 3 1 0 0,
   Call.vkCmdEndRenderPass wb.cmd_buffer,
   Call.vkEndCommandBuffer wb.cmd_buffer e.r_end]

/-- The call of lines 722-740. -/
def submit_call (e : FrameEnv) (w : window) (wb : window_buffer) : Call :=
  Call.vkQueueSubmit
    { waitSemaphores := [w.vk.image_semaphore]
      waitDstStageMask := [VK_PIPELINE_STAGE_COLOR_ATTACHMENT_OUTPUT_BIT]
      signalSemaphores := [w.vk.render_semaphore]
      commandBuffers := [wb.cmd_buffer] }
    wb.cmd_fence e.r_submit

/-- The call of lines 742-751. -/
def present_call (e : FrameEnv) (w : window) : Call :=
  Call.vkQueuePresentKHR
    { waitSemaphores := [w.vk.render_semaphore]
      swapchains := [w.vk.swap_chain]
      imageIndices := [e.index] }
    e.r_present e.present_result

/-- The calls of lines 660-686 on the slot `wb`: what `redraw` has recorded
when it reaches the host write of line 689. -/
def record_calls_before_write (e : FrameEnv) (w : window) (wb : window_buffer) :
    List Call :=
  (record_calls e w wb).take 4

/-- The C function `redraw`.  It leaves the window unchanged, so its value is
`Unit`.  The `memcpy` of line 689 stores through `vk->uniform_buffer.map`: when
that pointer is not valid the function ends there, after the seven calls made
so far. -/
def redraw (e : FrameEnv) (w : window) : Exec Unit :=
  let r := e.r_acquire
  let index := e.index
  let c1 := [acquire_call e w]
  if r ≠ VK_SUCCESS then ⟨(), c1, Status.aborted⟩
  else if ¬ index < MAX_NUM_IMAGES then ⟨(), c1, Status.undefined⟩
  else
    let win_buffer := w.vk.win_buffers index
    let c2 := c1 ++ fence_calls e win_buffer
    if w.vk.uniform_buffer.map_valid = false then
      ⟨(), c2 ++ record_calls_before_write e w win_buffer, Status.faulted⟩
    else
      let c3 := c2 ++ record_calls e w win_buffer ++
        [submit_call e w win_buffer, present_call e w]
      let r := e.present_result
      if r ≠ VK_SUCCESS then ⟨(), c3, Status.aborted⟩
      else ⟨(), c3 ++ [Call.vkQueueWaitIdle e.r_idle], Status.returned⟩

/-- The loop `while (wl_display_dispatch_pending(...) != -1) redraw(window);`
of `main`: one `FrameEnv` for each iteration the event dispatch allows.  The
value is the list of the redraws executed, in order; the loop ends with the
first redraw that does not return. -/
def frame_loop (w : window) : List FrameEnv → List (Exec Unit)
  | [] => []
  | e :: es =>
    if (redraw e w).status = Status.returned then redraw e w :: frame_loop w es
    else [redraw e w]

/-- All the calls of a list of executions, in order. -/
def trace (frames : List (Exec Unit)) : List Call :=
  (frames.map (fun f => f.calls)).flatten

/-- The zero-initialised `struct window` of `main` (`struct display display =
{0}`) after lines 761-762 set the size and the configure event has arrived. -/
def main_window : window :=
  { width := 250
    height := 250
    wait_for_configure := false
    vk :=
      { swap_chain := Handle.null
        memory_properties := ⟨0, []⟩
        render_pass := Handle.null
        pipeline_layout := Handle.null
        pipeline := Handle.null
        desc_set_layout := Handle.null
        desc_set := Handle.null
        image_semaphore := Handle.null
        render_semaphore := Handle.null
        cmd_pool := Handle.null
        surface := Handle.null
        image_format := 0
        image_count := 0
        vert_buffer := ⟨Handle.null, Handle.null, 0, 0, false⟩
        uniform_buffer := ⟨Handle.null, Handle.null, 0, 0, false⟩
        desc_pool := Handle.null
        win_buffers := fun _ =>
          ⟨Handle.null, Handle.null, Handle.null, Handle.null, Handle.null⟩ } }

/-! ## What the host knows about the GPU

The spec's glossary: a fence is "a CPU-observable, GPU-signaled binary
primitive used to detect completion of submitted work", and a frame in flight
is "a frame whose GPU work has been submitted but not yet confirmed complete".
`Gpu` keeps exactly that: the fences that are signaled as far as the calls so
far tell, and the submissions not yet confirmed complete, newest first.  A
submission is confirmed complete by a successful queue-idle wait, or by a
successful wait on its fence when the fence was not already known to be
signaled: a fence that is signaled since its creation, or that a failed reset
left signaled, lets the wait return at once, which tells nothing about the work
submitted since.  When several submissions in flight carry the same fence (the
fence was reset and used again although a wait on it had failed), the fence is
signaled as soon as the oldest of them completes, so a successful wait confirms
that one only.  A call that reports failure confirms nothing and changes
nothing. -/

/-- The fences known to be signaled and the submissions in flight, each as the
pair of its command buffer and its fence. -/
structure Gpu where
  signaled : List Handle
  in_flight : List (Handle × Handle)
  deriving DecidableEq, Repr

/-- The state before any call. -/
def Gpu.init : Gpu := ⟨[], []⟩

/-- The submissions in flight without the oldest of those made with `fence`,
the list being ordered newest first. -/
def retire_oldest (fence : Handle) : List (Handle × Handle) → List (Handle × Handle)
  | [] => []
  | s :: rest =>
    if s.2 = fence ∧ ∀ t ∈ rest, t.2 ≠ fence then rest
    else s :: retire_oldest fence rest

/-- The effect of one call on what the host knows about the GPU. -/
def Gpu.step (g : Gpu) : Call → Gpu
  | Call.vkCreateFence flags fence r =>
    if r = VK_SUCCESS ∧ flags &&& VK_FENCE_CREATE_SIGNALED_BIT ≠ 0 then
      { g with signaled := fence :: g.signaled }
    else g
  | Call.vkWaitForFences fence _ _ r =>
    if r = VK_SUCCESS ∧ fence ∉ g.signaled then
      { signaled := fence :: g.signaled
        in_flight := retire_oldest fence g.in_flight }
    else g
  | Call.vkResetFences fence r =>
    if r = VK_SUCCESS then
      { g with signaled := g.signaled.filter (fun f => decide (f ≠ fence)) }
    else g
  | Call.vkQueueSubmit info fence r =>
    if r = VK_SUCCESS then
      { g with in_flight := info.commandBuffers.map (fun c => (c, fence)) ++ g.in_flight }
    else g
  | Call.vkQueueWaitIdle r =>
    if r = VK_SUCCESS then
      { signaled := g.in_flight.map (fun s => s.2) ++ g.signaled
        in_flight := [] }
    else g
  | _ => g

/-- What the host knows after a sequence of calls. -/
def Gpu.after (g : Gpu) (calls : List Call) : Gpu :=
  calls.foldl Gpu.step g

/-- Work submitted with the command buffer `cmd` is still in flight. -/
def Gpu.outstanding (g : Gpu) (cmd : Handle) : Prop :=
  ∃ s ∈ g.in_flight, s.1 = cmd

/-- A wait on `fence` has to block: the fence is not known to be signaled. -/
def Gpu.blocks (g : Gpu) (fence : Handle) : Prop :=
  fence ∉ g.signaled

/-- Every submission in flight was made with the command buffer and the fence
of one slot, its fence is not known to be signaled, and no two of them carry
the same fence, so that a successful wait on a fence confirms the submission
made with it. -/
def Gpu.armed (g : Gpu) : Prop :=
  (∀ s ∈ g.in_flight,
    (∃ j, s = (Handle.cmd_buffer j, Handle.fence j)) ∧ s.2 ∉ g.signaled) ∧
  (g.in_flight.map (fun s => s.2)).Nodup

instance (g : Gpu) (cmd : Handle) : Decidable (g.outstanding cmd) := by
  unfold Gpu.outstanding; infer_instance

instance (g : Gpu) (fence : Handle) : Decidable (g.blocks fence) := by
  unfold Gpu.blocks; infer_instance

/-! ## Concrete runs -/

/-- A surface that supports opaque compositing and asks for at least two
images, with a swapchain of `n` images, every call succeeding. -/
def surface_env (n : Nat) : SwapchainEnv :=
  { r_support := VK_SUCCESS
    surface_supported := 1
    r_caps := VK_SUCCESS
    supportedCompositeAlpha := VK_COMPOSITE_ALPHA_OPAQUE_BIT_KHR
    minImageCount := 2
    r_swapchain := VK_SUCCESS
    r_images_count := VK_SUCCESS
    image_count := n
    r_images := VK_SUCCESS
    r_view := fun _ => VK_SUCCESS
    r_framebuffer := fun _ => VK_SUCCESS
    r_fence := fun _ => VK_SUCCESS
    r_cmd_buffer := fun _ => VK_SUCCESS
    r_image_semaphore := VK_SUCCESS
    r_render_semaphore := VK_SUCCESS }

/-- A frame in which the acquire returns `index` and every call succeeds. -/
def frame_ok (index : Nat) : FrameEnv :=
  { r_acquire := VK_SUCCESS
    index := index
    r_wait := VK_SUCCESS
    r_reset := VK_SUCCESS
    r_begin := VK_SUCCESS
    r_end := VK_SUCCESS
    r_submit := VK_SUCCESS
    r_present := VK_SUCCESS
    present_result := VK_SUCCESS
    r_idle := VK_SUCCESS }

/-- A frame on slot 0 whose queue-idle wait fails for lack of host memory. -/
def frame_idle_fails : FrameEnv :=
  { frame_ok 0 with r_idle := VK_ERROR_OUT_OF_HOST_MEMORY }

/-- A frame on slot `index` whose fence wait fails for lack of host memory. -/
def frame_wait_fails (index : Nat) : FrameEnv :=
  { frame_ok index with r_wait := VK_ERROR_OUT_OF_HOST_MEMORY }

/-- A frame on slot `index` whose fence wait and queue-idle wait both fail for
lack of host memory. -/
def frame_waits_fail (index : Nat) : FrameEnv :=
  { frame_ok index with
    r_wait := VK_ERROR_OUT_OF_HOST_MEMORY
    r_idle := VK_ERROR_OUT_OF_HOST_MEMORY }

/-! ## The acquire, submit and present calls of one slot -/

/-- What a call is to an image slot: a successful acquire that returns the
slot, a queue submit that references it, a present that references it. -/
inductive SlotEvent where
  | acquire
  | submit
  | present
  deriving DecidableEq, Repr

/-- The part a call plays for the slot `slot` of the window `w`, if any.  A
submit references the slot when it names the command buffer or the fence of
the slot; a present references it when it names its image index. -/
def slot_event (w : window) (slot : Nat) : Call → Option SlotEvent
  | Call.vkAcquireNextImageKHR _ _ _ _ r index =>
    if r = VK_SUCCESS ∧ index = slot then some SlotEvent.acquire else none
  | Call.vkQueueSubmit info fence _ =>
    if (w.vk.win_buffers slot).cmd_buffer ∈ info.commandBuffers ∨
        fence = (w.vk.win_buffers slot).cmd_fence then some SlotEvent.submit
    else none
  | Call.vkQueuePresentKHR info _ _ =>
    if slot ∈ info.imageIndices then some SlotEvent.present else none
  | _ => none

/-- The slot events of `n` complete frames on one slot. -/
def cycles : Nat → List SlotEvent
  | 0 => []
  | n + 1 => SlotEvent.acquire :: SlotEvent.submit :: SlotEvent.present :: cycles n

/-- A device with one memory type, host-visible and host-coherent. -/
def host_memory_vk : vk :=
  { main_window.vk with
    memory_properties :=
      ⟨1, [⟨VK_MEMORY_PROPERTY_HOST_VISIBLE_BIT ||| VK_MEMORY_PROPERTY_HOST_COHERENT_BIT, 0⟩]⟩ }

/-- A `create_buffer` in which `vkMapMemory` fails and every other call
succeeds. -/
def buffer_env_map_fails : BufferEnv :=
  { id := 1
    r_create := VK_SUCCESS
    reqs := ⟨64, 64, 1⟩
    r_alloc := VK_SUCCESS
    r_bind := VK_SUCCESS
    r_map := VK_ERROR_MEMORY_MAP_FAILED
    mapped := 0
    uninit_map := 57005 }

/-- The surface of `surface_env` reporting a minimum image count of `m`, with
a swapchain of `n` images. -/
def surface_env_min (m n : Nat) : SwapchainEnv :=
  { surface_env n with minImageCount := m }

/-- A `create_buffer` in which every call succeeds, for the buffer `id`. -/
def buffer_env_ok (id : Nat) : BufferEnv :=
  { id := id
    r_create := VK_SUCCESS
    reqs := ⟨256, 256, 1⟩
    r_alloc := VK_SUCCESS
    r_bind := VK_SUCCESS
    r_map := VK_SUCCESS
    mapped := 4096 * (id + 1)
    uninit_map := 57005 }

/-- An `init_vulkan` in which every call succeeds, on a device with one memory
type, host-visible and host-coherent, and a surface that reports `formats`. -/
def init_env (formats : List VkSurfaceFormatKHR) : InitEnv :=
  { r_setup := fun _ => VK_SUCCESS
    physical_device_count := 1
    memory_properties :=
      ⟨1, [⟨VK_MEMORY_PROPERTY_HOST_VISIBLE_BIT ||| VK_MEMORY_PROPERTY_HOST_COHERENT_BIT, 0⟩]⟩
    queue_family_count := 1
    queue_flags0 := VK_QUEUE_GRAPHICS_BIT
    wayland_presentation_support := 1
    formats := formats
    r_render_pass := VK_SUCCESS
    vert_env := buffer_env_ok 0
    uniform_env := buffer_env_ok 1
    r_cmd_pool := VK_SUCCESS }

/-- The format list of the scenario of the spec:
`[R8G8B8A8_UNORM, B8G8R8A8_UNORM]`. -/
def rgba_then_bgra : List VkSurfaceFormatKHR :=
  [⟨VK_FORMAT_R8G8B8A8_UNORM, VK_COLOR_SPACE_SRGB_NONLINEAR_KHR⟩,
   ⟨VK_FORMAT_B8G8R8A8_UNORM, VK_COLOR_SPACE_SRGB_NONLINEAR_KHR⟩]

/-! ## The memory type the spec describes -/

/-- The memory type of the spec's words, "the first one satisfying both the
resource's hardware requirements and the requested property flags": the lowest
index below `memoryTypeCount` whose bit is set in `memoryTypeBits` and whose
property flags contain every requested flag. -/
def first_complying_type (mp : VkPhysicalDeviceMemoryProperties)
    (memoryTypeBits properties : Nat) : Option Nat :=
  (List.range mp.memoryTypeCount).find? (fun i =>
    memoryTypeBits.testBit i &&
      decide ((mp.memoryTypes.getD i ⟨0, 0⟩).propertyFlags &&& properties = properties))

/-- A device with two memory types: type 0 host-visible and host-cached but not
host-coherent, type 1 host-visible and host-coherent. -/
def cached_then_coherent_vk : vk :=
  { main_window.vk with
    memory_properties :=
      ⟨2, [⟨VK_MEMORY_PROPERTY_HOST_VISIBLE_BIT ||| VK_MEMORY_PROPERTY_HOST_CACHED_BIT, 0⟩,
           ⟨VK_MEMORY_PROPERTY_HOST_VISIBLE_BIT ||| VK_MEMORY_PROPERTY_HOST_COHERENT_BIT, 0⟩]⟩ }

/-- A `create_buffer` whose buffer may live in memory type 0 or 1. -/
def buffer_env_two_types : BufferEnv :=
  { buffer_env_ok 1 with reqs := ⟨64, 64, 3⟩ }

/-- A device with two memory types: type 0 device-local only, type 1
host-visible and host-coherent; none is both device-local and host-visible. -/
def local_then_host_vk : vk :=
  { main_window.vk with
    memory_properties :=
      ⟨2, [⟨VK_MEMORY_PROPERTY_DEVICE_LOCAL_BIT, 0⟩,
           ⟨VK_MEMORY_PROPERTY_HOST_VISIBLE_BIT ||| VK_MEMORY_PROPERTY_HOST_COHERENT_BIT, 1⟩]⟩ }

/-! ## What the command buffers hold

The life cycle of a Vulkan command buffer, as far as the program drives it:
`vkBeginCommandBuffer` puts a buffer into the recording state with an empty
command sequence; on a buffer that has been recorded before this is allowed
only if its pool was created with
`VK_COMMAND_POOL_CREATE_RESET_COMMAND_BUFFER_BIT`, and it then discards the old
sequence.  Each `vkCmd*` call appends itself to the sequence of a buffer that
is recording, and `vkEndCommandBuffer` closes the sequence.  Anything else, or
a begin or end that reports failure, leaves the buffer invalid.  (Whether the
buffer is still in use by the GPU is the subject of `Gpu`, not of this state.) -/

/-- The state of one command buffer. -/
inductive CmdState where
  | initial
  | recording (cmds : List Call)
  | executable (cmds : List Call)
  | invalid
  deriving DecidableEq, Repr

/-- Whether the command pool lets its buffers be begun again, and the state of
every command buffer. -/
structure Recorder where
  resettable : Bool
  state : Handle → CmdState

/-- The state before any call. -/
def Recorder.init : Recorder := ⟨false, fun _ => CmdState.initial⟩

/-- The effect of a `vkCmd*` call `c` on the command buffer `cmd`. -/
def Recorder.record (rc : Recorder) (cmd : Handle) (c : Call) : Recorder :=
  { rc with
    state := Function.update rc.state cmd
      (match rc.state cmd with
       | CmdState.recording l => CmdState.recording (l ++ [c])
       | _ => CmdState.invalid) }

/-- The effect of one call on the command buffers. -/
def Recorder.step (rc : Recorder) : Call → Recorder
  | Call.vkCreateCommandPool flags r =>
    { rc with
      resettable := decide (r = VK_SUCCESS ∧
        flags &&& VK_COMMAND_POOL_CREATE_RESET_COMMAND_BUFFER_BIT ≠ 0) }
  | Call.vkBeginCommandBuffer cmd _ r =>
    { rc with
      state := Function.update rc.state cmd
        (match rc.state cmd with
         | CmdState.recording _ => CmdState.invalid
         | CmdState.initial =>
           if r = VK_SUCCESS then CmdState.recording [] else CmdState.invalid
         | _ =>
           if r = VK_SUCCESS ∧ rc.resettable = true then CmdState.recording []
           else CmdState.invalid) }
  | Call.vkEndCommandBuffer cmd r =>
    { rc with
      state := Function.update rc.state cmd
        (match rc.state cmd with
         | CmdState.recording l =>
           if r = VK_SUCCESS then CmdState.executable l else CmdState.invalid
         | _ => CmdState.invalid) }
  | Call.vkCmdBeginRenderPass cmd rp fb area clear contents =>
    rc.record cmd (Call.vkCmdBeginRenderPass cmd rp fb area clear contents)
  | Call.vkCmdBindVertexBuffers cmd vb offset =>
    rc.record cmd (Call.vkCmdBindVertexBuffers cmd vb offset)
  | Call.vkCmdBindPipeline cmd bp pipeline =>
    rc.record cmd (Call.vkCmdBindPipeline cmd bp pipeline)
  | Call.vkCmdBindDescriptorSets cmd bp layout ds =>
    rc.record cmd (Call.vkCmdBindDescriptorSets cmd bp layout ds)
  | Call.vkCmdSetViewport cmd x y width height minDepth maxDepth =>
    rc.record cmd (Call.vkCmdSetViewport cmd x y width height minDepth maxDepth)
  | Call.vkCmdSetScissor cmd offset extent =>
    rc.record cmd (Call.vkCmdSetScissor cmd offset extent)
  | Call.vkCmdDraw cmd vc ic fv fi =>
    rc.record cmd (Call.vkCmdDraw cmd vc ic fv fi)
  | Call.vkCmdEndRenderPass cmd =>
    rc.record cmd (Call.vkCmdEndRenderPass cmd)
  | _ => rc

/-- The command buffers after a sequence of calls. -/
def Recorder.after (rc : Recorder) (calls : List Call) : Recorder :=
  calls.foldl Recorder.step rc

/-- A recorded command with what belongs to the slot taken out: the command
buffer it was recorded into and, for the render pass, the framebuffer. -/
def Call.erase_slot : Call → Call
  | Call.vkCmdBeginRenderPass _ rp _ area clear contents =>
    Call.vkCmdBeginRenderPass Handle.null rp Handle.null area clear contents
  | Call.vkCmdBindVertexBuffers _ vb offset =>
    Call.vkCmdBindVertexBuffers Handle.null vb offset
  | Call.vkCmdBindPipeline _ bp pipeline =>
    Call.vkCmdBindPipeline Handle.null bp pipeline
  | Call.vkCmdBindDescriptorSets _ bp layout ds =>
    Call.vkCmdBindDescriptorSets Handle.null bp layout ds
  | Call.vkCmdSetViewport _ x y width height minDepth maxDepth =>
    Call.vkCmdSetViewport Handle.null x y width height minDepth maxDepth
  | Call.vkCmdSetScissor _ offset extent =>
    Call.vkCmdSetScissor Handle.null offset extent
  | Call.vkCmdDraw _ vc ic fv fi =>
    Call.vkCmdDraw Handle.null vc ic fv fi
  | Call.vkCmdEndRenderPass _ =>
    Call.vkCmdEndRenderPass Handle.null
  | c => c

/-- Whether a call has an effect on the command buffers. -/
def Call.touches_recorder : Call → Bool
  | Call.vkCreateCommandPool _ _ => true
  | Call.vkBeginCommandBuffer _ _ _ => true
  | Call.vkEndCommandBuffer _ _ => true
  | Call.vkCmdBeginRenderPass _ _ _ _ _ _ => true
  | Call.vkCmdBindVertexBuffers _ _ _ => true
  | Call.vkCmdBindPipeline _ _ _ => true
  | Call.vkCmdBindDescriptorSets _ _ _ _ => true
  | Call.vkCmdSetViewport _ _ _ _ _ _ _ => true
  | Call.vkCmdSetScissor _ _ _ => true
  | Call.vkCmdDraw _ _ _ _ _ => true
  | Call.vkCmdEndRenderPass _ => true
  | _ => false

/-- The window `main` has after `init_vulkan` and a `create_swapchain` with two
images, every call succeeding. -/
def ready_window : window :=
  (create_swapchain (surface_env 2)
    (init_vulkan (init_env rgba_then_bgra) main_window).value).value

/-- The window `main` has after an `init_vulkan` in which every call succeeds:
`ready_window` is what `create_swapchain` makes of it. -/
def initialised_window : window :=
  (init_vulkan (init_env rgba_then_bgra) main_window).value

/-- A frame on slot 0 whose fence reset fails for lack of device memory and
whose queue-idle wait fails for lack of host memory. -/
def frame_reset_and_idle_fail : FrameEnv :=
  { frame_ok 0 with
    r_reset := VK_ERROR_OUT_OF_DEVICE_MEMORY
    r_idle := VK_ERROR_OUT_OF_HOST_MEMORY }

/-- An `init_vulkan` in which the mapping of the vertex buffer fails. -/
def init_env_vertex_map_fails : InitEnv :=
  { init_env rgba_then_bgra with vert_env := { buffer_env_map_fails with id := 0 } }

/-- An `init_vulkan` in which the mapping of the uniform buffer fails. -/
def init_env_uniform_map_fails : InitEnv :=
  { init_env rgba_then_bgra with uniform_env := buffer_env_map_fails }

/-- An `init_vulkan` whose last call, `vkCreateCommandPool`, fails for lack of
host memory, every other call succeeding. -/
def init_env_pool_fails : InitEnv :=
  { init_env rgba_then_bgra with r_cmd_pool := VK_ERROR_OUT_OF_HOST_MEMORY }

/-- A `create_swapchain` whose last call, the creation of the render-complete
semaphore, fails for lack of host memory, every other call succeeding. -/
def surface_env_semaphore_fails : SwapchainEnv :=
  { surface_env 2 with r_render_semaphore := VK_ERROR_OUT_OF_HOST_MEMORY }

/-- The `vkCmd*` calls of `redraw` (lines 667-719) on the slot `wb`, in order:
the calls of `record_calls` without the begin, the host write and the end. -/
def recorded_commands (w : window) (wb : window_buffer) : List Call :=
  [Call.vkCmdBeginRenderPass wb.cmd_buffer w.vk.render_pass wb.framebuffer
     ((0, 0), (w.width, w.height)) [f32_0, f32_0, f32_0, f32_half]
     VK_SUBPASS_CONTENTS_INLINE,
   Call.vkCmdBindVertexBuffers wb.cmd_buffer w.vk.vert_buffer.buffer 0,
   Call.vkCmdBindPipeline wb.cmd_buffer VK_PIPELINE_BIND_POINT_GRAPHICS w.vk.pipeline,
   Call.vkCmdBindDescriptorSets wb.cmd_buffer VK_PIPELINE_BIND_POINT_GRAPHICS
     w.vk.pipeline_layout w.vk.desc_set,
   Call.vkCmdSetViewport wb.cmd_buffer 0 0 w.width w.height 0 1,
   Call.vkCmdSetScissor wb.cmd_buffer (0, 0) (w.width, w.height),
   Call.vkCmdDraw wb.cmd_buffer 3 1 0 0,
   Call.vkCmdEndRenderPass wb.cmd_buffer]

/-! ## `main` -/

/-- What the window system and the runtime answer during `main`: whether
`wl_display_connect` returns a display, whether the registry round-trip binds
`xdg_wm_base` and `wl_compositor`, the answers during `init_vulkan` and
`create_swapchain`, and one `FrameEnv` for each iteration of the last loop.
The configure event is taken to arrive, so that the loop of lines 782-783
ends; the only listeners `main.c` installs answer pings, bind the two globals
and acknowledge the configure, and none of them stores to `width` or
`height`. -/
structure MainEnv where
  display_connected : Bool
  xdg_wm_base_bound : Bool
  wl_compositor_bound : Bool
  init : InitEnv
  swapchain : SwapchainEnv
  frames : List FrameEnv

/-- How the frame loop ends: with the last redraw if that one did not return,
and otherwise when the event dispatch reports its terminal condition. -/
def loop_status : List (Exec Unit) → Status
  | [] => Status.returned
  | [f] => f.status
  | _ :: f :: fs => loop_status (f :: fs)

/-- The C function `main`.  `main_window` is the window after lines 758-783:
zero-initialised, 250 by 250, configured. -/
def main (me : MainEnv) : Exec window :=
  if me.display_connected = false then ⟨main_window, [], Status.aborted⟩
  else if ¬ (me.xdg_wm_base_bound = true ∧ me.wl_compositor_bound = true) then
    ⟨main_window, [], Status.aborted⟩
  else
    let i := init_vulkan me.init main_window
    if i.status ≠ Status.returned then i
    else
      let c := create_swapchain me.swapchain i.value
      if c.status ≠ Status.returned then ⟨c.value, i.calls ++ c.calls, c.status⟩
      else
        let fs := frame_loop c.value me.frames
        ⟨c.value, i.calls ++ c.calls ++ trace fs, loop_status fs⟩

/-- Whether a call that carries an extent carries `width` by `height`, at the
origin: the image extent of the swapchain, the size of a framebuffer, the
render area, the viewport and the scissor. -/
def Call.uses_extent (width height : Int) : Call → Prop
  | Call.vkCreateSwapchainKHR info _ => info.imageExtent = (width, height)
  | Call.vkCreateFramebuffer _ _ wd ht _ _ => wd = width ∧ ht = height
  | Call.vkCmdBeginRenderPass _ _ _ area _ _ => area = ((0, 0), (width, height))
  | Call.vkCmdSetViewport _ x y wd ht _ _ => x = 0 ∧ y = 0 ∧ wd = width ∧ ht = height
  | Call.vkCmdSetScissor _ offset extent => offset = (0, 0) ∧ extent = (width, height)
  | _ => True

/-- A run of `main` with two images and the given frames, every call of the
set-up succeeding. -/
def main_env (frames : List FrameEnv) : MainEnv :=
  { display_connected := true
    xdg_wm_base_bound := true
    wl_compositor_bound := true
    init := init_env rgba_then_bgra
    swapchain := surface_env 2
    frames := frames }

/-! ## Lemmas on `create_swapchain` -/

theorem swapchain_loop_slots (se : SwapchainEnv) (w : window) (n : Nat) :
    ∀ (i : Nat) (acc : (Nat → window_buffer) × List Call) (j : Nat),
      (swapchain_loop se w n i acc).1 j =
        if i ≤ j ∧ j < i + n then (swapchain_slot se w j).1 else acc.1 j := by
  induction n with
  | zero =>
    intro i acc j
    have : ¬ (i ≤ j ∧ j < i) := by omega
    simp [swapchain_loop, this]
  | succ n ih =>
    intro i acc j
    rw [swapchain_loop, ih]
    by_cases hj : j = i
    · subst hj
      have h1 : ¬ (j + 1 ≤ j ∧ j < j + 1 + n) := by omega
      have h2 : j ≤ j ∧ j < j + (n + 1) := by omega
      simp [h1, h2]
    · by_cases h : i + 1 ≤ j ∧ j < i + 1 + n
      · have h2 : i ≤ j ∧ j < i + (n + 1) := by omega
        simp [h, h2]
      · have h2 : ¬ (i ≤ j ∧ j < i + (n + 1)) := by omega
        simp [h, h2, Function.update, hj]

theorem swapchain_loop_calls (se : SwapchainEnv) (w : window) (n : Nat) :
    ∀ (i : Nat) (acc : (Nat → window_buffer) × List Call),
      (swapchain_loop se w n i acc).2 =
        acc.2 ++ (List.range' i n).flatMap (fun j => (swapchain_slot se w j).2) := by
  induction n with
  | zero => intro i acc; simp [swapchain_loop]
  | succ n ih =>
    intro i acc
    rw [swapchain_loop, ih]
    simp [List.range'_succ, List.append_assoc]

/-- The conditions under which `create_swapchain` passes all four assertions. -/
theorem create_swapchain_returned_iff (se : SwapchainEnv) (w : window) :
    (create_swapchain se w).status = Status.returned ↔
      se.surface_supported ≠ 0 ∧
      se.supportedCompositeAlpha &&& VK_COMPOSITE_ALPHA_OPAQUE_BIT_KHR ≠ 0 ∧
      (2 ≤ se.minImageCount ∧ se.minImageCount ≤ MAX_NUM_IMAGES) ∧
      (0 < se.image_count ∧ se.image_count ≤ MAX_NUM_IMAGES) := by
  unfold create_swapchain
  by_cases h1 : se.surface_supported = 0
  · simp [h1]
  by_cases h2 : se.supportedCompositeAlpha &&& VK_COMPOSITE_ALPHA_OPAQUE_BIT_KHR = 0
  · simp [h1, h2]
  by_cases h3 : se.minImageCount ≥ 2 ∧ se.minImageCount ≤ MAX_NUM_IMAGES
  · by_cases h4 : se.image_count > 0 ∧ se.image_count ≤ MAX_NUM_IMAGES
    · simp only [h1, h2, h3, h4, if_false, if_true, not_true, not_false_iff, ne_eq,
        true_and, and_self]
    · have h4b : ¬ (0 < se.image_count ∧ se.image_count ≤ MAX_NUM_IMAGES) := h4
      simp [h1, h2, h3, h4, h4b]
  · have h3b : ¬ (2 ≤ se.minImageCount ∧ se.minImageCount ≤ MAX_NUM_IMAGES) := h3
    simp [h1, h2, h3, h3b]

/-- The calls of a `create_swapchain` that returns. -/
theorem create_swapchain_calls (se : SwapchainEnv) (w : window)
    (h : (create_swapchain se w).status = Status.returned) :
    (create_swapchain se w).calls =
      [Call.vkGetPhysicalDeviceSurfaceSupportKHR w.vk.surface se.r_support,
       Call.vkGetPhysicalDeviceSurfaceCapabilitiesKHR w.vk.surface se.r_caps,
       Call.vkCreateSwapchainKHR (swapchain_info se w) se.r_swapchain,
       Call.vkGetSwapchainImagesKHR Handle.swap_chain se.r_images_count,
       Call.vkGetSwapchainImagesKHR Handle.swap_chain se.r_images] ++
      (List.range' 0 se.image_count).flatMap (fun j => (swapchain_slot se w j).2) ++
      [Call.vkCreateSemaphore Handle.image_semaphore se.r_image_semaphore,
       Call.vkCreateSemaphore Handle.render_semaphore se.r_render_semaphore] := by
  obtain ⟨h1, h2, h3, h4⟩ := (create_swapchain_returned_iff se w).1 h
  have h3b : se.minImageCount ≥ 2 ∧ se.minImageCount ≤ MAX_NUM_IMAGES := h3
  have h4b : se.image_count > 0 ∧ se.image_count ≤ MAX_NUM_IMAGES := h4
  simp only [create_swapchain, h1, h2, h3b, h4b, if_false, not_true, swapchain_loop_calls]
  simp [swapchain_slot]

/-- The window a `create_swapchain` that returns leaves. -/
theorem create_swapchain_value (se : SwapchainEnv) (w : window)
    (h : (create_swapchain se w).status = Status.returned) :
    (create_swapchain se w).value.vk.image_count = se.image_count ∧
    (∀ j, (create_swapchain se w).value.vk.win_buffers j =
      if j < se.image_count then (swapchain_slot se w j).1 else w.vk.win_buffers j) ∧
    (create_swapchain se w).value.vk.image_semaphore = Handle.image_semaphore ∧
    (create_swapchain se w).value.vk.render_semaphore = Handle.render_semaphore ∧
    (create_swapchain se w).value.vk.swap_chain = Handle.swap_chain ∧
    (create_swapchain se w).value.vk.image_format = w.vk.image_format ∧
    (create_swapchain se w).value.width = w.width ∧
    (create_swapchain se w).value.height = w.height := by
  obtain ⟨h1, h2, h3, h4⟩ := (create_swapchain_returned_iff se w).1 h
  have h3b : se.minImageCount ≥ 2 ∧ se.minImageCount ≤ MAX_NUM_IMAGES := h3
  have h4b : se.image_count > 0 ∧ se.image_count ≤ MAX_NUM_IMAGES := h4
  simp [create_swapchain, h1, h2, h3b, h4b, swapchain_loop_slots, swapchain_slot]

/-! ## Lemmas on `Gpu` -/

theorem Gpu.after_append (g : Gpu) (a b : List Call) :
    g.after (a ++ b) = (g.after a).after b := by
  simp [Gpu.after, List.foldl_append]

theorem Gpu.after_cons (g : Gpu) (c : Call) (cs : List Call) :
    g.after (c :: cs) = (g.step c).after cs := rfl

theorem Gpu.after_nil (g : Gpu) : g.after [] = g := rfl

/-- The per-image loop of `create_swapchain` submits nothing and leaves
signaled every fence it creates successfully. -/
theorem Gpu.after_slots (se : SwapchainEnv) (w : window) (n : Nat) :
    ∀ (i : Nat) (g : Gpu),
      (g.after ((List.range' i n).flatMap (fun j => (swapchain_slot se w j).2))).in_flight
        = g.in_flight ∧
      ∀ f, f ∈ (g.after ((List.range' i n).flatMap
          (fun j => (swapchain_slot se w j).2))).signaled ↔
        (f ∈ g.signaled ∨ ∃ j, i ≤ j ∧ j < i + n ∧ se.r_fence j = VK_SUCCESS ∧
          f = Handle.fence j) := by
  induction n with
  | zero =>
    intro i g
    simp only [List.range'_zero, List.flatMap_nil, Gpu.after_nil, true_and]
    intro f
    constructor
    · exact fun h => Or.inl h
    · rintro (h | ⟨j, hj1, hj2, _⟩)
      · exact h
      · omega
  | succ n ih =>
    intro i g
    rw [List.range'_succ, List.flatMap_cons, Gpu.after_append]
    obtain ⟨ih1, ih2⟩ := ih (i + 1) (g.after (swapchain_slot se w i).2)
    rw [ih1]
    refine ⟨?_, ?_⟩
    · simp only [swapchain_slot, Gpu.after, List.foldl, Gpu.step]
      split_ifs <;> rfl
    · intro f
      rw [ih2]
      have hs : f ∈ (g.after (swapchain_slot se w i).2).signaled ↔
          (f ∈ g.signaled ∨ (se.r_fence i = VK_SUCCESS ∧ f = Handle.fence i)) := by
        simp only [swapchain_slot, Gpu.after, List.foldl, Gpu.step]
        by_cases hr : se.r_fence i = VK_SUCCESS
        · simp [hr, VK_FENCE_CREATE_SIGNALED_BIT, or_comm]
        · simp [hr]
      rw [hs]
      constructor
      · rintro (h | ⟨j, hj1, hj2, hj3, hj4⟩)
        · rcases h with h | ⟨h, h5⟩
          · exact Or.inl h
          · exact Or.inr ⟨i, le_refl _, by omega, h, h5⟩
        · exact Or.inr ⟨j, by omega, by omega, hj3, hj4⟩
      · rintro (h | ⟨j, hj1, hj2, hj3, hj4⟩)
        · exact Or.inl (Or.inl h)
        · by_cases hji : j = i
          · subst hji
            exact Or.inl (Or.inr ⟨hj3, hj4⟩)
          · exact Or.inr ⟨j, by omega, by omega, hj3, hj4⟩

/-- After a `create_swapchain` that returns nothing is in flight, and the
fences that are signaled are those the loop created successfully. -/
theorem Gpu.after_create_swapchain (se : SwapchainEnv) (w : window)
    (h : (create_swapchain se w).status = Status.returned) :
    (Gpu.init.after (create_swapchain se w).calls).in_flight = [] ∧
    ∀ f, f ∈ (Gpu.init.after (create_swapchain se w).calls).signaled ↔
      ∃ j, j < se.image_count ∧ se.r_fence j = VK_SUCCESS ∧ f = Handle.fence j := by
  rw [create_swapchain_calls se w h, Gpu.after_append, Gpu.after_append]
  have h0 : Gpu.init.after
      [Call.vkGetPhysicalDeviceSurfaceSupportKHR w.vk.surface se.r_support,
       Call.vkGetPhysicalDeviceSurfaceCapabilitiesKHR w.vk.surface se.r_caps,
       Call.vkCreateSwapchainKHR (swapchain_info se w) se.r_swapchain,
       Call.vkGetSwapchainImagesKHR Handle.swap_chain se.r_images_count,
       Call.vkGetSwapchainImagesKHR Handle.swap_chain se.r_images] = Gpu.init := rfl
  rw [h0]
  obtain ⟨a1, a2⟩ := Gpu.after_slots se w se.image_count 0 Gpu.init
  have h1 : ∀ g : Gpu, g.after
      [Call.vkCreateSemaphore Handle.image_semaphore se.r_image_semaphore,
       Call.vkCreateSemaphore Handle.render_semaphore se.r_render_semaphore] = g :=
    fun _ => rfl
  rw [h1]
  refine ⟨by rw [a1]; rfl, ?_⟩
  intro f
  rw [a2]
  simp [Gpu.init]

/-! ## Lemmas on `redraw` and the frame loop -/

/-- The calls and the end of a `redraw` whose acquire succeeds with an index
inside the array, the host pointer of the uniform buffer being valid. -/
theorem redraw_of_acquired (e : FrameEnv) (w : window)
    (hacq : e.r_acquire = VK_SUCCESS) (hidx : e.index < MAX_NUM_IMAGES)
    (hmap : w.vk.uniform_buffer.map_valid = true) :
    (redraw e w).calls =
      acquire_call e w :: (fence_calls e (w.vk.win_buffers e.index) ++
        record_calls e w (w.vk.win_buffers e.index) ++
        [submit_call e w (w.vk.win_buffers e.index), present_call e w] ++
        if e.present_result = VK_SUCCESS then [Call.vkQueueWaitIdle e.r_idle] else []) ∧
    (redraw e w).status =
      if e.present_result = VK_SUCCESS then Status.returned else Status.aborted := by
  unfold redraw
  by_cases hp : e.present_result = VK_SUCCESS <;> simp [hacq, hidx, hp, hmap]

/-- The calls and the end of a `redraw` whose acquire succeeds with an index
inside the array, the host pointer of the uniform buffer not being valid. -/
theorem redraw_of_faulted (e : FrameEnv) (w : window)
    (hacq : e.r_acquire = VK_SUCCESS) (hidx : e.index < MAX_NUM_IMAGES)
    (hmap : w.vk.uniform_buffer.map_valid = false) :
    (redraw e w).calls =
      acquire_call e w :: (fence_calls e (w.vk.win_buffers e.index) ++
        record_calls_before_write e w (w.vk.win_buffers e.index)) ∧
    (redraw e w).status = Status.faulted := by
  unfold redraw
  simp [hacq, hidx, hmap]

/-- The calls of a `redraw` whose acquire fails or returns an index outside the
array. -/
theorem redraw_of_not_acquired (e : FrameEnv) (w : window)
    (h : ¬ (e.r_acquire = VK_SUCCESS ∧ e.index < MAX_NUM_IMAGES)) :
    (redraw e w).calls = [acquire_call e w] ∧ (redraw e w).status ≠ Status.returned ∧
    (redraw e w).status ≠ Status.faulted := by
  unfold redraw
  by_cases ha : e.r_acquire = VK_SUCCESS
  · have hi : ¬ e.index < MAX_NUM_IMAGES := fun hi => h ⟨ha, hi⟩
    simp [ha, hi]
  · simp [ha]

/-- A `redraw` returns exactly when the acquire and the present both report
success and the host pointer of the uniform buffer is valid (the index being
inside the array). -/
theorem redraw_returned_iff (e : FrameEnv) (w : window) (hidx : e.index < MAX_NUM_IMAGES) :
    (redraw e w).status = Status.returned ↔
      e.r_acquire = VK_SUCCESS ∧ w.vk.uniform_buffer.map_valid = true ∧
      e.present_result = VK_SUCCESS := by
  unfold redraw
  by_cases ha : e.r_acquire = VK_SUCCESS <;>
    by_cases hm : w.vk.uniform_buffer.map_valid = true <;>
    by_cases hp : e.present_result = VK_SUCCESS <;> simp [ha, hidx, hp, hm]

theorem redraw_returned_acquired (e : FrameEnv) (w : window)
    (h : (redraw e w).status = Status.returned) :
    e.r_acquire = VK_SUCCESS ∧ e.index < MAX_NUM_IMAGES ∧ e.present_result = VK_SUCCESS ∧
    w.vk.uniform_buffer.map_valid = true := by
  by_cases ha : e.r_acquire = VK_SUCCESS ∧ e.index < MAX_NUM_IMAGES
  · have h2 := (redraw_returned_iff e w ha.2).1 h
    exact ⟨ha.1, ha.2, h2.2.2, h2.2.1⟩
  · exact absurd h (redraw_of_not_acquired e w ha).2.1

/-- The host writes at work.  When the mapping of the vertex buffer fails,
`init_vulkan` ends at the `memcpy` of line 469, after the `vkMapMemory` call.
When the mapping of the uniform buffer fails, `init_vulkan` returns, and the
first redraw ends at the `memcpy` of line 689, after seven calls, the last of
them `vkCmdBindPipeline`; so does the first redraw on a window `init_vulkan`
never filled. -/
theorem host_writes_need_a_mapping :
    ((init_vulkan init_env_vertex_map_fails main_window).status = Status.faulted ∧
     (init_vulkan init_env_vertex_map_fails main_window).calls.getLast? =
      some (Call.vkMapMemory (Handle.memory 0) 0 72 VK_ERROR_MEMORY_MAP_FAILED)) ∧
    ((init_vulkan init_env_uniform_map_fails main_window).status = Status.returned ∧
     (redraw (frame_ok 0) (create_swapchain (surface_env 2)
        (init_vulkan init_env_uniform_map_fails main_window).value).value).status =
      Status.faulted ∧
     (redraw (frame_ok 0) (create_swapchain (surface_env 2)
        (init_vulkan init_env_uniform_map_fails main_window).value).value).calls.length = 7 ∧
     (redraw (frame_ok 0) (create_swapchain (surface_env 2)
        (init_vulkan init_env_uniform_map_fails main_window).value).value).calls.getLast? =
      some (Call.vkCmdBindPipeline (Handle.cmd_buffer 0) VK_PIPELINE_BIND_POINT_GRAPHICS
        Handle.pipeline)) ∧
    ((redraw (frame_ok 0) (create_swapchain (surface_env 2) main_window).value).status =
      Status.faulted ∧
     (redraw (frame_ok 0) (create_swapchain (surface_env 2) main_window).value).calls.length =
      7) := by
  refine ⟨⟨by decide, by decide⟩, ⟨by decide, by decide, by decide, by decide⟩,
    ⟨by decide, by decide⟩⟩

theorem trace_nil : trace [] = [] := rfl

theorem trace_cons (f : Exec Unit) (fs : List (Exec Unit)) :
    trace (f :: fs) = f.calls ++ trace fs := by
  simp [trace]

theorem trace_append (a b : List (Exec Unit)) : trace (a ++ b) = trace a ++ trace b := by
  simp [trace]

/-- While the redraws return, the loop goes on. -/
theorem frame_loop_append (w : window) (earlier rest : List FrameEnv)
    (hret : ∀ x ∈ earlier, (redraw x w).status = Status.returned) :
    frame_loop w (earlier ++ rest) =
      earlier.map (fun x => redraw x w) ++ frame_loop w rest := by
  induction earlier with
  | nil => simp
  | cons x xs ih =>
    have hx : (redraw x w).status = Status.returned := hret x (List.mem_cons_self _ _)
    have hxs : ∀ y ∈ xs, (redraw y w).status = Status.returned :=
      fun y hy => hret y (List.mem_cons_of_mem _ hy)
    simp [frame_loop, hx, ih hxs]

theorem frame_loop_of_returned (w : window) (earlier : List FrameEnv)
    (hret : ∀ x ∈ earlier, (redraw x w).status = Status.returned) :
    frame_loop w earlier = earlier.map (fun x => redraw x w) := by
  have h := frame_loop_append w earlier [] hret
  simpa [frame_loop] using h

theorem retire_oldest_sublist (fence : Handle) (l : List (Handle × Handle)) :
    (retire_oldest fence l).Sublist l := by
  induction l with
  | nil => exact List.Sublist.refl _
  | cons s rest ih =>
    simp only [retire_oldest]
    split_ifs
    · exact List.sublist_cons_self _ _
    · exact ih.cons₂ _

/-- When at most one submission in flight carries the fence, none does once the
oldest is retired. -/
theorem retire_oldest_of_nodup (fence : Handle) (l : List (Handle × Handle))
    (h : (l.map (fun s => s.2)).Nodup) :
    ∀ s ∈ retire_oldest fence l, s.2 ≠ fence := by
  induction l with
  | nil => intro s hs; simp [retire_oldest] at hs
  | cons a rest ih =>
    rw [List.map_cons, List.nodup_cons] at h
    intro s hs
    simp only [retire_oldest] at hs
    split_ifs at hs with hc
    · exact hc.2 s hs
    · rcases List.mem_cons.1 hs with hs | hs
      · subst hs
        intro heq
        apply hc
        refine ⟨heq, ?_⟩
        intro t ht hteq
        apply h.1
        rw [heq, ← hteq]
        exact List.mem_map_of_mem _ ht
      · exact ih h.2 s hs

theorem Gpu.after_fence_calls (g : Gpu) (e : FrameEnv) (wb : window_buffer) :
    (g.after (fence_calls e wb)).in_flight =
      if e.r_wait = VK_SUCCESS ∧ wb.cmd_fence ∉ g.signaled then
        retire_oldest wb.cmd_fence g.in_flight
      else g.in_flight := by
  simp only [fence_calls, Gpu.after, List.foldl, Gpu.step]
  split_ifs <;> rfl

/-- A redraw that returns with a successful queue-idle wait leaves nothing in
flight. -/
theorem Gpu.idle_after_redraw (g : Gpu) (e : FrameEnv) (w : window)
    (hret : (redraw e w).status = Status.returned) (hidle : e.r_idle = VK_SUCCESS) :
    (g.after (redraw e w).calls).in_flight = [] := by
  obtain ⟨ha, hi, hp, hm⟩ := redraw_returned_acquired e w hret
  rw [(redraw_of_acquired e w ha hi hm).1, if_pos hp, Gpu.after_cons, Gpu.after_append]
  simp [Gpu.after, Gpu.step, hidle]

/-! ### Submissions are made with a fence that is not signaled

While the fence resets succeed, every submission in flight carries a fence that
is not known to be signaled. -/

theorem Gpu.armed_wait (g : Gpu) (fence : Handle) (a : Bool) (t : Nat) (r : VkResult)
    (h : g.armed) :
    (g.step (Call.vkWaitForFences fence a t r)).armed ∧
    (r = VK_SUCCESS →
      ∀ s ∈ (g.step (Call.vkWaitForFences fence a t r)).in_flight, s.2 ≠ fence) := by
  simp only [Gpu.step]
  split_ifs with hc
  · refine ⟨⟨?_, ?_⟩, fun _ => retire_oldest_of_nodup fence _ h.2⟩
    · intro s hs
      have hs1 := (retire_oldest_sublist fence g.in_flight).subset hs
      refine ⟨(h.1 s hs1).1, ?_⟩
      simp only [List.mem_cons, not_or]
      exact ⟨retire_oldest_of_nodup fence _ h.2 s hs, (h.1 s hs1).2⟩
    · exact h.2.sublist ((retire_oldest_sublist fence g.in_flight).map _)
  · refine ⟨h, ?_⟩
    intro hr s hs heq
    have hsig : fence ∈ g.signaled := by
      by_contra hn
      exact hc ⟨hr, hn⟩
    exact (h.1 s hs).2 (heq ▸ hsig)

theorem Gpu.armed_reset (g : Gpu) (fence : Handle) (r : VkResult) (h : g.armed) :
    (g.step (Call.vkResetFences fence r)).armed ∧
    (g.step (Call.vkResetFences fence r)).in_flight = g.in_flight ∧
    (r = VK_SUCCESS → fence ∉ (g.step (Call.vkResetFences fence r)).signaled) := by
  simp only [Gpu.step]
  split_ifs with hc
  · refine ⟨⟨?_, h.2⟩, rfl, fun _ => by simp⟩
    intro s hs
    refine ⟨(h.1 s hs).1, ?_⟩
    intro hmem
    exact (h.1 s hs).2 (List.mem_filter.1 hmem).1
  · exact ⟨h, rfl, fun hr => absurd hr hc⟩

theorem Gpu.armed_submit (g : Gpu) (e : FrameEnv) (w : window) (j : Nat)
    (h : g.armed) (hf : Handle.fence j ∉ g.signaled)
    (hnew : ∀ s ∈ g.in_flight, s.2 ≠ Handle.fence j) :
    (g.step (submit_call e w ⟨Handle.image j, Handle.view j, Handle.framebuffer j,
      Handle.fence j, Handle.cmd_buffer j⟩)).armed := by
  simp only [submit_call, Gpu.step]
  split_ifs with hc
  · refine ⟨?_, ?_⟩
    · intro s hs
      simp only [List.map, List.cons_append, List.nil_append, List.mem_cons] at hs
      rcases hs with hs | hs
      · subst hs
        exact ⟨⟨j, rfl⟩, hf⟩
      · exact h.1 s hs
    · simp only [List.map, List.cons_append, List.nil_append, List.nodup_cons]
      refine ⟨?_, h.2⟩
      intro hmem
      obtain ⟨s, hs, hs2⟩ := List.mem_map.1 hmem
      exact hnew s hs hs2
  · exact h

theorem Gpu.armed_idle (g : Gpu) (r : VkResult) (h : g.armed) :
    (g.step (Call.vkQueueWaitIdle r)).armed := by
  simp only [Gpu.step]
  split_ifs with hc
  · exact ⟨fun s hs => absurd hs (List.not_mem_nil _), List.nodup_nil⟩
  · exact h

/-- A `redraw` that returns and whose fence wait and fence reset succeed keeps
the submissions in flight paired each with a fence of its own that is not known
to be signaled. -/
theorem Gpu.armed_after_redraw (g : Gpu) (e : FrameEnv) (w : window)
    (h : g.armed) (hret : (redraw e w).status = Status.returned)
    (hwait : e.r_wait = VK_SUCCESS) (hreset : e.r_reset = VK_SUCCESS)
    (hslot : w.vk.win_buffers e.index =
      ⟨Handle.image e.index, Handle.view e.index, Handle.framebuffer e.index,
       Handle.fence e.index, Handle.cmd_buffer e.index⟩) :
    (g.after (redraw e w).calls).armed := by
  obtain ⟨ha, hi, hp, hm⟩ := redraw_returned_acquired e w hret
  have e1 : g.after (redraw e w).calls =
      (((g.step (Call.vkWaitForFences (Handle.fence e.index) true UINT64_MAX e.r_wait)).step
        (Call.vkResetFences (Handle.fence e.index) e.r_reset)).step
        (submit_call e w ⟨Handle.image e.index, Handle.view e.index,
          Handle.framebuffer e.index, Handle.fence e.index,
          Handle.cmd_buffer e.index⟩)).step (Call.vkQueueWaitIdle e.r_idle) := by
    rw [(redraw_of_acquired e w ha hi hm).1, if_pos hp, hslot]
    rfl
  rw [e1]
  have h1 := Gpu.armed_wait g (Handle.fence e.index) true UINT64_MAX e.r_wait h
  have h2 := Gpu.armed_reset _ (Handle.fence e.index) e.r_reset h1.1
  refine Gpu.armed_idle _ _ (Gpu.armed_submit _ e w e.index h2.1 (h2.2.2 hreset) ?_)
  rw [h2.2.1]
  exact h1.2 hwait

/-- In a run of redraws that return and whose fence waits and fence resets
succeed, the submissions in flight stay paired each with a fence of its own
that is not known to be signaled. -/
theorem Gpu.armed_after_frames (w : window) (earlier : List FrameEnv)
    (hret : ∀ x ∈ earlier, (redraw x w).status = Status.returned)
    (hwait : ∀ x ∈ earlier, x.r_wait = VK_SUCCESS)
    (hreset : ∀ x ∈ earlier, x.r_reset = VK_SUCCESS)
    (hslot : ∀ x ∈ earlier, w.vk.win_buffers x.index =
      ⟨Handle.image x.index, Handle.view x.index, Handle.framebuffer x.index,
       Handle.fence x.index, Handle.cmd_buffer x.index⟩) :
    ∀ g : Gpu, g.armed → (g.after (trace (earlier.map (fun x => redraw x w)))).armed := by
  induction earlier with
  | nil => intro g hg; exact hg
  | cons x xs ih =>
    intro g hg
    rw [List.map_cons, trace_cons, Gpu.after_append]
    exact ih (fun y hy => hret y (List.mem_cons_of_mem _ hy))
      (fun y hy => hwait y (List.mem_cons_of_mem _ hy))
      (fun y hy => hreset y (List.mem_cons_of_mem _ hy))
      (fun y hy => hslot y (List.mem_cons_of_mem _ hy)) _
      (Gpu.armed_after_redraw g x w hg (hret x (List.mem_cons_self _ _))
        (hwait x (List.mem_cons_self _ _))
        (hreset x (List.mem_cons_self _ _)) (hslot x (List.mem_cons_self _ _)))

/-! ## C1: the command buffer is rewritten only behind the fence wait -/

/-- The slots `create_swapchain` fills hold the objects of their own index. -/
theorem created_slot (se : SwapchainEnv) (w0 w : window)
    (hcs : (create_swapchain se w0).status = Status.returned)
    (hw : (create_swapchain se w0).value = w) (j : Nat) (hj : j < w.vk.image_count) :
    w.vk.win_buffers j =
      ⟨Handle.image j, Handle.view j, Handle.framebuffer j, Handle.fence j,
       Handle.cmd_buffer j⟩ := by
  obtain ⟨h1, h2, _⟩ := create_swapchain_value se w0 hcs
  subst hw
  rw [h1] at hj
  rw [h2, if_pos hj]
  rfl

theorem created_count_le (se : SwapchainEnv) (w0 w : window)
    (hcs : (create_swapchain se w0).status = Status.returned)
    (hw : (create_swapchain se w0).value = w) :
    0 < w.vk.image_count ∧ w.vk.image_count ≤ MAX_NUM_IMAGES := by
  obtain ⟨h1, _⟩ := create_swapchain_value se w0 hcs
  subst hw
  rw [h1]
  exact ((create_swapchain_returned_iff se w0).1 hcs).2.2.2

/-- After the acquire, the fence wait and the fence reset of a slot, nothing
submitted with the command buffer of that slot is in flight, if the wait
reported success and the submissions in flight carried each a fence of its own
that was not signaled. -/
theorem Gpu.slot_idle_after_wait (g : Gpu) (e : FrameEnv) (w : window)
    (hg : g.armed) (hwait : e.r_wait = VK_SUCCESS) :
    ¬ (g.after [acquire_call e w,
        Call.vkWaitForFences (Handle.fence e.index) true UINT64_MAX e.r_wait,
        Call.vkResetFences (Handle.fence e.index) e.r_reset]).outstanding
      (Handle.cmd_buffer e.index) := by
  rintro ⟨s, hs, hs1⟩
  have e1 : g.after [acquire_call e w,
        Call.vkWaitForFences (Handle.fence e.index) true UINT64_MAX e.r_wait,
        Call.vkResetFences (Handle.fence e.index) e.r_reset] =
      (g.step (Call.vkWaitForFences (Handle.fence e.index) true UINT64_MAX e.r_wait)).step
        (Call.vkResetFences (Handle.fence e.index) e.r_reset) := rfl
  rw [e1] at hs
  have h1 := Gpu.armed_wait g (Handle.fence e.index) true UINT64_MAX e.r_wait hg
  have h2 := Gpu.armed_reset _ (Handle.fence e.index) e.r_reset h1.1
  rw [h2.2.1] at hs
  obtain ⟨⟨j, hj⟩, _⟩ := h1.1.1 s hs
  have hne := h1.2 hwait s hs
  subst hj
  simp at hs1 hne
  exact hne hs1

/-- C1 (as amended): in every run of the frame loop, `create_swapchain`
followed by any number of redraws that return and one more whose acquire
succeeds, the command buffer of the acquired slot is begun once, right after
the wait on and the reset of the fence of the same slot; and if that wait and
the fence waits and fence resets of the earlier redraws reported success, no
work submitted with the command buffer of that slot is outstanding when it is
begun. -/
theorem begin_only_after_fence_wait (se : SwapchainEnv) (w0 w : window)
    (earlier : List FrameEnv) (e : FrameEnv)
    (hcs : (create_swapchain se w0).status = Status.returned)
    (hw : (create_swapchain se w0).value = w)
    (hret : ∀ x ∈ earlier, (redraw x w).status = Status.returned)
    (hidx : ∀ x ∈ earlier ++ [e], x.index < w.vk.image_count)
    (hacq : e.r_acquire = VK_SUCCESS) :
    ∃ rest,
      (redraw e w).calls =
        [acquire_call e w,
         Call.vkWaitForFences (Handle.fence e.index) true UINT64_MAX e.r_wait,
         Call.vkResetFences (Handle.fence e.index) e.r_reset,
         Call.vkBeginCommandBuffer (Handle.cmd_buffer e.index) 0 e.r_begin] ++ rest ∧
      (∀ c ∈ rest, ∀ cmd flags r, c ≠ Call.vkBeginCommandBuffer cmd flags r) ∧
      (e.r_wait = VK_SUCCESS →
        (∀ x ∈ earlier, x.r_wait = VK_SUCCESS ∧ x.r_reset = VK_SUCCESS) →
        ¬ (Gpu.init.after ((create_swapchain se w0).calls ++ trace (frame_loop w earlier) ++
            [acquire_call e w,
             Call.vkWaitForFences (Handle.fence e.index) true UINT64_MAX e.r_wait,
             Call.vkResetFences (Handle.fence e.index) e.r_reset])).outstanding
          (Handle.cmd_buffer e.index)) := by
  have hcount := created_count_le se w0 w hcs hw
  have hei : e.index < w.vk.image_count := hidx e (by simp)
  have hslot := created_slot se w0 w hcs hw e.index hei
  have hlast : e.r_wait = VK_SUCCESS →
      (∀ x ∈ earlier, x.r_wait = VK_SUCCESS ∧ x.r_reset = VK_SUCCESS) →
      ¬ (Gpu.init.after ((create_swapchain se w0).calls ++ trace (frame_loop w earlier) ++
          [acquire_call e w,
           Call.vkWaitForFences (Handle.fence e.index) true UINT64_MAX e.r_wait,
           Call.vkResetFences (Handle.fence e.index) e.r_reset])).outstanding
        (Handle.cmd_buffer e.index) := by
    intro hwait hearlier
    rw [frame_loop_of_returned w earlier hret, Gpu.after_append, Gpu.after_append]
    apply Gpu.slot_idle_after_wait _ e w _ hwait
    apply Gpu.armed_after_frames w earlier hret (fun x hx => (hearlier x hx).1)
      (fun x hx => (hearlier x hx).2)
    · intro x hx
      exact created_slot se w0 w hcs hw x.index (hidx x (List.mem_append_left _ hx))
    · rw [Gpu.armed, (Gpu.after_create_swapchain se w0 hcs).1]
      exact ⟨fun s hs => absurd hs (List.not_mem_nil _), List.nodup_nil⟩
  by_cases hm : w.vk.uniform_buffer.map_valid = true
  · have hcalls := (redraw_of_acquired e w hacq (by omega) hm).1
    refine ⟨(record_calls e w (w.vk.win_buffers e.index)).tail ++
        [submit_call e w (w.vk.win_buffers e.index), present_call e w] ++
        (if e.present_result = VK_SUCCESS then [Call.vkQueueWaitIdle e.r_idle] else []),
      ?_, ?_, hlast⟩
    · rw [hcalls, hslot]
      simp [fence_calls, record_calls]
    · intro c hc cmd flags r hcr
      subst hcr
      simp [record_calls, submit_call, present_call] at hc
  · have hm2 : w.vk.uniform_buffer.map_valid = false := by simpa using hm
    have hcalls := (redraw_of_faulted e w hacq (by omega) hm2).1
    refine ⟨(record_calls_before_write e w (w.vk.win_buffers e.index)).tail, ?_, ?_, hlast⟩
    · rw [hcalls, hslot]
      simp [fence_calls, record_calls, record_calls_before_write]
    · intro c hc cmd flags r hcr
      subst hcr
      simp [record_calls, record_calls_before_write] at hc

/-- Witness of `begin_only_after_fence_wait`: two successful frames on slot 0
of a two-image swapchain, after an `init_vulkan` in which every call
succeeds. -/
theorem begin_only_after_fence_wait_witness :
    ∃ rest,
      (redraw (frame_ok 0) ready_window).calls =
        [acquire_call (frame_ok 0) ready_window,
         Call.vkWaitForFences (Handle.fence 0) true UINT64_MAX VK_SUCCESS,
         Call.vkResetFences (Handle.fence 0) VK_SUCCESS,
         Call.vkBeginCommandBuffer (Handle.cmd_buffer 0) 0 VK_SUCCESS] ++ rest ∧
      (∀ c ∈ rest, ∀ cmd flags r, c ≠ Call.vkBeginCommandBuffer cmd flags r) ∧
      (VK_SUCCESS = VK_SUCCESS →
        (∀ x ∈ [frame_ok 0], x.r_wait = VK_SUCCESS ∧ x.r_reset = VK_SUCCESS) →
        ¬ (Gpu.init.after ((create_swapchain (surface_env 2) initialised_window).calls ++
            trace (frame_loop ready_window [frame_ok 0]) ++
            [acquire_call (frame_ok 0) ready_window,
             Call.vkWaitForFences (Handle.fence 0) true UINT64_MAX VK_SUCCESS,
             Call.vkResetFences (Handle.fence 0) VK_SUCCESS])).outstanding
          (Handle.cmd_buffer 0)) :=
  begin_only_after_fence_wait (surface_env 2) initialised_window ready_window
    [frame_ok 0] (frame_ok 0) (by decide) rfl (by decide) (by decide) rfl

/-- C1 (counterexample): three runs on a two-image swapchain created after an
`init_vulkan` in which every call succeeds, so that the host pointer of the
uniform buffer is valid and every redraw runs to its end.  In each of them the
command buffer of slot 0 is begun while work submitted with it has not been
confirmed complete.

In the first run the first redraw acquires slot 0 and its queue-idle wait fails
for lack of host memory; the second acquires slot 1 and both its waits fail;
the third acquires slot 0 again and its fence wait fails.  `redraw` checks none
of these results and goes on to begin the command buffer.

In the second run the fence reset and the queue-idle wait of the first redraw,
on slot 0, fail: its fence stays signaled.  The second redraw acquires slot 0
again and its fence wait reports success at once.

In the third run every fence reset succeeds.  The queue-idle wait of the first
redraw, on slot 0, fails; so do the fence wait and the queue-idle wait of the
second, on slot 0 as well, which resets the fence and submits with it again.
The fence wait of the third redraw, on slot 0, reports success as soon as the
submission of the first completes, that of the second being still in flight. -/
theorem begin_with_work_outstanding :
    ready_window.vk.uniform_buffer.map_valid = true ∧
    (create_swapchain (surface_env 2) initialised_window).status = Status.returned ∧
    (frame_loop ready_window [frame_idle_fails, frame_waits_fail 1] =
      [redraw frame_idle_fails ready_window,
       redraw (frame_waits_fail 1) ready_window] ∧
     (redraw (frame_waits_fail 1) ready_window).status = Status.returned ∧
     (redraw (frame_wait_fails 0) ready_window).calls.take 4 =
      [acquire_call (frame_wait_fails 0) ready_window,
       Call.vkWaitForFences (Handle.fence 0) true UINT64_MAX VK_ERROR_OUT_OF_HOST_MEMORY,
       Call.vkResetFences (Handle.fence 0) VK_SUCCESS,
       Call.vkBeginCommandBuffer (Handle.cmd_buffer 0) 0 VK_SUCCESS] ∧
     (Gpu.init.after ((create_swapchain (surface_env 2) initialised_window).calls ++
        trace (frame_loop ready_window [frame_idle_fails, frame_waits_fail 1]) ++
        [acquire_call (frame_wait_fails 0) ready_window,
         Call.vkWaitForFences (Handle.fence 0) true UINT64_MAX VK_ERROR_OUT_OF_HOST_MEMORY,
         Call.vkResetFences (Handle.fence 0) VK_SUCCESS])).outstanding
      (Handle.cmd_buffer 0)) ∧
    (frame_loop ready_window [frame_reset_and_idle_fail] =
      [redraw frame_reset_and_idle_fail ready_window] ∧
     (redraw frame_reset_and_idle_fail ready_window).status = Status.returned ∧
     (redraw (frame_ok 0) ready_window).calls.take 4 =
      [acquire_call (frame_ok 0) ready_window,
       Call.vkWaitForFences (Handle.fence 0) true UINT64_MAX VK_SUCCESS,
       Call.vkResetFences (Handle.fence 0) VK_SUCCESS,
       Call.vkBeginCommandBuffer (Handle.cmd_buffer 0) 0 VK_SUCCESS] ∧
     (Gpu.init.after ((create_swapchain (surface_env 2) initialised_window).calls ++
        trace (frame_loop ready_window [frame_reset_and_idle_fail]) ++
        [acquire_call (frame_ok 0) ready_window,
         Call.vkWaitForFences (Handle.fence 0) true UINT64_MAX VK_SUCCESS,
         Call.vkResetFences (Handle.fence 0) VK_SUCCESS])).outstanding
      (Handle.cmd_buffer 0)) ∧
    (frame_loop ready_window [frame_idle_fails, frame_waits_fail 0] =
      [redraw frame_idle_fails ready_window,
       redraw (frame_waits_fail 0) ready_window] ∧
     (redraw (frame_waits_fail 0) ready_window).status = Status.returned ∧
     (Gpu.init.after ((create_swapchain (surface_env 2) initialised_window).calls ++
        trace (frame_loop ready_window [frame_idle_fails, frame_waits_fail 0]) ++
        [acquire_call (frame_ok 0) ready_window,
         Call.vkWaitForFences (Handle.fence 0) true UINT64_MAX VK_SUCCESS,
         Call.vkResetFences (Handle.fence 0) VK_SUCCESS])).outstanding
      (Handle.cmd_buffer 0)) := by
  have h1 : (redraw frame_idle_fails ready_window).status = Status.returned := by decide
  have h2 : (redraw (frame_waits_fail 1) ready_window).status = Status.returned := by
    decide
  have h3 : (redraw frame_reset_and_idle_fail ready_window).status = Status.returned := by
    decide
  have h4 : (redraw (frame_waits_fail 0) ready_window).status = Status.returned := by
    decide
  have hloop : frame_loop ready_window [frame_idle_fails, frame_waits_fail 1] =
      [redraw frame_idle_fails ready_window,
       redraw (frame_waits_fail 1) ready_window] := by
    simp [frame_loop, h1, h2]
  have hloop2 : frame_loop ready_window [frame_reset_and_idle_fail] =
      [redraw frame_reset_and_idle_fail ready_window] := by
    simp [frame_loop, h3]
  have hloop3 : frame_loop ready_window [frame_idle_fails, frame_waits_fail 0] =
      [redraw frame_idle_fails ready_window,
       redraw (frame_waits_fail 0) ready_window] := by
    simp [frame_loop, h1, h4]
  refine ⟨by decide, by decide, ⟨hloop, h2, by decide, ?_⟩, ⟨hloop2, h3, by decide, ?_⟩,
    ⟨hloop3, h4, ?_⟩⟩
  · rw [hloop]
    decide
  · rw [hloop2]
    decide
  · rw [hloop3]
    decide

/-! ## C2: one submit and one present between two acquires of a slot -/

/-- In a sequence of complete cycles, possibly followed by the acquire of a
frame that did not get further, two successive acquires have one submit and one
present between them. -/
theorem cycles_between (t : List SlotEvent) (ht : t = [] ∨ t = [SlotEvent.acquire])
    (n : Nat) :
    ∀ x m y : List SlotEvent,
      cycles n ++ t = x ++ SlotEvent.acquire :: m ++ SlotEvent.acquire :: y →
      SlotEvent.acquire ∉ m → m = [SlotEvent.submit, SlotEvent.present] := by
  induction n with
  | zero =>
    intro x m y h
    have hl := congrArg List.length h
    rcases ht with ht | ht <;> subst ht <;> simp [cycles] at hl <;> omega
  | succ n ih =>
    intro x m y h hm
    rcases x with _ | ⟨x0, x⟩
    · simp only [cycles, List.nil_append, List.cons_append, List.cons.injEq, true_and] at h
      rcases m with _ | ⟨m0, m⟩
      · simp at h
      · simp only [List.cons_append, List.cons.injEq] at h
        obtain ⟨h0, h⟩ := h
        rcases m with _ | ⟨m1, m⟩
        · simp at h
        · simp only [List.cons_append, List.cons.injEq] at h
          obtain ⟨h1, h⟩ := h
          rcases m with _ | ⟨m2, m⟩
          · rw [← h0, ← h1]
          · exfalso
            apply hm
            rcases n with _ | n
            · rcases ht with ht | ht
              · subst ht
                simp [cycles] at h
              · subst ht
                simp only [cycles, List.nil_append, List.cons_append, List.cons.injEq] at h
                rw [← h.1]
                simp
            · simp only [cycles, List.cons_append, List.cons.injEq] at h
              rw [← h.1]
              simp
    · simp only [cycles, List.cons_append, List.cons.injEq] at h
      obtain ⟨_, h⟩ := h
      rcases x with _ | ⟨x1, x⟩
      · simp at h
      · simp only [List.cons_append, List.cons.injEq] at h
        obtain ⟨_, h⟩ := h
        rcases x with _ | ⟨x2, x⟩
        · simp at h
        · simp only [List.cons_append, List.cons.injEq] at h
          exact ih x m y h.2 hm

/-- The slot events of one redraw whose acquire returns the slot: a complete
cycle, or the acquire alone when the redraw ends at the host write; nothing
when the acquire fails or returns another slot. -/
theorem slot_events_redraw (se : SwapchainEnv) (w0 w : window) (e : FrameEnv) (slot : Nat)
    (hcs : (create_swapchain se w0).status = Status.returned)
    (hw : (create_swapchain se w0).value = w)
    (hidx : e.r_acquire = VK_SUCCESS → e.index < w.vk.image_count)
    (hslot : slot < w.vk.image_count) :
    (redraw e w).calls.filterMap (slot_event w slot) =
      if e.r_acquire = VK_SUCCESS ∧ e.index = slot then
        if w.vk.uniform_buffer.map_valid = true then
          [SlotEvent.acquire, SlotEvent.submit, SlotEvent.present]
        else [SlotEvent.acquire]
      else [] := by
  have hcount := created_count_le se w0 w hcs hw
  by_cases ha : e.r_acquire = VK_SUCCESS
  · have hei := hidx ha
    by_cases hm : w.vk.uniform_buffer.map_valid = true
    · rw [(redraw_of_acquired e w ha (by omega) hm).1,
        created_slot se w0 w hcs hw e.index hei]
      by_cases hs : e.index = slot
      · subst hs
        by_cases hp : e.present_result = VK_SUCCESS <;>
          simp [hp, ha, hm, slot_event, acquire_call, fence_calls, record_calls, submit_call,
            present_call, created_slot se w0 w hcs hw e.index hei]
      · have hs2 : ¬ slot = e.index := fun h => hs h.symm
        by_cases hp : e.present_result = VK_SUCCESS <;>
          simp [hp, ha, hs, hs2, slot_event, acquire_call, fence_calls, record_calls,
            submit_call, present_call, created_slot se w0 w hcs hw slot hslot]
    · have hm2 : w.vk.uniform_buffer.map_valid = false := by simpa using hm
      rw [(redraw_of_faulted e w ha (by omega) hm2).1,
        created_slot se w0 w hcs hw e.index hei]
      by_cases hs : e.index = slot
      · subst hs
        simp [ha, hm2, slot_event, acquire_call, fence_calls, record_calls,
          record_calls_before_write]
      · simp [ha, hs, slot_event, acquire_call, fence_calls, record_calls,
          record_calls_before_write]
  · rw [(redraw_of_not_acquired e w (fun h => ha h.1)).1]
    simp [ha, slot_event, acquire_call]

/-- The slot events of a whole run are complete cycles, possibly followed by
the acquire of a last redraw that ended at the host write. -/
theorem slot_events_frame_loop (se : SwapchainEnv) (w0 w : window) (slot : Nat)
    (hcs : (create_swapchain se w0).status = Status.returned)
    (hw : (create_swapchain se w0).value = w)
    (hslot : slot < w.vk.image_count) (envs : List FrameEnv)
    (hidx : ∀ x ∈ envs, x.r_acquire = VK_SUCCESS → x.index < w.vk.image_count) :
    ∃ n t, (trace (frame_loop w envs)).filterMap (slot_event w slot) = cycles n ++ t ∧
      (t = [] ∨ t = [SlotEvent.acquire]) := by
  induction envs with
  | nil => exact ⟨0, [], rfl, Or.inl rfl⟩
  | cons e es ih =>
    have he := slot_events_redraw se w0 w e slot hcs hw (hidx e (List.mem_cons_self _ _)) hslot
    obtain ⟨n, t, hn, ht⟩ := ih (fun x hx => hidx x (List.mem_cons_of_mem _ hx))
    by_cases hr : (redraw e w).status = Status.returned
    · have hm := (redraw_returned_acquired e w hr).2.2.2
      simp only [frame_loop, hr, if_true, trace_cons, List.filterMap_append, he, hn, hm]
      split_ifs
      · exact ⟨n + 1, t, rfl, ht⟩
      · exact ⟨n, t, rfl, ht⟩
    · simp only [frame_loop, hr, if_false, trace_cons, trace_nil, List.append_nil, he]
      split_ifs
      · exact ⟨1, [], rfl, Or.inl rfl⟩
      · exact ⟨0, [SlotEvent.acquire], rfl, Or.inr rfl⟩
      · exact ⟨0, [], rfl, Or.inl rfl⟩

/-- C2: in the calls of any run of the frame loop after `create_swapchain`,
between a successful acquire that returns a slot and the next successful
acquire that returns the same slot, the calls that reference the slot are
exactly one queue submit followed by exactly one present. -/
theorem one_submit_then_one_present (se : SwapchainEnv) (w0 w : window)
    (envs : List FrameEnv) (slot : Nat) (pre mid post : List Call) (a1 a2 : Call)
    (hcs : (create_swapchain se w0).status = Status.returned)
    (hw : (create_swapchain se w0).value = w)
    (hidx : ∀ x ∈ envs, x.r_acquire = VK_SUCCESS → x.index < w.vk.image_count)
    (hslot : slot < w.vk.image_count)
    (hsplit : trace (frame_loop w envs) = pre ++ a1 :: mid ++ a2 :: post)
    (h1 : slot_event w slot a1 = some SlotEvent.acquire)
    (h2 : slot_event w slot a2 = some SlotEvent.acquire)
    (hmid : ∀ c ∈ mid, slot_event w slot c ≠ some SlotEvent.acquire) :
    mid.filterMap (slot_event w slot) = [SlotEvent.submit, SlotEvent.present] := by
  obtain ⟨n, t, hn, ht⟩ := slot_events_frame_loop se w0 w slot hcs hw hslot envs hidx
  simp only [hsplit, List.filterMap_append, List.filterMap_cons, h1, h2] at hn
  refine cycles_between t ht n _ _ _ hn.symm ?_
  intro hmem
  obtain ⟨c, hc, hce⟩ := List.mem_filterMap.1 hmem
  exact hmid c hc hce

/-- Witness of `one_submit_then_one_present`: after an `init_vulkan` in which
every call succeeds, the frames acquire slots 0, 1, 0 of a two-image swapchain;
between the two acquires of slot 0 lie the rest of the first frame and the
whole second frame. -/
theorem one_submit_then_one_present_witness :
    ((redraw (frame_ok 0) ready_window).calls.tail ++
        (redraw (frame_ok 1) ready_window).calls).filterMap
        (slot_event ready_window 0) =
      [SlotEvent.submit, SlotEvent.present] :=
  one_submit_then_one_present (surface_env 2) initialised_window ready_window
    [frame_ok 0, frame_ok 1, frame_ok 0] 0 []
    ((redraw (frame_ok 0) ready_window).calls.tail ++
      (redraw (frame_ok 1) ready_window).calls)
    (redraw (frame_ok 0) ready_window).calls.tail
    (acquire_call (frame_ok 0) ready_window)
    (acquire_call (frame_ok 0) ready_window)
    (by decide) rfl (by decide) (by decide) (by decide) (by decide) (by decide)
    (by decide)

/-! ## C3: what the submit and the present of a redraw wait on and signal -/

/-- C3: in every redraw that gets as far as its queue submission (its acquire
succeeds with an index inside `win_buffers`, and the host pointer of the
uniform buffer is valid, so that the host write of line 689 does not end the
redraw), the acquire arms the image-acquired semaphore; the one queue
submission waits on that semaphore at the color-attachment-output stage only,
signals the render-complete semaphore and the fence of the acquired slot, and
carries the command buffer of that slot; the one present comes right after it,
waits on the render-complete semaphore and names the image index the acquire
returned. -/
theorem submit_waits_acquire_present_waits_render (e : FrameEnv) (w : window)
    (hacq : e.r_acquire = VK_SUCCESS) (hidx : e.index < MAX_NUM_IMAGES)
    (hmap : w.vk.uniform_buffer.map_valid = true) :
    ∃ pre post,
      (redraw e w).calls =
        Call.vkAcquireNextImageKHR w.vk.swap_chain UINT64_MAX w.vk.image_semaphore
          Handle.null VK_SUCCESS e.index :: pre ++
        [Call.vkQueueSubmit
           { waitSemaphores := [w.vk.image_semaphore]
             waitDstStageMask := [VK_PIPELINE_STAGE_COLOR_ATTACHMENT_OUTPUT_BIT]
             signalSemaphores := [w.vk.render_semaphore]
             commandBuffers := [(w.vk.win_buffers e.index).cmd_buffer] }
           (w.vk.win_buffers e.index).cmd_fence e.r_submit,
         Call.vkQueuePresentKHR
           { waitSemaphores := [w.vk.render_semaphore]
             swapchains := [w.vk.swap_chain]
             imageIndices := [e.index] }
           e.r_present e.present_result] ++ post ∧
      ∀ c ∈ pre ++ post,
        (∀ sc t s f r i, c ≠ Call.vkAcquireNextImageKHR sc t s f r i) ∧
        (∀ info f r, c ≠ Call.vkQueueSubmit info f r) ∧
        (∀ info r r0, c ≠ Call.vkQueuePresentKHR info r r0) := by
  refine ⟨fence_calls e (w.vk.win_buffers e.index) ++
      record_calls e w (w.vk.win_buffers e.index),
    if e.present_result = VK_SUCCESS then [Call.vkQueueWaitIdle e.r_idle] else [], ?_, ?_⟩
  · rw [(redraw_of_acquired e w hacq hidx hmap).1]
    simp [acquire_call, submit_call, present_call, hacq]
  · by_cases hp : e.present_result = VK_SUCCESS <;>
      simp [hp, fence_calls, record_calls]

/-- Witness of `submit_waits_acquire_present_waits_render`: a successful frame
on slot 1 of a two-image swapchain, after an `init_vulkan` in which every call
succeeds. -/
theorem submit_waits_acquire_present_waits_render_witness :
    ∃ pre post,
      (redraw (frame_ok 1) ready_window).calls =
        Call.vkAcquireNextImageKHR Handle.swap_chain UINT64_MAX Handle.image_semaphore
          Handle.null VK_SUCCESS 1 :: pre ++
        [Call.vkQueueSubmit
           { waitSemaphores := [Handle.image_semaphore]
             waitDstStageMask := [VK_PIPELINE_STAGE_COLOR_ATTACHMENT_OUTPUT_BIT]
             signalSemaphores := [Handle.render_semaphore]
             commandBuffers := [Handle.cmd_buffer 1] }
           (Handle.fence 1) VK_SUCCESS,
         Call.vkQueuePresentKHR
           { waitSemaphores := [Handle.render_semaphore]
             swapchains := [Handle.swap_chain]
             imageIndices := [1] }
           VK_SUCCESS VK_SUCCESS] ++ post ∧
      ∀ c ∈ pre ++ post,
        (∀ sc t s f r i, c ≠ Call.vkAcquireNextImageKHR sc t s f r i) ∧
        (∀ info f r, c ≠ Call.vkQueueSubmit info f r) ∧
        (∀ info r r0, c ≠ Call.vkQueuePresentKHR info r r0) :=
  submit_waits_acquire_present_waits_render (frame_ok 1) ready_window rfl (by decide)
    (by decide)

/-! ## C4: the queue-idle wait serializes the frames -/

/-- Starting with nothing in flight, at most one submission is in flight at any
point of a redraw. -/
theorem Gpu.one_in_flight_during_redraw (g : Gpu) (e : FrameEnv) (w : window)
    (hg : g.in_flight = []) (k : Nat) :
    (g.after ((redraw e w).calls.take k)).in_flight.length ≤ 1 := by
  have hsub : ∀ (cs : List Call) (g1 : Gpu), g1.in_flight = [] →
      (∀ c ∈ cs, ∀ info f r, c ≠ Call.vkQueueSubmit info f r) →
      (g1.after cs).in_flight = [] := by
    intro cs
    induction cs with
    | nil => intro g1 h _; exact h
    | cons c cs ih =>
      intro g1 h hc
      rw [Gpu.after_cons]
      apply ih
      · have hc0 := hc c (List.mem_cons_self _ _)
        cases c <;> simp only [Gpu.step] <;> (try exact h) <;>
          (try (split_ifs <;> simp [h, retire_oldest]))
        exact absurd rfl (hc0 _ _ _)
      · exact fun c1 h1 => hc c1 (List.mem_cons_of_mem _ h1)
  have hmono : ∀ (cs : List Call) (g1 : Gpu), g1.in_flight.length ≤ 1 →
      (∀ c ∈ cs, ∀ info f r, c ≠ Call.vkQueueSubmit info f r) →
      (g1.after cs).in_flight.length ≤ 1 := by
    intro cs
    induction cs with
    | nil => intro g1 h _; exact h
    | cons c cs ih =>
      intro g1 h hc
      rw [Gpu.after_cons]
      apply ih
      · have hc0 := hc c (List.mem_cons_self _ _)
        cases c <;> simp only [Gpu.step] <;> (try exact h) <;>
          (try (split_ifs <;> simp <;>
            first
              | exact h
              | exact le_trans (List.length_filter_le _ _) h
              | exact le_trans (retire_oldest_sublist _ _).length_le h))
        exact absurd rfl (hc0 _ _ _)
      · exact fun c1 h1 => hc c1 (List.mem_cons_of_mem _ h1)
  have hnone : ∀ cs : List Call, (∀ c ∈ cs, ∀ info f r, c ≠ Call.vkQueueSubmit info f r) →
      (g.after (cs.take k)).in_flight.length ≤ 1 := by
    intro cs hcs
    rw [hsub _ g hg (fun c hc => hcs c (List.mem_of_mem_take hc))]
    simp
  by_cases ha : e.r_acquire = VK_SUCCESS ∧ e.index < MAX_NUM_IMAGES
  swap
  · rw [(redraw_of_not_acquired e w ha).1]
    apply hnone
    simp [acquire_call]
  by_cases hm : w.vk.uniform_buffer.map_valid = true
  swap
  · have hm2 : w.vk.uniform_buffer.map_valid = false := by simpa using hm
    rw [(redraw_of_faulted e w ha.1 ha.2 hm2).1]
    apply hnone
    simp [acquire_call, fence_calls, record_calls, record_calls_before_write]
  · obtain ⟨ha, hi⟩ := ha
    rw [(redraw_of_acquired e w ha hi hm).1]
    have hsplit : acquire_call e w :: (fence_calls e (w.vk.win_buffers e.index) ++
        record_calls e w (w.vk.win_buffers e.index) ++
        [submit_call e w (w.vk.win_buffers e.index), present_call e w] ++
        if e.present_result = VK_SUCCESS then [Call.vkQueueWaitIdle e.r_idle] else []) =
        (acquire_call e w :: (fence_calls e (w.vk.win_buffers e.index) ++
          record_calls e w (w.vk.win_buffers e.index))) ++
        (submit_call e w (w.vk.win_buffers e.index) :: (present_call e w ::
          if e.present_result = VK_SUCCESS then [Call.vkQueueWaitIdle e.r_idle] else [])) := by
      simp
    rw [hsplit, List.take_append_eq_append_take, Gpu.after_append]
    have hfirst : ∀ c ∈ List.take k (acquire_call e w ::
        (fence_calls e (w.vk.win_buffers e.index) ++
          record_calls e w (w.vk.win_buffers e.index))),
        ∀ info f r, c ≠ Call.vkQueueSubmit info f r := by
      have hall : ∀ c ∈ acquire_call e w ::
          (fence_calls e (w.vk.win_buffers e.index) ++
            record_calls e w (w.vk.win_buffers e.index)),
          ∀ info f r, c ≠ Call.vkQueueSubmit info f r := by
        simp [acquire_call, fence_calls, record_calls]
      exact fun c hc => hall c (List.mem_of_mem_take hc)
    have h1 := hsub _ g hg hfirst
    generalize g.after (List.take k (acquire_call e w ::
        (fence_calls e (w.vk.win_buffers e.index) ++
          record_calls e w (w.vk.win_buffers e.index)))) = g1 at h1
    generalize k - (acquire_call e w :: (fence_calls e (w.vk.win_buffers e.index) ++
          record_calls e w (w.vk.win_buffers e.index))).length = m
    rcases m with _ | m
    · simp [Gpu.after, h1]
    · rw [List.take_succ_cons, Gpu.after_cons]
      apply hmono
      · simp only [submit_call, Gpu.step]
        split_ifs <;> simp [h1]
      · have hall : ∀ c ∈ present_call e w ::
            (if e.present_result = VK_SUCCESS then [Call.vkQueueWaitIdle e.r_idle] else []),
            ∀ info f r, c ≠ Call.vkQueueSubmit info f r := by
          by_cases hp : e.present_result = VK_SUCCESS <;> simp [hp, present_call]
        exact fun c hc => hall c (List.mem_of_mem_take hc)

/-- C4 (as amended): a redraw that returns ends with its present followed by a
queue-idle wait; if that wait reported success then, whatever calls came
before, nothing submitted by this or any earlier redraw is in flight when the
next redraw begins its command buffer, and at most one submission is in flight
at any point of the next redraw. -/
theorem frames_serialized_when_idle_wait_succeeds (w : window) (before : List Call)
    (p e : FrameEnv)
    (hp : (redraw p w).status = Status.returned) (hidle : p.r_idle = VK_SUCCESS)
    (hacq : e.r_acquire = VK_SUCCESS) (hidx : e.index < MAX_NUM_IMAGES) :
    (∃ pre, (redraw p w).calls = pre ++ [present_call p w, Call.vkQueueWaitIdle p.r_idle]) ∧
    (∃ rest, (redraw e w).calls =
      acquire_call e w :: fence_calls e (w.vk.win_buffers e.index) ++
        Call.vkBeginCommandBuffer (w.vk.win_buffers e.index).cmd_buffer 0 e.r_begin :: rest) ∧
    (Gpu.init.after (before ++ (redraw p w).calls ++
      acquire_call e w :: fence_calls e (w.vk.win_buffers e.index))).in_flight = [] ∧
    ∀ k, (Gpu.init.after (before ++ (redraw p w).calls ++
      (redraw e w).calls.take k)).in_flight.length ≤ 1 := by
  obtain ⟨hpa, hpi, hpp, hm⟩ := redraw_returned_acquired p w hp
  have hclean : ((Gpu.init.after before).after (redraw p w).calls).in_flight = [] :=
    Gpu.idle_after_redraw _ p w hp hidle
  refine ⟨?_, ?_, ?_, ?_⟩
  · refine ⟨acquire_call p w :: (fence_calls p (w.vk.win_buffers p.index) ++
      record_calls p w (w.vk.win_buffers p.index) ++
      [submit_call p w (w.vk.win_buffers p.index)]), ?_⟩
    rw [(redraw_of_acquired p w hpa hpi hm).1, if_pos hpp]
    simp
  · refine ⟨(record_calls e w (w.vk.win_buffers e.index)).tail ++
      [submit_call e w (w.vk.win_buffers e.index), present_call e w] ++
      (if e.present_result = VK_SUCCESS then [Call.vkQueueWaitIdle e.r_idle] else []), ?_⟩
    rw [(redraw_of_acquired e w hacq hidx hm).1]
    simp [fence_calls, record_calls]
  · rw [Gpu.after_append, Gpu.after_append, Gpu.after_cons]
    have h1 : ∀ g : Gpu, g.step (acquire_call e w) = g := fun _ => rfl
    rw [h1, Gpu.after_fence_calls, hclean]
    split_ifs <;> rfl
  · intro k
    rw [Gpu.after_append, Gpu.after_append]
    exact Gpu.one_in_flight_during_redraw _ e w hclean k

/-- Witness of `frames_serialized_when_idle_wait_succeeds`: two successful
frames, on slots 0 and 1 of a two-image swapchain, after an `init_vulkan` in
which every call succeeds. -/
theorem frames_serialized_when_idle_wait_succeeds_witness :
    (Gpu.init.after ((create_swapchain (surface_env 2) initialised_window).calls ++
      (redraw (frame_ok 0) ready_window).calls ++
      acquire_call (frame_ok 1) ready_window ::
        fence_calls (frame_ok 1) (ready_window.vk.win_buffers 1))).in_flight = [] :=
  (frames_serialized_when_idle_wait_succeeds ready_window
    (create_swapchain (surface_env 2) initialised_window).calls (frame_ok 0) (frame_ok 1)
    (by decide) rfl rfl (by decide)).2.2.1

/-- C4 (counterexample): on a two-image swapchain created after an
`init_vulkan` in which every call succeeds (the host pointer of the uniform
buffer is valid and both redraws run to their end), the first redraw acquires
slot 0 and its queue-idle wait fails; `redraw` does not check that result, so
the second redraw, which acquires slot 1 and finds its fence signaled, begins
recording while the work the first redraw submitted is still in flight. -/
theorem second_frame_begins_with_first_in_flight :
    ready_window.vk.uniform_buffer.map_valid = true ∧
    (create_swapchain (surface_env 2) initialised_window).status = Status.returned ∧
    frame_loop ready_window [frame_idle_fails, frame_ok 1] =
      [redraw frame_idle_fails ready_window, redraw (frame_ok 1) ready_window] ∧
    (redraw frame_idle_fails ready_window).status = Status.returned ∧
    (redraw (frame_ok 1) ready_window).status = Status.returned ∧
    (redraw (frame_ok 1) ready_window).calls.take 4 =
      [acquire_call (frame_ok 1) ready_window,
       Call.vkWaitForFences (Handle.fence 1) true UINT64_MAX VK_SUCCESS,
       Call.vkResetFences (Handle.fence 1) VK_SUCCESS,
       Call.vkBeginCommandBuffer (Handle.cmd_buffer 1) 0 VK_SUCCESS] ∧
    (Gpu.init.after ((create_swapchain (surface_env 2) initialised_window).calls ++
        (redraw frame_idle_fails ready_window).calls ++
        [acquire_call (frame_ok 1) ready_window,
         Call.vkWaitForFences (Handle.fence 1) true UINT64_MAX VK_SUCCESS,
         Call.vkResetFences (Handle.fence 1) VK_SUCCESS])).in_flight =
      [(Handle.cmd_buffer 0, Handle.fence 0)] := by
  refine ⟨by decide, by decide, ?_, by decide, by decide, by decide, by decide⟩
  simp [frame_loop, show (redraw frame_idle_fails ready_window).status = Status.returned
    by decide]

/-! ## C5: the fences start signaled -/

/-- C5: after a `create_swapchain` that returns, the fence of every slot below
`image_count` was created with the signaled flag and is signaled (the fence
creations having succeeded); so in the first redraw, whichever slot below
`image_count` the acquire returns, the call after the acquire is the wait on
the fence of that slot, and that wait does not have to block. -/
theorem fences_signaled_for_first_frame (se : SwapchainEnv) (w0 w : window) (e : FrameEnv)
    (hcs : (create_swapchain se w0).status = Status.returned)
    (hw : (create_swapchain se w0).value = w)
    (hfence : ∀ i < w.vk.image_count, se.r_fence i = VK_SUCCESS)
    (hacq : e.r_acquire = VK_SUCCESS) (hidx : e.index < w.vk.image_count) :
    (∀ i < w.vk.image_count,
      Call.vkCreateFence VK_FENCE_CREATE_SIGNALED_BIT (w.vk.win_buffers i).cmd_fence
          (se.r_fence i) ∈ (create_swapchain se w0).calls ∧
      (w.vk.win_buffers i).cmd_fence ∈
        (Gpu.init.after (create_swapchain se w0).calls).signaled) ∧
    (∃ rest, (redraw e w).calls =
      acquire_call e w ::
        Call.vkWaitForFences (w.vk.win_buffers e.index).cmd_fence true UINT64_MAX e.r_wait ::
        rest) ∧
    ¬ (Gpu.init.after ((create_swapchain se w0).calls ++ [acquire_call e w])).blocks
        (w.vk.win_buffers e.index).cmd_fence := by
  have hcount := created_count_le se w0 w hcs hw
  have hic : w.vk.image_count = se.image_count := by
    rw [← hw]; exact (create_swapchain_value se w0 hcs).1
  have hsig : ∀ i < w.vk.image_count, (w.vk.win_buffers i).cmd_fence ∈
      (Gpu.init.after (create_swapchain se w0).calls).signaled := by
    intro i hi
    rw [created_slot se w0 w hcs hw i hi, (Gpu.after_create_swapchain se w0 hcs).2]
    exact ⟨i, by omega, hfence i hi, rfl⟩
  refine ⟨fun i hi => ⟨?_, hsig i hi⟩, ?_, ?_⟩
  · rw [created_slot se w0 w hcs hw i hi, create_swapchain_calls se w0 hcs]
    simp only [List.mem_append, List.mem_flatMap, List.mem_range']
    refine Or.inl (Or.inr ⟨i, ⟨i, by omega, by omega⟩, ?_⟩)
    simp [swapchain_slot]
  · by_cases hm : w.vk.uniform_buffer.map_valid = true
    · refine ⟨Call.vkResetFences (w.vk.win_buffers e.index).cmd_fence e.r_reset ::
        (record_calls e w (w.vk.win_buffers e.index) ++
        [submit_call e w (w.vk.win_buffers e.index), present_call e w] ++
        (if e.present_result = VK_SUCCESS then [Call.vkQueueWaitIdle e.r_idle] else [])), ?_⟩
      rw [(redraw_of_acquired e w hacq (by omega) hm).1]
      simp [fence_calls]
    · have hm2 : w.vk.uniform_buffer.map_valid = false := by simpa using hm
      refine ⟨Call.vkResetFences (w.vk.win_buffers e.index).cmd_fence e.r_reset ::
        record_calls_before_write e w (w.vk.win_buffers e.index), ?_⟩
      rw [(redraw_of_faulted e w hacq (by omega) hm2).1]
      simp [fence_calls]
  · intro hb
    apply hb
    rw [Gpu.after_append]
    exact hsig e.index hidx

/-- Witness of `fences_signaled_for_first_frame`: a two-image swapchain,
created after an `init_vulkan` in which every call succeeds, whose first frame
acquires slot 1. -/
theorem fences_signaled_for_first_frame_witness :
    ¬ (Gpu.init.after ((create_swapchain (surface_env 2) initialised_window).calls ++
        [acquire_call (frame_ok 1) ready_window])).blocks
        (ready_window.vk.win_buffers 1).cmd_fence :=
  (fences_signaled_for_first_frame (surface_env 2) initialised_window ready_window
    (frame_ok 1) (by decide) rfl (by decide) rfl (by decide)).2.2

/-! ## C6: which outcomes are checked -/

theorem create_buffer_status (be : BufferEnv) (v : vk) (size usage_flags properties : Nat)
    (map : Bool) :
    (create_buffer be v size usage_flags properties map).status =
      if mem_type_loop v.memory_properties be.reqs.memoryTypeBits properties
          v.memory_properties.memoryTypeCount 0 = UINT_MAX then Status.aborted
      else Status.returned := by
  unfold create_buffer
  by_cases h : mem_type_loop v.memory_properties be.reqs.memoryTypeBits properties
      v.memory_properties.memoryTypeCount 0 = UINT_MAX
  · simp [h]
  · cases map <;> simp [h]

theorem create_swapchain_status (se : SwapchainEnv) (w : window) :
    (create_swapchain se w).status = Status.returned ∨
      (create_swapchain se w).status = Status.aborted := by
  unfold create_swapchain
  by_cases h1 : se.surface_supported = 0
  · simp [h1]
  by_cases h2 : se.supportedCompositeAlpha &&& VK_COMPOSITE_ALPHA_OPAQUE_BIT_KHR = 0
  · simp [h1, h2]
  by_cases h3 : se.minImageCount ≥ 2 ∧ se.minImageCount ≤ MAX_NUM_IMAGES
  · by_cases h4 : se.image_count > 0 ∧ se.image_count ≤ MAX_NUM_IMAGES
    · left
      simp only [h1, h2, h3, h4, if_false, if_true, not_true, not_false_iff, and_self]
    · right
      have h4b : ¬ (0 < se.image_count ∧ se.image_count ≤ MAX_NUM_IMAGES) := h4
      simp [h1, h2, h3, h4, h4b]
  · right
    have h3b : ¬ (2 ≤ se.minImageCount ∧ se.minImageCount ≤ MAX_NUM_IMAGES) := h3
    simp [h1, h2, h3, h3b]

/-- How the first part of `init_vulkan` ends: it aborts exactly when one of its
five assertions fails; when it returns, the window holds the memory properties
the device reported. -/
theorem init_vulkan_device_status (ie : InitEnv) (w : window) :
    (init_vulkan_device ie w).status =
      (if ie.physical_device_count = 0 ∨ ie.queue_family_count = 0 ∨
          ie.queue_flags0 &&& VK_QUEUE_GRAPHICS_BIT = 0 ∨
          ie.wayland_presentation_support = 0 ∨
          select_format ie.formats w.vk.image_format = 0 then Status.aborted
       else Status.returned) ∧
    ((init_vulkan_device ie w).status = Status.returned →
      (init_vulkan_device ie w).value.vk.memory_properties = ie.memory_properties) := by
  unfold init_vulkan_device
  by_cases h1 : ie.physical_device_count = 0
  · simp [h1]
  by_cases h2 : ie.queue_family_count = 0
  · simp [h1, h2]
  by_cases h3 : ie.queue_flags0 &&& VK_QUEUE_GRAPHICS_BIT = 0
  · simp [h1, h2, h3]
  by_cases h4 : ie.wayland_presentation_support = 0
  · simp [h1, h2, h3, h4]
  by_cases h5 : select_format ie.formats w.vk.image_format = 0
  · simp [h1, h2, h3, h4, h5]
  · simp [h1, h2, h3, h4, h5]

/-- The validity of the host pointer a mapping `create_buffer` leaves. -/
theorem create_buffer_map_valid (be : BufferEnv) (v : vk)
    (size usage_flags properties : Nat) :
    (create_buffer be v size usage_flags properties true).value.map_valid =
      if mem_type_loop v.memory_properties be.reqs.memoryTypeBits properties
          v.memory_properties.memoryTypeCount 0 = UINT_MAX then false
      else decide (be.r_map = VK_SUCCESS ∧ be.mapped ≠ 0) := by
  unfold create_buffer
  by_cases hm : mem_type_loop v.memory_properties be.reqs.memoryTypeBits properties
      v.memory_properties.memoryTypeCount 0 = UINT_MAX <;> simp [hm]

/-- How `init_vulkan` ends.  No result code decides it but that of the mapping
of the vertex buffer, through the pointer the `memcpy` of line 469 uses. -/
theorem init_vulkan_status (ie : InitEnv) (w : window) :
    (init_vulkan ie w).status =
      if ie.physical_device_count = 0 ∨ ie.queue_family_count = 0 ∨
          ie.queue_flags0 &&& VK_QUEUE_GRAPHICS_BIT = 0 ∨
          ie.wayland_presentation_support = 0 ∨
          select_format ie.formats w.vk.image_format = 0 then Status.aborted
      else if mem_type_loop ie.memory_properties ie.vert_env.reqs.memoryTypeBits
          (VK_MEMORY_PROPERTY_HOST_VISIBLE_BIT ||| VK_MEMORY_PROPERTY_HOST_COHERENT_BIT)
          ie.memory_properties.memoryTypeCount 0 = UINT_MAX then Status.aborted
      else if ¬ (ie.vert_env.r_map = VK_SUCCESS ∧ ie.vert_env.mapped ≠ 0) then Status.faulted
      else if mem_type_loop ie.memory_properties ie.uniform_env.reqs.memoryTypeBits
          (VK_MEMORY_PROPERTY_HOST_VISIBLE_BIT ||| VK_MEMORY_PROPERTY_HOST_COHERENT_BIT)
          ie.memory_properties.memoryTypeCount 0 = UINT_MAX then Status.aborted
      else Status.returned := by
  obtain ⟨hds, hmp⟩ := init_vulkan_device_status ie w
  by_cases hdev : ie.physical_device_count = 0 ∨ ie.queue_family_count = 0 ∨
      ie.queue_flags0 &&& VK_QUEUE_GRAPHICS_BIT = 0 ∨
      ie.wayland_presentation_support = 0 ∨
      select_format ie.formats w.vk.image_format = 0
  · rw [if_pos hdev] at hds
    rw [if_pos hdev]
    unfold init_vulkan
    simp [hds]
  · rw [if_neg hdev] at hds
    have hmp2 := hmp hds
    rw [if_neg hdev]
    unfold init_vulkan
    simp only [hds, ne_eq, not_true_eq_false, if_false, create_buffer_status,
      create_buffer_map_valid, hmp2]
    by_cases hv : mem_type_loop ie.memory_properties ie.vert_env.reqs.memoryTypeBits
        (VK_MEMORY_PROPERTY_HOST_VISIBLE_BIT ||| VK_MEMORY_PROPERTY_HOST_COHERENT_BIT)
        ie.memory_properties.memoryTypeCount 0 = UINT_MAX
    · simp [hv]
    by_cases hvalid : ie.vert_env.r_map = VK_SUCCESS ∧ ie.vert_env.mapped ≠ 0
    swap
    · simp [hv, hvalid]
    by_cases hu : mem_type_loop ie.memory_properties ie.uniform_env.reqs.memoryTypeBits
        (VK_MEMORY_PROPERTY_HOST_VISIBLE_BIT ||| VK_MEMORY_PROPERTY_HOST_COHERENT_BIT)
        ie.memory_properties.memoryTypeCount 0 = UINT_MAX
    · simp [hv, hvalid, hu]
    · simp [hv, hvalid, hu]

/-- C6 (as amended): `redraw` aborts exactly when the image acquire or, once
the frame has got that far, the present (through the per-swapchain result it
stores) reports an outcome other than success; after a failed acquire it makes
no further call, after a failed present it does not wait for the queue; the
outcomes of the fence wait, the fence reset, the command-buffer begin and end,
the queue submit and the queue-idle wait are not checked, and the frame goes
through all its steps whatever they are, the host pointer of the uniform buffer
being valid.  `create_buffer`, `init_vulkan` and `create_swapchain` check the
outcome of no call: `create_buffer` aborts exactly when its search finds no
memory type; `init_vulkan` exactly when one of its five assertions (device
count, queue family count, graphics flag, presentation support, image format)
fails or one of its two `create_buffer` calls, the second being reached when
the vertex data could be written, finds no memory type; `create_swapchain`
exactly when one of its four assertions on the surface capabilities and the
image count fails. -/
theorem only_acquire_and_present_are_checked (e : FrameEnv) (w : window)
    (be : BufferEnv) (v : vk) (size usage_flags properties : Nat) (map : Bool)
    (se : SwapchainEnv) (ie : InitEnv) (w0 : window)
    (hidx : e.r_acquire = VK_SUCCESS → e.index < MAX_NUM_IMAGES) :
    ((redraw e w).status = Status.aborted ↔
      (e.r_acquire ≠ VK_SUCCESS ∨
        (w.vk.uniform_buffer.map_valid = true ∧ e.present_result ≠ VK_SUCCESS))) ∧
    (e.r_acquire ≠ VK_SUCCESS → (redraw e w).calls = [acquire_call e w]) ∧
    (e.r_acquire = VK_SUCCESS → w.vk.uniform_buffer.map_valid = true →
      e.present_result ≠ VK_SUCCESS →
      (redraw e w).calls =
        acquire_call e w :: (fence_calls e (w.vk.win_buffers e.index) ++
          record_calls e w (w.vk.win_buffers e.index) ++
          [submit_call e w (w.vk.win_buffers e.index), present_call e w])) ∧
    (e.r_acquire = VK_SUCCESS → w.vk.uniform_buffer.map_valid = true →
      e.present_result = VK_SUCCESS →
      (redraw e w).status = Status.returned ∧
      (redraw e w).calls =
        acquire_call e w :: (fence_calls e (w.vk.win_buffers e.index) ++
          record_calls e w (w.vk.win_buffers e.index) ++
          [submit_call e w (w.vk.win_buffers e.index), present_call e w,
           Call.vkQueueWaitIdle e.r_idle])) ∧
    ((create_buffer be v size usage_flags properties map).status = Status.aborted ↔
      mem_type_loop v.memory_properties be.reqs.memoryTypeBits properties
        v.memory_properties.memoryTypeCount 0 = UINT_MAX) ∧
    ((init_vulkan ie w0).status = Status.aborted ↔
      ((ie.physical_device_count = 0 ∨ ie.queue_family_count = 0 ∨
          ie.queue_flags0 &&& VK_QUEUE_GRAPHICS_BIT = 0 ∨
          ie.wayland_presentation_support = 0 ∨
          select_format ie.formats w0.vk.image_format = 0) ∨
        mem_type_loop ie.memory_properties ie.vert_env.reqs.memoryTypeBits
          (VK_MEMORY_PROPERTY_HOST_VISIBLE_BIT ||| VK_MEMORY_PROPERTY_HOST_COHERENT_BIT)
          ie.memory_properties.memoryTypeCount 0 = UINT_MAX ∨
        ((ie.vert_env.r_map = VK_SUCCESS ∧ ie.vert_env.mapped ≠ 0) ∧
          mem_type_loop ie.memory_properties ie.uniform_env.reqs.memoryTypeBits
            (VK_MEMORY_PROPERTY_HOST_VISIBLE_BIT ||| VK_MEMORY_PROPERTY_HOST_COHERENT_BIT)
            ie.memory_properties.memoryTypeCount 0 = UINT_MAX))) ∧
    ((create_swapchain se w).status = Status.aborted ↔
      ¬ (se.surface_supported ≠ 0 ∧
        se.supportedCompositeAlpha &&& VK_COMPOSITE_ALPHA_OPAQUE_BIT_KHR ≠ 0 ∧
        (2 ≤ se.minImageCount ∧ se.minImageCount ≤ MAX_NUM_IMAGES) ∧
        (0 < se.image_count ∧ se.image_count ≤ MAX_NUM_IMAGES))) := by
  refine ⟨?_, ?_, ?_, ?_, ?_, ?_, ?_⟩
  · by_cases ha : e.r_acquire = VK_SUCCESS
    · by_cases hm : w.vk.uniform_buffer.map_valid = true
      · have hs := (redraw_of_acquired e w ha (hidx ha) hm).2
        rw [hs]
        by_cases hp : e.present_result = VK_SUCCESS <;> simp [ha, hp, hm]
      · have hm2 : w.vk.uniform_buffer.map_valid = false := by simpa using hm
        rw [(redraw_of_faulted e w ha (hidx ha) hm2).2]
        simp [ha, hm2]
    · unfold redraw
      simp [ha]
  · intro ha
    unfold redraw
    simp [ha]
  · intro ha hm hp
    rw [(redraw_of_acquired e w ha (hidx ha) hm).1]
    simp [hp]
  · intro ha hm hp
    rw [(redraw_of_acquired e w ha (hidx ha) hm).1, (redraw_of_acquired e w ha (hidx ha) hm).2]
    simp [hp]
  · rw [create_buffer_status]
    split_ifs with h <;> simp [h]
  · rw [init_vulkan_status]
    split_ifs with h1 h2 h3 h4
    · simp [h1]
    · simp [h2]
    · simp [h3, h4]
    · simp only [false_iff]
      rintro (hc | hc | hc)
      · exact h1 hc
      · exact h2 hc
      · exact h4 hc.2
    · simp only [false_iff]
      rintro (hc | hc | hc)
      · exact h1 hc
      · exact h2 hc
      · exact h3 hc.1
  · rw [← create_swapchain_returned_iff se w]
    rcases create_swapchain_status se w with h | h <;> simp [h]

/-- Witness of `only_acquire_and_present_are_checked`: after an `init_vulkan`
and a `create_swapchain` in which every call succeeds, a frame whose fence wait
and queue-idle wait fail still returns. -/
theorem only_acquire_and_present_are_checked_witness :
    (redraw (frame_waits_fail 0) ready_window).status = Status.returned :=
  ((only_acquire_and_present_are_checked (frame_waits_fail 0) ready_window
    buffer_env_map_fails host_memory_vk 64 VK_BUFFER_USAGE_UNIFORM_BUFFER_BIT
    (VK_MEMORY_PROPERTY_HOST_VISIBLE_BIT ||| VK_MEMORY_PROPERTY_HOST_COHERENT_BIT) true
    (surface_env 2) (init_env rgba_then_bgra) main_window
    (by decide)).2.2.2.1 rfl (by decide) rfl).1

/-- C6 (counterexample): one failing call in each of the four functions, none
of which aborts.  On the window an `init_vulkan` and a `create_swapchain`
without failure leave, where the host pointer of the uniform buffer is valid, a
redraw whose fence wait reports a failure goes on to begin the command buffer
and returns after all seventeen calls.  A `create_buffer` whose `vkMapMemory`
fails returns a buffer.  An `init_vulkan` whose `vkCreateCommandPool` fails
returns.  A `create_swapchain` whose second `vkCreateSemaphore` fails
returns. -/
theorem failed_calls_do_not_abort :
    (ready_window.vk.uniform_buffer.map_valid = true ∧
     (redraw (frame_wait_fails 0) ready_window).status = Status.returned ∧
     (redraw (frame_wait_fails 0) ready_window).calls.length = 17 ∧
     (redraw (frame_wait_fails 0) ready_window).calls.take 4 =
      [acquire_call (frame_wait_fails 0) ready_window,
       Call.vkWaitForFences (Handle.fence 0) true UINT64_MAX VK_ERROR_OUT_OF_HOST_MEMORY,
       Call.vkResetFences (Handle.fence 0) VK_SUCCESS,
       Call.vkBeginCommandBuffer (Handle.cmd_buffer 0) 0 VK_SUCCESS]) ∧
    ((create_buffer buffer_env_map_fails host_memory_vk 64 VK_BUFFER_USAGE_UNIFORM_BUFFER_BIT
      (VK_MEMORY_PROPERTY_HOST_VISIBLE_BIT ||| VK_MEMORY_PROPERTY_HOST_COHERENT_BIT)
      true).status = Status.returned ∧
     (create_buffer buffer_env_map_fails host_memory_vk 64 VK_BUFFER_USAGE_UNIFORM_BUFFER_BIT
      (VK_MEMORY_PROPERTY_HOST_VISIBLE_BIT ||| VK_MEMORY_PROPERTY_HOST_COHERENT_BIT)
      true).calls =
      [Call.vkCreateBuffer 64 VK_BUFFER_USAGE_UNIFORM_BUFFER_BIT VK_SUCCESS,
       Call.vkGetBufferMemoryRequirements (Handle.buffer 1),
       Call.vkAllocateMemory 64 0 VK_SUCCESS,
       Call.vkBindBufferMemory (Handle.buffer 1) (Handle.memory 1) 0 VK_SUCCESS,
       Call.vkMapMemory (Handle.memory 1) 0 64 VK_ERROR_MEMORY_MAP_FAILED]) ∧
    ((init_vulkan init_env_pool_fails main_window).status = Status.returned ∧
     (init_vulkan init_env_pool_fails main_window).calls.getLast? =
      some (Call.vkCreateCommandPool VK_COMMAND_POOL_CREATE_RESET_COMMAND_BUFFER_BIT
        VK_ERROR_OUT_OF_HOST_MEMORY)) ∧
    ((create_swapchain surface_env_semaphore_fails initialised_window).status =
      Status.returned ∧
     (create_swapchain surface_env_semaphore_fails initialised_window).calls.getLast? =
      some (Call.vkCreateSemaphore Handle.render_semaphore VK_ERROR_OUT_OF_HOST_MEMORY)) := by
  refine ⟨⟨by decide, by decide, by decide, by decide⟩, ⟨by decide, by decide⟩,
    ⟨by decide, by decide⟩, ⟨by decide, by decide⟩⟩

/-! ## C7: the image counts `create_swapchain` accepts -/

/-- C7 (as amended): for a surface that supports presentation and opaque
compositing, `create_swapchain` succeeds when the surface reports a minimum
image count of exactly `MAX_NUM_IMAGES` and the swapchain then holds between
one and `MAX_NUM_IMAGES` images; it aborts when the swapchain holds no image
or more than `MAX_NUM_IMAGES`, when the surface reports `MAX_NUM_IMAGES + 1`,
and whenever the reported minimum is below 2 or above `MAX_NUM_IMAGES`. -/
theorem accepted_image_counts (se : SwapchainEnv) (w : window) :
    (se.surface_supported ≠ 0 →
      se.supportedCompositeAlpha &&& VK_COMPOSITE_ALPHA_OPAQUE_BIT_KHR ≠ 0 →
      se.minImageCount = MAX_NUM_IMAGES →
      (0 < se.image_count ∧ se.image_count ≤ MAX_NUM_IMAGES) →
      (create_swapchain se w).status = Status.returned) ∧
    ((se.image_count = 0 ∨ MAX_NUM_IMAGES < se.image_count) →
      (create_swapchain se w).status = Status.aborted) ∧
    (se.minImageCount = MAX_NUM_IMAGES + 1 →
      (create_swapchain se w).status = Status.aborted) ∧
    ((se.minImageCount < 2 ∨ MAX_NUM_IMAGES < se.minImageCount) →
      (create_swapchain se w).status = Status.aborted) := by
  have hab : ∀ {P : Prop}, ¬ P →
      ((create_swapchain se w).status = Status.returned → P) →
      (create_swapchain se w).status = Status.aborted := by
    intro P hP himp
    rcases create_swapchain_status se w with h | h
    · exact absurd (himp h) hP
    · exact h
  refine ⟨?_, ?_, ?_, ?_⟩
  · intro h1 h2 h3 h4
    exact (create_swapchain_returned_iff se w).2 ⟨h1, h2, by simp [h3, MAX_NUM_IMAGES], h4⟩
  · intro h
    refine hab (P := 0 < se.image_count ∧ se.image_count ≤ MAX_NUM_IMAGES) (by omega) ?_
    exact fun hr => ((create_swapchain_returned_iff se w).1 hr).2.2.2
  · intro h
    refine hab (P := 2 ≤ se.minImageCount ∧ se.minImageCount ≤ MAX_NUM_IMAGES) (by omega) ?_
    exact fun hr => ((create_swapchain_returned_iff se w).1 hr).2.2.1
  · intro h
    refine hab (P := 2 ≤ se.minImageCount ∧ se.minImageCount ≤ MAX_NUM_IMAGES) (by omega) ?_
    exact fun hr => ((create_swapchain_returned_iff se w).1 hr).2.2.1

/-- Witness of `accepted_image_counts`: a minimum of four with a swapchain of
four images is accepted. -/
theorem accepted_image_counts_witness :
    (create_swapchain (surface_env_min 4 4) main_window).status = Status.returned :=
  (accepted_image_counts (surface_env_min 4 4) main_window).1
    (by decide) (by decide) rfl (by decide)

/-- C7 (counterexample): the surface supports presentation and opaque
compositing and reports a minimum image count of exactly `MAX_NUM_IMAGES`, the
swapchain comes back with five images, and `create_swapchain` aborts on the
assertion of line 570. -/
theorem minimum_of_four_rejected_with_five_images :
    (surface_env_min 4 5).surface_supported ≠ 0 ∧
    (surface_env_min 4 5).supportedCompositeAlpha &&& VK_COMPOSITE_ALPHA_OPAQUE_BIT_KHR ≠ 0 ∧
    (surface_env_min 4 5).minImageCount = MAX_NUM_IMAGES ∧
    (create_swapchain (surface_env_min 4 5) main_window).status = Status.aborted := by
  refine ⟨by decide, by decide, by decide, by decide⟩

/-! ## C8: the composite-alpha mode checked and the one requested -/

/-- C8 (the code at the failing input): the surface supports opaque
compositing only; `create_swapchain` passes its capability check and returns,
and the swapchain it creates requests pre-multiplied compositing, which the
surface does not support. -/
theorem opaque_checked_premultiplied_requested :
    (surface_env 2).supportedCompositeAlpha = VK_COMPOSITE_ALPHA_OPAQUE_BIT_KHR ∧
    (create_swapchain (surface_env 2) main_window).status = Status.returned ∧
    Call.vkCreateSwapchainKHR (swapchain_info (surface_env 2) main_window) VK_SUCCESS ∈
      (create_swapchain (surface_env 2) main_window).calls ∧
    (swapchain_info (surface_env 2) main_window).compositeAlpha =
      VK_COMPOSITE_ALPHA_PRE_MULTIPLIED_BIT_KHR ∧
    (surface_env 2).supportedCompositeAlpha &&&
      (swapchain_info (surface_env 2) main_window).compositeAlpha = 0 := by
  refine ⟨rfl, by decide, by decide, rfl, by decide⟩

/-! ## C9: the image format -/

theorem format_loop_spec (formats : List VkSurfaceFormatKHR) (f0 : Nat) (n : Nat) :
    ∀ i,
      ((∃ j, i ≤ j ∧ j < i + n ∧
          (formats.getD j ⟨0, 0⟩).format = VK_FORMAT_B8G8R8A8_UNORM) →
        format_loop formats f0 n i = VK_FORMAT_B8G8R8A8_UNORM) ∧
      ((¬ ∃ j, i ≤ j ∧ j < i + n ∧
          (formats.getD j ⟨0, 0⟩).format = VK_FORMAT_B8G8R8A8_UNORM) →
        format_loop formats f0 n i = f0) := by
  induction n with
  | zero =>
    intro i
    refine ⟨?_, fun _ => rfl⟩
    rintro ⟨j, h1, h2, _⟩
    omega
  | succ n ih =>
    intro i
    rw [format_loop]
    by_cases h : (formats.getD i ⟨0, 0⟩).format = VK_FORMAT_B8G8R8A8_UNORM
    · rw [if_pos h]
      exact ⟨fun _ => h, fun hn => absurd ⟨i, le_refl _, by omega, h⟩ hn⟩
    · rw [if_neg h]
      obtain ⟨ih1, ih2⟩ := ih (i + 1)
      constructor
      · rintro ⟨j, a, b, c⟩
        have hj : j ≠ i := fun hj => h (hj ▸ c)
        exact ih1 ⟨j, by omega, by omega, c⟩
      · intro hn
        apply ih2
        rintro ⟨j, a, b, c⟩
        exact hn ⟨j, by omega, by omega, c⟩

/-- What the scan of the surface formats leaves in `vk->image_format`, for a
list whose length both `uint32_t count` and `int i` can hold. -/
theorem select_format_spec (formats : List VkSurfaceFormatKHR) (f0 : Nat)
    (hlen : formats.length < 2 ^ 31) :
    select_format formats f0 =
      if ∃ f ∈ formats, f.format = VK_FORMAT_B8G8R8A8_UNORM
      then VK_FORMAT_B8G8R8A8_UNORM else f0 := by
  have h1 : (int_of_uint32 formats.length).toNat = formats.length := by
    unfold int_of_uint32
    have : formats.length % 2 ^ 32 = formats.length := Nat.mod_eq_of_lt (by omega)
    rw [this, if_pos hlen]
    simp
  rw [select_format, h1]
  have hiff : (∃ j, 0 ≤ j ∧ j < 0 + formats.length ∧
      (formats.getD j ⟨0, 0⟩).format = VK_FORMAT_B8G8R8A8_UNORM) ↔
      ∃ f ∈ formats, f.format = VK_FORMAT_B8G8R8A8_UNORM := by
    constructor
    · rintro ⟨j, _, hj, hf⟩
      have hj2 : j < formats.length := by omega
      refine ⟨formats[j], List.getElem_mem _, ?_⟩
      rw [List.getD_eq_getElem _ _ hj2] at hf
      exact hf
    · rintro ⟨f, hf, hfmt⟩
      obtain ⟨j, hj, rfl⟩ := List.getElem_of_mem hf
      refine ⟨j, Nat.zero_le _, by omega, ?_⟩
      rw [List.getD_eq_getElem _ _ hj]
      exact hfmt
  obtain ⟨l1, l2⟩ := format_loop_spec formats f0 formats.length 0
  by_cases h : ∃ f ∈ formats, f.format = VK_FORMAT_B8G8R8A8_UNORM
  · rw [if_pos h, l1 (hiff.2 h)]
  · rw [if_neg h, l2 (fun h2 => h (hiff.1 h2))]

/-- The first part of `init_vulkan` once the assertions before the format scan
pass: it returns exactly when the scan leaves a format other than zero. -/
theorem init_vulkan_device_spec (ie : InitEnv) (w : window)
    (hpre : ie.physical_device_count ≠ 0 ∧ ie.queue_family_count ≠ 0 ∧
      ie.queue_flags0 &&& VK_QUEUE_GRAPHICS_BIT ≠ 0 ∧ ie.wayland_presentation_support ≠ 0) :
    (init_vulkan_device ie w).value.vk.image_format =
      select_format ie.formats w.vk.image_format ∧
    (init_vulkan_device ie w).status =
      if select_format ie.formats w.vk.image_format = 0 then Status.aborted
      else Status.returned := by
  obtain ⟨h1, h2, h3, h4⟩ := hpre
  unfold init_vulkan_device
  by_cases h5 : select_format ie.formats w.vk.image_format = 0 <;>
    simp [h1, h2, h3, h4, h5]

/-- When `init_vulkan` returns, its first part returned and the image format is
the one that part chose. -/
theorem init_vulkan_returned (ie : InitEnv) (w : window)
    (h : (init_vulkan ie w).status = Status.returned) :
    (init_vulkan_device ie w).status = Status.returned ∧
    (init_vulkan ie w).value.vk.image_format =
      (init_vulkan_device ie w).value.vk.image_format := by
  unfold init_vulkan at h ⊢
  by_cases hd : (init_vulkan_device ie w).status = Status.returned
  · refine ⟨hd, ?_⟩
    simp only [hd, ne_eq, not_true_eq_false, if_false] at h ⊢
    split_ifs at h ⊢ <;> simp_all
  · simp only [hd, ne_eq, not_false_eq_true, if_true] at h

/-- When the first part of `init_vulkan` does not return, `init_vulkan` ends
the same way. -/
theorem init_vulkan_of_device_not_returned (ie : InitEnv) (w : window)
    (h : (init_vulkan_device ie w).status ≠ Status.returned) :
    (init_vulkan ie w).status = (init_vulkan_device ie w).status := by
  unfold init_vulkan
  simp [h]

/-- C9: for every list of surface formats (of a length `uint32_t count` and
`int i` can hold), starting from the zeroed `image_format` of `main` and once
the assertions before it pass, the format selection of `init_vulkan` succeeds
if and only if the list contains `B8G8R8A8_UNORM`, and `init_vulkan` aborts
otherwise; on success the selected format is `B8G8R8A8_UNORM` wherever it
stands in the list; and the swapchain and every image view `create_swapchain`
then creates, one view for each image, use that format. -/
theorem bgra_selected_and_used (ie : InitEnv) (se : SwapchainEnv) (w0 : window)
    (hlen : ie.formats.length < 2 ^ 31)
    (hzero : w0.vk.image_format = VK_FORMAT_UNDEFINED)
    (hpre : ie.physical_device_count ≠ 0 ∧ ie.queue_family_count ≠ 0 ∧
      ie.queue_flags0 &&& VK_QUEUE_GRAPHICS_BIT ≠ 0 ∧ ie.wayland_presentation_support ≠ 0) :
    ((init_vulkan_device ie w0).status = Status.returned ↔
      ∃ f ∈ ie.formats, f.format = VK_FORMAT_B8G8R8A8_UNORM) ∧
    ((¬ ∃ f ∈ ie.formats, f.format = VK_FORMAT_B8G8R8A8_UNORM) →
      (init_vulkan ie w0).status = Status.aborted) ∧
    ((∃ f ∈ ie.formats, f.format = VK_FORMAT_B8G8R8A8_UNORM) →
      (init_vulkan_device ie w0).value.vk.image_format = VK_FORMAT_B8G8R8A8_UNORM) ∧
    ((init_vulkan ie w0).status = Status.returned →
      (init_vulkan ie w0).value.vk.image_format = VK_FORMAT_B8G8R8A8_UNORM ∧
      ((create_swapchain se (init_vulkan ie w0).value).status = Status.returned →
        (∀ info r, Call.vkCreateSwapchainKHR info r ∈
            (create_swapchain se (init_vulkan ie w0).value).calls →
          info.imageFormat = VK_FORMAT_B8G8R8A8_UNORM) ∧
        (∀ image viewType format r, Call.vkCreateImageView image viewType format r ∈
            (create_swapchain se (init_vulkan ie w0).value).calls →
          format = VK_FORMAT_B8G8R8A8_UNORM) ∧
        (∀ i < se.image_count,
          Call.vkCreateImageView (Handle.image i) VK_IMAGE_VIEW_TYPE_2D
              VK_FORMAT_B8G8R8A8_UNORM (se.r_view i) ∈
            (create_swapchain se (init_vulkan ie w0).value).calls))) := by
  obtain ⟨hfmt, hst⟩ := init_vulkan_device_spec ie w0 hpre
  have hsel := select_format_spec ie.formats w0.vk.image_format hlen
  rw [hzero] at hsel hfmt hst
  have hyes : (∃ f ∈ ie.formats, f.format = VK_FORMAT_B8G8R8A8_UNORM) →
      select_format ie.formats VK_FORMAT_UNDEFINED = VK_FORMAT_B8G8R8A8_UNORM := by
    intro h; rw [hsel, if_pos h]
  have hno : (¬ ∃ f ∈ ie.formats, f.format = VK_FORMAT_B8G8R8A8_UNORM) →
      select_format ie.formats VK_FORMAT_UNDEFINED = 0 := by
    intro h; rw [hsel, if_neg h]; rfl
  have hiff : (init_vulkan_device ie w0).status = Status.returned ↔
      ∃ f ∈ ie.formats, f.format = VK_FORMAT_B8G8R8A8_UNORM := by
    rw [hst]
    by_cases h : ∃ f ∈ ie.formats, f.format = VK_FORMAT_B8G8R8A8_UNORM
    · rw [hyes h, if_neg (by decide)]
      exact ⟨fun _ => h, fun _ => rfl⟩
    · rw [if_pos (hno h)]
      exact ⟨fun hc => absurd hc (by decide), fun hc => absurd hc h⟩
  refine ⟨hiff, ?_, ?_, ?_⟩
  · intro h
    have hd : (init_vulkan_device ie w0).status = Status.aborted := by
      rw [hst, if_pos (hno h)]
    rw [init_vulkan_of_device_not_returned ie w0 (by rw [hd]; decide), hd]
  · intro h
    rw [hfmt, hyes h]
  · intro hret
    obtain ⟨hd, hfe⟩ := init_vulkan_returned ie w0 hret
    have hf : (init_vulkan ie w0).value.vk.image_format = VK_FORMAT_B8G8R8A8_UNORM := by
      rw [hfe, hfmt, hyes (hiff.1 hd)]
    refine ⟨hf, ?_⟩
    intro hcs
    rw [create_swapchain_calls se _ hcs]
    refine ⟨?_, ?_, ?_⟩
    · intro info r hmem
      simp [swapchain_slot] at hmem
      rw [hmem.1]
      exact hf
    · intro image viewType format r hmem
      simp [swapchain_slot] at hmem
      obtain ⟨_, _, _, _, h3, _⟩ := hmem
      rw [h3]
      exact hf
    · intro i hi
      simp only [List.mem_append, List.mem_flatMap, List.mem_range']
      refine Or.inl (Or.inr ⟨i, ⟨i, by omega, by omega⟩, ?_⟩)
      simp [swapchain_slot, hf]

/-- Witness of `bgra_selected_and_used`, the scenario of the spec: the surface
reports `[R8G8B8A8_UNORM, B8G8R8A8_UNORM]` and `B8G8R8A8_UNORM` is selected. -/
theorem bgra_selected_and_used_witness :
    select_format rgba_then_bgra VK_FORMAT_UNDEFINED = VK_FORMAT_B8G8R8A8_UNORM ∧
    (init_vulkan (init_env rgba_then_bgra) main_window).value.vk.image_format =
      VK_FORMAT_B8G8R8A8_UNORM :=
  ⟨by decide,
   ((bgra_selected_and_used (init_env rgba_then_bgra) (surface_env 2) main_window
    (by decide) rfl (by decide)).2.2.2 (by decide)).1⟩

/-! ## C10: the memory type `create_buffer` chooses -/

/-- C10 (the code at the failing input): the uniform buffer of `init_vulkan`
asks for host-visible and host-coherent memory on a device whose type 0 is
host-visible but not host-coherent and whose type 1 is both, either being
allowed by the buffer.  `create_buffer` allocates from type 0, which does not
contain every requested flag; the first type that does is type 1. -/
theorem first_partly_matching_type_chosen :
    (create_buffer buffer_env_two_types cached_then_coherent_vk 64
      VK_BUFFER_USAGE_UNIFORM_BUFFER_BIT
      (VK_MEMORY_PROPERTY_HOST_VISIBLE_BIT ||| VK_MEMORY_PROPERTY_HOST_COHERENT_BIT)
      true).status = Status.returned ∧
    Call.vkAllocateMemory 64 0 VK_SUCCESS ∈
      (create_buffer buffer_env_two_types cached_then_coherent_vk 64
        VK_BUFFER_USAGE_UNIFORM_BUFFER_BIT
        (VK_MEMORY_PROPERTY_HOST_VISIBLE_BIT ||| VK_MEMORY_PROPERTY_HOST_COHERENT_BIT)
        true).calls ∧
    (cached_then_coherent_vk.memory_properties.memoryTypes.getD 0 ⟨0, 0⟩).propertyFlags &&&
      VK_MEMORY_PROPERTY_HOST_COHERENT_BIT = 0 ∧
    first_complying_type cached_then_coherent_vk.memory_properties
      buffer_env_two_types.reqs.memoryTypeBits
      (VK_MEMORY_PROPERTY_HOST_VISIBLE_BIT ||| VK_MEMORY_PROPERTY_HOST_COHERENT_BIT) =
      some 1 := by
  refine ⟨by decide, by decide, by decide, by decide⟩

/-! ## C11: when `create_buffer` fails -/

/-- The search loop of `create_buffer` ends with `mem_type == UINT_MAX` exactly
when every index it visits fails one of the two tests of lines 140 and 143. -/
theorem mem_type_loop_not_found_iff (mp : VkPhysicalDeviceMemoryProperties)
    (memoryTypeBits properties : Nat) (n : Nat) :
    ∀ i, i + n ≤ UINT_MAX →
      (mem_type_loop mp memoryTypeBits properties n i = UINT_MAX ↔
        ∀ j, i ≤ j → j < i + n →
          memoryTypeBits &&& ((1 <<< j) % 2 ^ 32) = 0 ∨
          (mp.memoryTypes.getD j ⟨0, 0⟩).propertyFlags &&& properties = 0) := by
  induction n with
  | zero =>
    intro i _
    refine ⟨fun _ j h1 h2 => by omega, fun _ => rfl⟩
  | succ n ih =>
    intro i hi
    rw [mem_type_loop]
    have hstep : (∀ j, i ≤ j → j < i + (n + 1) →
          memoryTypeBits &&& ((1 <<< j) % 2 ^ 32) = 0 ∨
          (mp.memoryTypes.getD j ⟨0, 0⟩).propertyFlags &&& properties = 0) ↔
        ((memoryTypeBits &&& ((1 <<< i) % 2 ^ 32) = 0 ∨
          (mp.memoryTypes.getD i ⟨0, 0⟩).propertyFlags &&& properties = 0) ∧
         ∀ j, i + 1 ≤ j → j < i + 1 + n →
          memoryTypeBits &&& ((1 <<< j) % 2 ^ 32) = 0 ∨
          (mp.memoryTypes.getD j ⟨0, 0⟩).propertyFlags &&& properties = 0) := by
      constructor
      · intro h
        exact ⟨h i (le_refl _) (by omega), fun j h1 h2 => h j (by omega) (by omega)⟩
      · rintro ⟨h0, h⟩ j h1 h2
        by_cases hj : j = i
        · subst hj; exact h0
        · exact h j (by omega) (by omega)
    rw [hstep]
    by_cases hb : memoryTypeBits &&& ((1 <<< i) % 2 ^ 32) = 0
    · rw [if_pos hb, ih (i + 1) (by omega)]
      exact ⟨fun h => ⟨Or.inl hb, h⟩, fun h => h.2⟩
    · rw [if_neg hb]
      by_cases hf : (mp.memoryTypes.getD i ⟨0, 0⟩).propertyFlags &&& properties = 0
      · rw [if_neg (by simpa using hf), ih (i + 1) (by omega)]
        exact ⟨fun h => ⟨Or.inr hf, h⟩, fun h => h.2⟩
      · rw [if_pos hf]
        constructor
        · intro h
          unfold UINT_MAX at h hi
          omega
        · rintro ⟨h0 | h0, _⟩
          · exact absurd h0 hb
          · exact absurd h0 hf

/-- What the code does: `create_buffer` aborts exactly when no memory type
index below `memoryTypeCount` has its bit set in `memoryTypeBits` and shares a
flag with the requested property flags, and then it has allocated nothing. -/
theorem create_buffer_aborts_iff (be : BufferEnv) (v : vk)
    (size usage_flags properties : Nat) (map : Bool)
    (hcount : v.memory_properties.memoryTypeCount ≤ 32) :
    ((create_buffer be v size usage_flags properties map).status = Status.aborted ↔
      ∀ j, j < v.memory_properties.memoryTypeCount →
        be.reqs.memoryTypeBits &&& ((1 <<< j) % 2 ^ 32) = 0 ∨
        (v.memory_properties.memoryTypes.getD j ⟨0, 0⟩).propertyFlags &&& properties = 0) ∧
    ((create_buffer be v size usage_flags properties map).status = Status.aborted →
      ∀ a t r, Call.vkAllocateMemory a t r ∉
        (create_buffer be v size usage_flags properties map).calls) := by
  have hloop := mem_type_loop_not_found_iff v.memory_properties be.reqs.memoryTypeBits
    properties v.memory_properties.memoryTypeCount 0 (by unfold UINT_MAX; omega)
  constructor
  · rw [create_buffer_status]
    constructor
    · intro h j hj
      by_cases hm : mem_type_loop v.memory_properties be.reqs.memoryTypeBits properties
          v.memory_properties.memoryTypeCount 0 = UINT_MAX
      · exact hloop.1 hm j (Nat.zero_le _) (by omega)
      · rw [if_neg hm] at h
        exact absurd h (by decide)
    · intro h
      rw [if_pos (hloop.2 (fun j _ h2 => h j (by omega)))]
  · intro h a t r
    rw [create_buffer_status] at h
    by_cases hm : mem_type_loop v.memory_properties be.reqs.memoryTypeBits properties
        v.memory_properties.memoryTypeCount 0 = UINT_MAX
    · unfold create_buffer
      simp [hm]
    · rw [if_neg hm] at h
      exact absurd h (by decide)

/-- C11 (the code at the failing input): device-local and host-visible memory
is requested on a device whose type 0 is device-local only and whose type 1 is
host-visible and host-coherent, both allowed by the buffer.  No memory type
contains both requested flags, yet the assertion of `create_buffer` does not
fire: it allocates from type 0, which shares one flag with the request. -/
theorem no_complying_type_yet_no_abort :
    first_complying_type local_then_host_vk.memory_properties
      buffer_env_two_types.reqs.memoryTypeBits
      (VK_MEMORY_PROPERTY_DEVICE_LOCAL_BIT ||| VK_MEMORY_PROPERTY_HOST_VISIBLE_BIT) = none ∧
    (create_buffer buffer_env_two_types local_then_host_vk 64
      VK_BUFFER_USAGE_UNIFORM_BUFFER_BIT
      (VK_MEMORY_PROPERTY_DEVICE_LOCAL_BIT ||| VK_MEMORY_PROPERTY_HOST_VISIBLE_BIT)
      true).status = Status.returned ∧
    Call.vkAllocateMemory 64 0 VK_SUCCESS ∈
      (create_buffer buffer_env_two_types local_then_host_vk 64
        VK_BUFFER_USAGE_UNIFORM_BUFFER_BIT
        (VK_MEMORY_PROPERTY_DEVICE_LOCAL_BIT ||| VK_MEMORY_PROPERTY_HOST_VISIBLE_BIT)
        true).calls := by
  refine ⟨by decide, by decide, by decide⟩

/-! ## C12: the allocation size -/

theorem MAX_eq_max (x y : Nat) : MAX x y = max x y := by
  unfold MAX
  split_ifs with h
  · exact (max_eq_left (by omega)).symm
  · exact (max_eq_right (by omega)).symm

/-- C12: for every requested size and every required size the runtime reports,
a `create_buffer` that returns makes one memory allocation, whose size is the
maximum of the two, so at least each of them, and the buffer it returns
records the requested size. -/
theorem allocation_size_is_maximum (be : BufferEnv) (v : vk)
    (size usage_flags properties : Nat) (map : Bool)
    (hret : (create_buffer be v size usage_flags properties map).status = Status.returned) :
    (∃ t rest,
      (create_buffer be v size usage_flags properties map).calls =
        [Call.vkCreateBuffer size usage_flags be.r_create,
         Call.vkGetBufferMemoryRequirements (Handle.buffer be.id),
         Call.vkAllocateMemory (max size be.reqs.size) t be.r_alloc] ++ rest ∧
      ∀ c ∈ rest, ∀ a t1 r, c ≠ Call.vkAllocateMemory a t1 r) ∧
    size ≤ max size be.reqs.size ∧
    be.reqs.size ≤ max size be.reqs.size ∧
    (create_buffer be v size usage_flags properties map).value.size = size := by
  rw [create_buffer_status] at hret
  have hm : ¬ mem_type_loop v.memory_properties be.reqs.memoryTypeBits properties
      v.memory_properties.memoryTypeCount 0 = UINT_MAX := by
    intro h
    rw [if_pos h] at hret
    exact absurd hret (by decide)
  refine ⟨?_, le_max_left _ _, le_max_right _ _, ?_⟩
  · refine ⟨mem_type_loop v.memory_properties be.reqs.memoryTypeBits properties
      v.memory_properties.memoryTypeCount 0,
      Call.vkBindBufferMemory (Handle.buffer be.id) (Handle.memory be.id) 0 be.r_bind ::
        (if map then [Call.vkMapMemory (Handle.memory be.id) 0 size be.r_map] else []),
      ?_, ?_⟩
    · unfold create_buffer
      cases map <;> simp [hm, MAX_eq_max]
    · cases map <;> simp
  · unfold create_buffer
    cases map <;> simp [hm]

/-- Witness of `allocation_size_is_maximum`: 64 bytes are requested, the
runtime requires 256, and 256 are allocated for a buffer of size 64. -/
theorem allocation_size_is_maximum_witness :
    Call.vkAllocateMemory 256 0 VK_SUCCESS ∈
      (create_buffer (buffer_env_ok 1) host_memory_vk 64 VK_BUFFER_USAGE_UNIFORM_BUFFER_BIT
        (VK_MEMORY_PROPERTY_HOST_VISIBLE_BIT ||| VK_MEMORY_PROPERTY_HOST_COHERENT_BIT)
        true).calls ∧
    (create_buffer (buffer_env_ok 1) host_memory_vk 64 VK_BUFFER_USAGE_UNIFORM_BUFFER_BIT
      (VK_MEMORY_PROPERTY_HOST_VISIBLE_BIT ||| VK_MEMORY_PROPERTY_HOST_COHERENT_BIT)
      true).value.size = 64 :=
  ⟨by decide,
   (allocation_size_is_maximum (buffer_env_ok 1) host_memory_vk 64
    VK_BUFFER_USAGE_UNIFORM_BUFFER_BIT
    (VK_MEMORY_PROPERTY_HOST_VISIBLE_BIT ||| VK_MEMORY_PROPERTY_HOST_COHERENT_BIT) true
    (by decide)).2.2.2⟩

/-! ## C13: the host pointer of a buffer -/

/-- What the code does with the `map` field: a `create_buffer` that returns
leaves there the address `vkMapMemory` wrote when `map` is set, and the
indeterminate content of its local `struct buffer` when it is not. -/
theorem create_buffer_map_field (be : BufferEnv) (v : vk)
    (size usage_flags properties : Nat) (map : Bool)
    (hret : (create_buffer be v size usage_flags properties map).status = Status.returned) :
    (create_buffer be v size usage_flags properties map).value.map =
      (if map then be.mapped else be.uninit_map) ∧
    (map = true → Call.vkMapMemory (Handle.memory be.id) 0 size be.r_map ∈
      (create_buffer be v size usage_flags properties map).calls) ∧
    (map = false → ∀ m o sz r, Call.vkMapMemory m o sz r ∉
      (create_buffer be v size usage_flags properties map).calls) := by
  rw [create_buffer_status] at hret
  have hm : ¬ mem_type_loop v.memory_properties be.reqs.memoryTypeBits properties
      v.memory_properties.memoryTypeCount 0 = UINT_MAX := by
    intro h
    rw [if_pos h] at hret
    exact absurd hret (by decide)
  unfold create_buffer
  cases map <;> simp [hm]

/-- After an `init_vulkan` that returns, the vertex buffer, unmapped again, has
a null host pointer, which is not valid, and the uniform buffer has the pointer
its mapping produced, valid when that mapping succeeded. -/
theorem init_vulkan_buffer_maps (ie : InitEnv) (w : window)
    (h : (init_vulkan ie w).status = Status.returned) :
    (init_vulkan ie w).value.vk.vert_buffer.map = 0 ∧
    (init_vulkan ie w).value.vk.vert_buffer.map_valid = false ∧
    (init_vulkan ie w).value.vk.uniform_buffer.map = ie.uniform_env.mapped ∧
    (init_vulkan ie w).value.vk.uniform_buffer.map_valid =
      decide (ie.uniform_env.r_map = VK_SUCCESS ∧ ie.uniform_env.mapped ≠ 0) := by
  unfold init_vulkan at h ⊢
  by_cases hd : (init_vulkan_device ie w).status = Status.returned
  · simp only [hd, ne_eq, not_true_eq_false, if_false] at h ⊢
    split_ifs at h ⊢ with h1 h2 h3
    · have hu := (create_buffer_map_field _ _ _ _ _ true h3).1
      simp only [if_true] at hu
      have hv := create_buffer_map_valid ie.uniform_env
        { (init_vulkan_device ie w).value.vk with
          render_pass := Handle.render_pass
          desc_set_layout := Handle.desc_set_layout
          pipeline_layout := Handle.pipeline_layout
          pipeline := Handle.pipeline
          vert_buffer :=
            { (create_buffer ie.vert_env
                { (init_vulkan_device ie w).value.vk with
                  render_pass := Handle.render_pass
                  desc_set_layout := Handle.desc_set_layout
                  pipeline_layout := Handle.pipeline_layout
                  pipeline := Handle.pipeline }
                72 VK_BUFFER_USAGE_VERTEX_BUFFER_BIT
                (VK_MEMORY_PROPERTY_HOST_VISIBLE_BIT ||| VK_MEMORY_PROPERTY_HOST_COHERENT_BIT)
                true).value with
              map := 0
              map_valid := false } }
        64 VK_BUFFER_USAGE_UNIFORM_BUFFER_BIT
        (VK_MEMORY_PROPERTY_HOST_VISIBLE_BIT ||| VK_MEMORY_PROPERTY_HOST_COHERENT_BIT)
      rw [create_buffer_status] at h3
      split_ifs at h3 with h4
      rw [if_neg h4] at hv
      exact ⟨rfl, rfl, hu, hv⟩
    · exact absurd h h3
    · exact absurd h h1
  · simp only [hd, ne_eq, not_false_eq_true, if_true] at h

/-- A `create_swapchain` keeps both `struct buffer`s of the window. -/
theorem create_swapchain_keeps_buffers (se : SwapchainEnv) (w : window) :
    (create_swapchain se w).value.vk.uniform_buffer = w.vk.uniform_buffer ∧
    (create_swapchain se w).value.vk.vert_buffer = w.vk.vert_buffer := by
  unfold create_swapchain
  by_cases h1 : se.surface_supported = 0
  · simp [h1]
  by_cases h2 : se.supportedCompositeAlpha &&& VK_COMPOSITE_ALPHA_OPAQUE_BIT_KHR = 0
  · simp [h1, h2]
  by_cases h3 : se.minImageCount ≥ 2 ∧ se.minImageCount ≤ MAX_NUM_IMAGES
  · by_cases h4 : se.image_count > 0 ∧ se.image_count ≤ MAX_NUM_IMAGES
    · simp [h1, h2, h3, h4]
    · have h4b : ¬ (0 < se.image_count ∧ se.image_count ≤ MAX_NUM_IMAGES) := h4
      simp [h1, h2, h3, h4, h4b]
  · have h3b : ¬ (2 ≤ se.minImageCount ∧ se.minImageCount ≤ MAX_NUM_IMAGES) := h3
    simp [h1, h2, h3, h3b]

/-- A `redraw` that reaches the host write, the `map` pointer of the uniform
buffer being valid, writes the uniform data through that pointer. -/
theorem uniform_pointer_kept (w : window) (e : FrameEnv)
    (hacq : e.r_acquire = VK_SUCCESS) (hidx : e.index < MAX_NUM_IMAGES)
    (hmap : w.vk.uniform_buffer.map_valid = true) :
    Call.memcpy w.vk.uniform_buffer.map identity_matrix ∈ (redraw e w).calls := by
  rw [(redraw_of_acquired e w hacq hidx hmap).1]
  simp [record_calls]

/-- C13 (the code at the failing input): `create_buffer` is called with `map`
not set while the `map` field of its local `struct buffer` holds a non-zero
value; it makes no `vkMapMemory` call and never stores to the field, so the
buffer it returns carries that value as its host pointer, not null. -/
theorem unmapped_buffer_keeps_indeterminate_pointer :
    (buffer_env_ok 0).uninit_map = 57005 ∧
    (create_buffer (buffer_env_ok 0) host_memory_vk 72 VK_BUFFER_USAGE_VERTEX_BUFFER_BIT
      (VK_MEMORY_PROPERTY_HOST_VISIBLE_BIT ||| VK_MEMORY_PROPERTY_HOST_COHERENT_BIT)
      false).status = Status.returned ∧
    (create_buffer (buffer_env_ok 0) host_memory_vk 72 VK_BUFFER_USAGE_VERTEX_BUFFER_BIT
      (VK_MEMORY_PROPERTY_HOST_VISIBLE_BIT ||| VK_MEMORY_PROPERTY_HOST_COHERENT_BIT)
      false).calls =
      [Call.vkCreateBuffer 72 VK_BUFFER_USAGE_VERTEX_BUFFER_BIT VK_SUCCESS,
       Call.vkGetBufferMemoryRequirements (Handle.buffer 0),
       Call.vkAllocateMemory 256 0 VK_SUCCESS,
       Call.vkBindBufferMemory (Handle.buffer 0) (Handle.memory 0) 0 VK_SUCCESS] ∧
    (create_buffer (buffer_env_ok 0) host_memory_vk 72 VK_BUFFER_USAGE_VERTEX_BUFFER_BIT
      (VK_MEMORY_PROPERTY_HOST_VISIBLE_BIT ||| VK_MEMORY_PROPERTY_HOST_COHERENT_BIT)
      false).value.map = 57005 := by
  refine ⟨rfl, by decide, by decide, by decide⟩

/-! ## C14: every frame records the same command sequence afresh -/

theorem Recorder.after_calls_append (rc : Recorder) (a b : List Call) :
    rc.after (a ++ b) = (rc.after a).after b := by
  simp [Recorder.after, List.foldl_append]

theorem Recorder.after_calls_cons (rc : Recorder) (c : Call) (cs : List Call) :
    rc.after (c :: cs) = (rc.step c).after cs := rfl

theorem Recorder.step_inert (rc : Recorder) (c : Call) (h : c.touches_recorder = false) :
    rc.step c = rc := by
  cases c <;> first | rfl | simp [Call.touches_recorder] at h

theorem Recorder.after_inert (cs : List Call) :
    ∀ rc : Recorder, (∀ c ∈ cs, c.touches_recorder = false) → rc.after cs = rc := by
  induction cs with
  | nil => intro rc _; rfl
  | cons c cs ih =>
    intro rc h
    rw [Recorder.after_calls_cons, Recorder.step_inert rc c (h c (List.mem_cons_self _ _))]
    exact ih rc (fun c1 h1 => h c1 (List.mem_cons_of_mem _ h1))

theorem recorded_commands_sublist (e : FrameEnv) (w : window) (wb : window_buffer) :
    record_calls e w wb =
      Call.vkBeginCommandBuffer wb.cmd_buffer 0 e.r_begin ::
        ((recorded_commands w wb).take 3 ++
          Call.memcpy w.vk.uniform_buffer.map identity_matrix ::
          (recorded_commands w wb).drop 3 ++
          [Call.vkEndCommandBuffer wb.cmd_buffer e.r_end]) := rfl

/-- What one redraw that gets past the host write does to the command buffers,
on a pool whose buffers may be begun again and a buffer that is not in the
middle of a recording: the state of
every other buffer is kept, and the buffer of the acquired slot holds exactly
the commands of this redraw. -/
theorem Recorder.after_redraw (rc : Recorder) (e : FrameEnv) (w : window)
    (hacq : e.r_acquire = VK_SUCCESS) (hidx : e.index < MAX_NUM_IMAGES)
    (hmap : w.vk.uniform_buffer.map_valid = true)
    (hpool : rc.resettable = true)
    (hrec : ∀ l, rc.state (w.vk.win_buffers e.index).cmd_buffer ≠ CmdState.recording l) :
    (rc.after (redraw e w).calls).resettable = true ∧
    (rc.after (redraw e w).calls).state =
      Function.update rc.state (w.vk.win_buffers e.index).cmd_buffer
        (if e.r_begin = VK_SUCCESS ∧ e.r_end = VK_SUCCESS then
          CmdState.executable (recorded_commands w (w.vk.win_buffers e.index))
         else CmdState.invalid) := by
  rw [(redraw_of_acquired e w hacq hidx hmap).1]
  generalize w.vk.win_buffers e.index = wb at hrec ⊢
  have htail : ∀ rc1 : Recorder, rc1.after
      (if e.present_result = VK_SUCCESS then [Call.vkQueueWaitIdle e.r_idle] else []) = rc1 := by
    intro rc1
    apply Recorder.after_inert
    by_cases hp : e.present_result = VK_SUCCESS <;> simp [hp, Call.touches_recorder]
  have hsp : ∀ rc1 : Recorder,
      rc1.after [submit_call e w wb, present_call e w] = rc1 := fun _ => rfl
  rw [Recorder.after_calls_cons, Recorder.step_inert rc _ (by rfl), Recorder.after_calls_append,
    Recorder.after_calls_append, Recorder.after_calls_append, htail, hsp,
    Recorder.after_inert (fence_calls e wb) rc (by simp [fence_calls, Call.touches_recorder])]
  simp only [record_calls, Recorder.after, List.foldl, Recorder.step, Recorder.record,
    recorded_commands, Function.update_same, Function.update_idem, hpool]
  cases hst : rc.state wb.cmd_buffer with
  | recording l => exact absurd hst (hrec l)
  | initial =>
    by_cases hb : e.r_begin = VK_SUCCESS <;> by_cases he : e.r_end = VK_SUCCESS <;>
      simp [hb, he]
  | executable l =>
    by_cases hb : e.r_begin = VK_SUCCESS <;> by_cases he : e.r_end = VK_SUCCESS <;>
      simp [hb, he]
  | invalid =>
    by_cases hb : e.r_begin = VK_SUCCESS <;> by_cases he : e.r_end = VK_SUCCESS <;>
      simp [hb, he]

theorem create_buffer_inert (be : BufferEnv) (v : vk) (size usage_flags properties : Nat)
    (map : Bool) :
    ∀ c ∈ (create_buffer be v size usage_flags properties map).calls,
      c.touches_recorder = false := by
  unfold create_buffer
  by_cases h : mem_type_loop v.memory_properties be.reqs.memoryTypeBits properties
      v.memory_properties.memoryTypeCount 0 = UINT_MAX
  · simp [h, Call.touches_recorder]
  · cases map <;> simp [h, Call.touches_recorder]

theorem init_vulkan_device_inert (ie : InitEnv) (w : window) :
    ∀ c ∈ (init_vulkan_device ie w).calls, c.touches_recorder = false := by
  unfold init_vulkan_device
  by_cases h1 : ie.physical_device_count = 0
  · simp [h1, Call.touches_recorder]
  by_cases h2 : ie.queue_family_count = 0
  · simp [h1, h2, Call.touches_recorder]
  by_cases h3 : ie.queue_flags0 &&& VK_QUEUE_GRAPHICS_BIT = 0
  · simp [h1, h2, h3, Call.touches_recorder]
  by_cases h4 : ie.wayland_presentation_support = 0
  · simp [h1, h2, h3, h4, Call.touches_recorder]
  by_cases h5 : select_format ie.formats w.vk.image_format = 0 <;>
    simp [h1, h2, h3, h4, h5, Call.touches_recorder]

/-- After an `init_vulkan` that returns, every command buffer is in its
initial state, and the buffers of the pool may be begun again if the creation
of the pool, which passes `VK_COMMAND_POOL_CREATE_RESET_COMMAND_BUFFER_BIT`,
succeeded. -/
theorem Recorder.after_init_vulkan (ie : InitEnv) (w : window)
    (h : (init_vulkan ie w).status = Status.returned) :
    (Recorder.init.after (init_vulkan ie w).calls).resettable =
      decide (ie.r_cmd_pool = VK_SUCCESS) ∧
    (Recorder.init.after (init_vulkan ie w).calls).state = fun _ => CmdState.initial := by
  unfold init_vulkan at h ⊢
  by_cases hd : (init_vulkan_device ie w).status = Status.returned
  · simp only [hd, ne_eq, not_true_eq_false, if_false] at h ⊢
    split_ifs at h ⊢ with h1 h2 h3
    · simp only [Recorder.after_calls_append]
      rw [Recorder.after_inert _ _ (init_vulkan_device_inert ie w)]
      rw [Recorder.after_inert _ _ (create_buffer_inert ie.vert_env _ _ _ _ _)]
      rw [Recorder.after_inert _ _ (create_buffer_inert ie.uniform_env _ _ _ _ _)]
      simp [Recorder.after, Recorder.step, Recorder.init,
        VK_COMMAND_POOL_CREATE_RESET_COMMAND_BUFFER_BIT]
    · exact absurd h h3
    · exact absurd h h1
  · simp only [hd, ne_eq, not_false_eq_true, if_true] at h

theorem create_swapchain_inert (se : SwapchainEnv) (w : window)
    (h : (create_swapchain se w).status = Status.returned) :
    ∀ c ∈ (create_swapchain se w).calls, c.touches_recorder = false := by
  rw [create_swapchain_calls se w h]
  intro c hc
  simp only [List.mem_append, List.mem_flatMap, List.mem_range'] at hc
  rcases hc with (hc | ⟨j, _, hc⟩) | hc
  · revert c; simp [Call.touches_recorder]
  · revert c; simp [swapchain_slot, Call.touches_recorder]
  · revert c; simp [Call.touches_recorder]

/-- Between redraws, on a window whose uniform buffer has a valid host
pointer, no command buffer is in the middle of a recording, and the pool keeps
letting its buffers be begun again. -/
theorem Recorder.ready_after_frames (w : window) (envs : List FrameEnv)
    (hmap : w.vk.uniform_buffer.map_valid = true) :
    ∀ rc : Recorder, rc.resettable = true → (∀ c l, rc.state c ≠ CmdState.recording l) →
      (rc.after (trace (frame_loop w envs))).resettable = true ∧
      ∀ c l, (rc.after (trace (frame_loop w envs))).state c ≠ CmdState.recording l := by
  have hone : ∀ (e : FrameEnv) (rc : Recorder), rc.resettable = true →
      (∀ c l, rc.state c ≠ CmdState.recording l) →
      (rc.after (redraw e w).calls).resettable = true ∧
      ∀ c l, (rc.after (redraw e w).calls).state c ≠ CmdState.recording l := by
    intro e rc hp hr
    by_cases ha : e.r_acquire = VK_SUCCESS ∧ e.index < MAX_NUM_IMAGES
    · obtain ⟨h1, h2⟩ := Recorder.after_redraw rc e w ha.1 ha.2 hmap hp (hr _)
      refine ⟨h1, ?_⟩
      intro c l
      rw [h2]
      by_cases hc : c = (w.vk.win_buffers e.index).cmd_buffer
      · subst hc
        rw [Function.update_same]
        split_ifs <;> simp
      · rw [Function.update_noteq hc]
        exact hr c l
    · rw [(redraw_of_not_acquired e w ha).1]
      exact ⟨hp, hr⟩
  induction envs with
  | nil => intro rc hp hr; exact ⟨hp, hr⟩
  | cons e es ih =>
    intro rc hp hr
    obtain ⟨h1, h2⟩ := hone e rc hp hr
    by_cases hs : (redraw e w).status = Status.returned
    · simp only [frame_loop, hs, if_true, trace_cons, Recorder.after_calls_append]
      exact ih _ h1 h2
    · simp only [frame_loop, hs, if_false, trace_cons, trace_nil, List.append_nil]
      exact ⟨h1, h2⟩

/-- C14: in a run of `init_vulkan`, `create_swapchain` and any number of
redraws on the window they leave, the mapping of the uniform buffer having
succeeded so that its host pointer is valid and no redraw ends at its host
write, consider one further redraw whose acquire succeeds.  Whatever the slot
and whatever the runtime answered, the calls of that redraw that act on a
command buffer are the begin of the command buffer of the acquired slot, the
eight commands below and the end; up to the command buffer and the framebuffer
of the slot the commands are: begin render pass with the clear colour
(0, 0, 0, 0.5), bind vertex buffer, bind pipeline, bind descriptor set, set
viewport, set scissor, one draw of 3 vertices and 1 instance, end render pass;
the uniform data written by the redraw is the 4x4 identity.  And when the
command pool was created and the begin and the end succeeded, the command
buffer of the acquired slot holds after the redraw exactly those commands, not
those of earlier frames as well. -/
theorem recordings_identical_and_fresh (ie : InitEnv) (se : SwapchainEnv) (w0 w : window)
    (earlier : List FrameEnv) (e : FrameEnv)
    (hinit : (init_vulkan ie w0).status = Status.returned)
    (hmap : ie.uniform_env.r_map = VK_SUCCESS) (hptr : ie.uniform_env.mapped ≠ 0)
    (hcs : (create_swapchain se (init_vulkan ie w0).value).status = Status.returned)
    (hw : (create_swapchain se (init_vulkan ie w0).value).value = w)
    (hacq : e.r_acquire = VK_SUCCESS) (hidx : e.index < MAX_NUM_IMAGES) :
    (redraw e w).calls.filter Call.touches_recorder =
      Call.vkBeginCommandBuffer (w.vk.win_buffers e.index).cmd_buffer 0 e.r_begin ::
        (recorded_commands w (w.vk.win_buffers e.index) ++
          [Call.vkEndCommandBuffer (w.vk.win_buffers e.index).cmd_buffer e.r_end]) ∧
    (recorded_commands w (w.vk.win_buffers e.index)).map Call.erase_slot =
      [Call.vkCmdBeginRenderPass Handle.null w.vk.render_pass Handle.null
         ((0, 0), (w.width, w.height)) [f32_0, f32_0, f32_0, f32_half]
         VK_SUBPASS_CONTENTS_INLINE,
       Call.vkCmdBindVertexBuffers Handle.null w.vk.vert_buffer.buffer 0,
       Call.vkCmdBindPipeline Handle.null VK_PIPELINE_BIND_POINT_GRAPHICS w.vk.pipeline,
       Call.vkCmdBindDescriptorSets Handle.null VK_PIPELINE_BIND_POINT_GRAPHICS
         w.vk.pipeline_layout w.vk.desc_set,
       Call.vkCmdSetViewport Handle.null 0 0 w.width w.height 0 1,
       Call.vkCmdSetScissor Handle.null (0, 0) (w.width, w.height),
       Call.vkCmdDraw Handle.null 3 1 0 0,
       Call.vkCmdEndRenderPass Handle.null] ∧
    Call.memcpy w.vk.uniform_buffer.map identity_matrix ∈ (redraw e w).calls ∧
    (ie.r_cmd_pool = VK_SUCCESS → e.r_begin = VK_SUCCESS → e.r_end = VK_SUCCESS →
      (Recorder.init.after ((init_vulkan ie w0).calls ++
          (create_swapchain se (init_vulkan ie w0).value).calls ++
          trace (frame_loop w earlier) ++ (redraw e w).calls)).state
          (w.vk.win_buffers e.index).cmd_buffer =
        CmdState.executable (recorded_commands w (w.vk.win_buffers e.index))) := by
  have hvalid : w.vk.uniform_buffer.map_valid = true := by
    rw [← hw, (create_swapchain_keeps_buffers se _).1,
      (init_vulkan_buffer_maps ie w0 hinit).2.2.2]
    simp [hmap, hptr]
  refine ⟨?_, rfl, uniform_pointer_kept w e hacq hidx hvalid, ?_⟩
  · rw [(redraw_of_acquired e w hacq hidx hvalid).1]
    by_cases hp : e.present_result = VK_SUCCESS <;>
      simp [hp, acquire_call, fence_calls, record_calls, recorded_commands, submit_call,
        present_call, Call.touches_recorder]
  intro hpool hbegin hend
  obtain ⟨i1, i2⟩ := Recorder.after_init_vulkan ie w0 hinit
  rw [Recorder.after_calls_append, Recorder.after_calls_append, Recorder.after_calls_append,
    Recorder.after_inert _ _ (create_swapchain_inert se _ hcs)]
  have hp0 : (Recorder.init.after (init_vulkan ie w0).calls).resettable = true := by
    rw [i1]; simp [hpool]
  have hr0 : ∀ c l, (Recorder.init.after (init_vulkan ie w0).calls).state c ≠
      CmdState.recording l := by
    intro c l
    rw [i2]
    simp
  obtain ⟨hp1, hr1⟩ := Recorder.ready_after_frames w earlier hvalid _ hp0 hr0
  obtain ⟨_, hst⟩ := Recorder.after_redraw _ e w hacq hidx hvalid hp1 (hr1 _)
  rw [hst, Function.update_same, if_pos ⟨hbegin, hend⟩]

/-- Witness of `recordings_identical_and_fresh`: the second of two successful
frames on slot 0 leaves in its command buffer the eight commands of one frame. -/
theorem recordings_identical_and_fresh_witness :
    (Recorder.init.after ((init_vulkan (init_env rgba_then_bgra) main_window).calls ++
        (create_swapchain (surface_env 2)
          (init_vulkan (init_env rgba_then_bgra) main_window).value).calls ++
        trace (frame_loop ready_window [frame_ok 0]) ++
        (redraw (frame_ok 0) ready_window).calls)).state
        (ready_window.vk.win_buffers 0).cmd_buffer =
      CmdState.executable (recorded_commands ready_window (ready_window.vk.win_buffers 0)) ∧
    (recorded_commands ready_window (ready_window.vk.win_buffers 0)).length = 8 :=
  ⟨(recordings_identical_and_fresh (init_env rgba_then_bgra) (surface_env 2) main_window
      ready_window [frame_ok 0] (frame_ok 0) (by decide) rfl (by decide) (by decide) rfl
      rfl (by decide)).2.2.2 rfl rfl rfl,
   rfl⟩

/-! ## C15: the extent -/

theorem create_buffer_uses_extent (be : BufferEnv) (v : vk)
    (size usage_flags properties : Nat) (map : Bool) (a b : Int) :
    ∀ c ∈ (create_buffer be v size usage_flags properties map).calls, c.uses_extent a b := by
  unfold create_buffer
  by_cases h : mem_type_loop v.memory_properties be.reqs.memoryTypeBits properties
      v.memory_properties.memoryTypeCount 0 = UINT_MAX
  · simp [h, Call.uses_extent]
  · cases map <;> simp [h, Call.uses_extent]

theorem init_vulkan_device_uses_extent (ie : InitEnv) (w : window) (a b : Int) :
    (∀ c ∈ (init_vulkan_device ie w).calls, c.uses_extent a b) ∧
    (init_vulkan_device ie w).value.width = w.width ∧
    (init_vulkan_device ie w).value.height = w.height := by
  unfold init_vulkan_device
  by_cases h1 : ie.physical_device_count = 0
  · simp [h1, Call.uses_extent]
  by_cases h2 : ie.queue_family_count = 0
  · simp [h1, h2, Call.uses_extent]
  by_cases h3 : ie.queue_flags0 &&& VK_QUEUE_GRAPHICS_BIT = 0
  · simp [h1, h2, h3, Call.uses_extent]
  by_cases h4 : ie.wayland_presentation_support = 0
  · simp [h1, h2, h3, h4, Call.uses_extent]
  by_cases h5 : select_format ie.formats w.vk.image_format = 0 <;>
    simp [h1, h2, h3, h4, h5, Call.uses_extent]

/-- No call of `init_vulkan` carries an extent, and `init_vulkan` leaves the
width and the height of the window as they are. -/
theorem init_vulkan_uses_extent (ie : InitEnv) (w : window) (a b : Int) :
    (∀ c ∈ (init_vulkan ie w).calls, c.uses_extent a b) ∧
    (init_vulkan ie w).value.width = w.width ∧
    (init_vulkan ie w).value.height = w.height := by
  obtain ⟨d1, d2, d3⟩ := init_vulkan_device_uses_extent ie w a b
  unfold init_vulkan
  by_cases hd : (init_vulkan_device ie w).status = Status.returned
  · simp only [hd, ne_eq, not_true_eq_false, if_false]
    split_ifs with h1 h2 h3
    · refine ⟨?_, d2, d3⟩
      intro c hc
      simp only [List.mem_append] at hc
      rcases hc with (hc | hc) | hc
      · exact d1 c hc
      · revert c; simp [Call.uses_extent]
      · exact create_buffer_uses_extent _ _ _ _ _ _ a b c hc
    · refine ⟨?_, d2, d3⟩
      intro c hc
      simp only [List.mem_append] at hc
      rcases hc with ((((hc | hc) | hc) | hc) | hc) | hc
      · exact d1 c hc
      · revert c; simp [Call.uses_extent]
      · exact create_buffer_uses_extent _ _ _ _ _ _ a b c hc
      · revert c; simp [Call.uses_extent]
      · exact create_buffer_uses_extent _ _ _ _ _ _ a b c hc
      · revert c; simp [Call.uses_extent]
    · refine ⟨?_, d2, d3⟩
      intro c hc
      simp only [List.mem_append] at hc
      rcases hc with (((hc | hc) | hc) | hc) | hc
      · exact d1 c hc
      · revert c; simp [Call.uses_extent]
      · exact create_buffer_uses_extent _ _ _ _ _ _ a b c hc
      · revert c; simp [Call.uses_extent]
      · exact create_buffer_uses_extent _ _ _ _ _ _ a b c hc
    · refine ⟨?_, d2, d3⟩
      intro c hc
      simp only [List.mem_append] at hc
      rcases hc with (hc | hc) | hc
      · exact d1 c hc
      · revert c; simp [Call.uses_extent]
      · exact create_buffer_uses_extent _ _ _ _ _ _ a b c hc
  · simp only [hd, ne_eq, not_false_eq_true, if_true]
    exact ⟨d1, d2, d3⟩

/-- Every call of `create_swapchain` that carries an extent carries the width
and the height of the window, and `create_swapchain` leaves them as they are. -/
theorem create_swapchain_uses_extent (se : SwapchainEnv) (w : window) :
    (∀ c ∈ (create_swapchain se w).calls, c.uses_extent w.width w.height) ∧
    (create_swapchain se w).value.width = w.width ∧
    (create_swapchain se w).value.height = w.height := by
  rcases create_swapchain_status se w with hs | hs
  · obtain ⟨_, _, _, _, _, _, h7, h8⟩ := create_swapchain_value se w hs
    refine ⟨?_, h7, h8⟩
    rw [create_swapchain_calls se w hs]
    intro c hc
    simp only [List.mem_append, List.mem_flatMap, List.mem_range'] at hc
    rcases hc with (hc | ⟨j, _, hc⟩) | hc
    · revert c; simp [Call.uses_extent, swapchain_info]
    · revert c; simp [swapchain_slot, Call.uses_extent]
    · revert c; simp [Call.uses_extent]
  · unfold create_swapchain at hs ⊢
    by_cases h1 : se.surface_supported = 0
    · simp [h1, Call.uses_extent]
    by_cases h2 : se.supportedCompositeAlpha &&& VK_COMPOSITE_ALPHA_OPAQUE_BIT_KHR = 0
    · simp [h1, h2, Call.uses_extent]
    by_cases h3 : se.minImageCount ≥ 2 ∧ se.minImageCount ≤ MAX_NUM_IMAGES
    · by_cases h4 : se.image_count > 0 ∧ se.image_count ≤ MAX_NUM_IMAGES
      · simp [h1, h2, h3, h4] at hs
      · have h4b : ¬ (0 < se.image_count ∧ se.image_count ≤ MAX_NUM_IMAGES) := h4
        simp [h1, h2, h3, h4, h4b, Call.uses_extent, swapchain_info]
    · have h3b : ¬ (2 ≤ se.minImageCount ∧ se.minImageCount ≤ MAX_NUM_IMAGES) := h3
      simp [h1, h2, h3, h3b, Call.uses_extent]

/-- Every call of `redraw` that carries an extent carries the width and the
height of the window. -/
theorem redraw_uses_extent (e : FrameEnv) (w : window) :
    ∀ c ∈ (redraw e w).calls, c.uses_extent w.width w.height := by
  by_cases ha : e.r_acquire = VK_SUCCESS ∧ e.index < MAX_NUM_IMAGES
  · by_cases hm : w.vk.uniform_buffer.map_valid = true
    · rw [(redraw_of_acquired e w ha.1 ha.2 hm).1]
      by_cases hp : e.present_result = VK_SUCCESS <;>
        simp [hp, acquire_call, fence_calls, record_calls, submit_call, present_call,
          Call.uses_extent]
    · have hm2 : w.vk.uniform_buffer.map_valid = false := by simpa using hm
      rw [(redraw_of_faulted e w ha.1 ha.2 hm2).1]
      simp [acquire_call, fence_calls, record_calls, record_calls_before_write,
        Call.uses_extent]
  · rw [(redraw_of_not_acquired e w ha).1]
    simp [acquire_call, Call.uses_extent]

theorem frame_loop_uses_extent (w : window) (envs : List FrameEnv) :
    ∀ c ∈ trace (frame_loop w envs), c.uses_extent w.width w.height := by
  induction envs with
  | nil => intro c hc; simp [frame_loop, trace] at hc
  | cons e es ih =>
    intro c hc
    by_cases hs : (redraw e w).status = Status.returned
    · simp only [frame_loop, hs, if_true, trace_cons, List.mem_append] at hc
      rcases hc with hc | hc
      · exact redraw_uses_extent e w c hc
      · exact ih c hc
    · simp only [frame_loop, hs, if_false, trace_cons, trace_nil, List.append_nil] at hc
      exact redraw_uses_extent e w c hc

/-- In every run of `main`, every call that carries an extent carries 250 by
250, and the window `main` ends with is 250 by 250. -/
theorem main_uses_extent (me : MainEnv) :
    (∀ c ∈ (main me).calls, c.uses_extent 250 250) ∧
    (main me).value.width = 250 ∧ (main me).value.height = 250 := by
  obtain ⟨i1, i2, i3⟩ := init_vulkan_uses_extent me.init main_window 250 250
  have i2b : (init_vulkan me.init main_window).value.width = 250 := i2
  have i3b : (init_vulkan me.init main_window).value.height = 250 := i3
  obtain ⟨c1, c2, c3⟩ := create_swapchain_uses_extent me.swapchain
    (init_vulkan me.init main_window).value
  rw [i2b, i3b] at c1
  rw [i2b] at c2
  rw [i3b] at c3
  have f1 := frame_loop_uses_extent
    (create_swapchain me.swapchain (init_vulkan me.init main_window).value).value me.frames
  rw [c2, c3] at f1
  unfold main
  by_cases hd : me.display_connected = false
  · simp [hd, main_window]
  by_cases hb : me.xdg_wm_base_bound = true ∧ me.wl_compositor_bound = true
  · simp only [hd, hb, if_false, not_true_eq_false, and_self]
    by_cases hi : (init_vulkan me.init main_window).status = Status.returned
    · simp only [hi, ne_eq, not_true_eq_false, if_false]
      by_cases hc : (create_swapchain me.swapchain
          (init_vulkan me.init main_window).value).status = Status.returned
      · rw [if_neg (not_not.2 hc)]
        refine ⟨?_, c2, c3⟩
        intro c hmem
        rcases List.mem_append.1 hmem with hmem | hmem
        · rcases List.mem_append.1 hmem with hmem | hmem
          · exact i1 c hmem
          · exact c1 c hmem
        · exact f1 c hmem
      · rw [if_pos hc]
        refine ⟨?_, c2, c3⟩
        intro c hmem
        rcases List.mem_append.1 hmem with hmem | hmem
        · exact i1 c hmem
        · exact c1 c hmem
    · simp only [hi, ne_eq, not_false_eq_true, if_true]
      exact ⟨i1, i2b, i3b⟩
  · simp [hd, hb, main_window]

/-- C15: in every run of `main`, whatever the window system and the runtime
answer, the swapchain is created with the image extent 250 by 250, every
framebuffer is created 250 by 250, and in every redraw the render area of the
render pass, the viewport and the scissor are the rectangle at the origin of
that same extent; the width and the height of the window are still 250 when
`main` ends. -/
theorem extent_is_250_by_250 (me : MainEnv) :
    (main me).value.width = 250 ∧ (main me).value.height = 250 ∧
    (∀ info r, Call.vkCreateSwapchainKHR info r ∈ (main me).calls →
      info.imageExtent = (250, 250)) ∧
    (∀ rp view wd ht layers r,
      Call.vkCreateFramebuffer rp view wd ht layers r ∈ (main me).calls →
      wd = 250 ∧ ht = 250) ∧
    (∀ cmd rp fb area clear contents,
      Call.vkCmdBeginRenderPass cmd rp fb area clear contents ∈ (main me).calls →
      area = ((0, 0), (250, 250))) ∧
    (∀ cmd x y wd ht minDepth maxDepth,
      Call.vkCmdSetViewport cmd x y wd ht minDepth maxDepth ∈ (main me).calls →
      x = 0 ∧ y = 0 ∧ wd = 250 ∧ ht = 250) ∧
    (∀ cmd offset extent, Call.vkCmdSetScissor cmd offset extent ∈ (main me).calls →
      offset = (0, 0) ∧ extent = (250, 250)) := by
  obtain ⟨h, hw, hh⟩ := main_uses_extent me
  refine ⟨hw, hh, ?_, ?_, ?_, ?_, ?_⟩
  · intro info r hm
    exact h _ hm
  · intro rp view wd ht layers r hm
    exact h _ hm
  · intro cmd rp fb area clear contents hm
    exact h _ hm
  · intro cmd x y wd ht minDepth maxDepth hm
    exact h _ hm
  · intro cmd offset extent hm
    exact h _ hm

/-- A run of `main` with one frame on slot 1 does contain calls that carry the
extent. -/
theorem main_run_carries_extent :
    (main (main_env [frame_ok 1])).status = Status.returned ∧
    Call.vkCreateFramebuffer Handle.render_pass (Handle.view 1) 250 250 1 VK_SUCCESS ∈
      (main (main_env [frame_ok 1])).calls ∧
    Call.vkCmdSetViewport (Handle.cmd_buffer 1) 0 0 250 250 0 1 ∈
      (main (main_env [frame_ok 1])).calls ∧
    Call.vkCmdSetScissor (Handle.cmd_buffer 1) (0, 0) (250, 250) ∈
      (main (main_env [frame_ok 1])).calls := by
  refine ⟨by decide, by decide, by decide, by decide⟩

/-! ## C16: the accesses to `win_buffers` -/

/-- C16: whenever `create_swapchain` passes its assertions, `image_count` is at
most `MAX_NUM_IMAGES` and its loop stores to no cell at or beyond `image_count`,
so to none outside the array; and for a redraw whose acquire succeeds with an
index below `image_count`, the index is below `MAX_NUM_IMAGES`, the access is
inside the array, and the slot is the one iteration `index` of the loop filled,
having made the four calls that create its view, framebuffer, fence and command
buffer. -/
theorem win_buffers_in_bounds (se : SwapchainEnv) (w0 w : window) (e : FrameEnv)
    (hcs : (create_swapchain se w0).status = Status.returned)
    (hw : (create_swapchain se w0).value = w) :
    w.vk.image_count ≤ MAX_NUM_IMAGES ∧
    (∀ j, w.vk.image_count ≤ j → w.vk.win_buffers j = w0.vk.win_buffers j) ∧
    (∀ j, MAX_NUM_IMAGES ≤ j → w.vk.win_buffers j = w0.vk.win_buffers j) ∧
    (e.r_acquire = VK_SUCCESS → e.index < w.vk.image_count →
      e.index < MAX_NUM_IMAGES ∧
      (redraw e w).status ≠ Status.undefined ∧
      w.vk.win_buffers e.index =
        ⟨Handle.image e.index, Handle.view e.index, Handle.framebuffer e.index,
         Handle.fence e.index, Handle.cmd_buffer e.index⟩ ∧
      Call.vkCreateImageView (Handle.image e.index) VK_IMAGE_VIEW_TYPE_2D
          w0.vk.image_format (se.r_view e.index) ∈ (create_swapchain se w0).calls ∧
      Call.vkCreateFramebuffer w0.vk.render_pass (Handle.view e.index) w0.width w0.height 1
          (se.r_framebuffer e.index) ∈ (create_swapchain se w0).calls ∧
      Call.vkCreateFence VK_FENCE_CREATE_SIGNALED_BIT (Handle.fence e.index)
          (se.r_fence e.index) ∈ (create_swapchain se w0).calls ∧
      Call.vkAllocateCommandBuffers w0.vk.cmd_pool VK_COMMAND_BUFFER_LEVEL_PRIMARY 1
          (se.r_cmd_buffer e.index) ∈ (create_swapchain se w0).calls) := by
  have hcount := created_count_le se w0 w hcs hw
  obtain ⟨v1, v2, _⟩ := create_swapchain_value se w0 hcs
  have hic : w.vk.image_count = se.image_count := by rw [← hw]; exact v1
  have hkeep : ∀ j, w.vk.image_count ≤ j → w.vk.win_buffers j = w0.vk.win_buffers j := by
    intro j hj
    rw [← hw, v2, if_neg (by omega)]
  refine ⟨hcount.2, hkeep, fun j hj => hkeep j (by omega), ?_⟩
  intro hacq hidx
  have hlt : e.index < MAX_NUM_IMAGES := by omega
  have hmem : ∀ c ∈ (swapchain_slot se w0 e.index).2, c ∈ (create_swapchain se w0).calls := by
    intro c hc
    rw [create_swapchain_calls se w0 hcs]
    simp only [List.mem_append, List.mem_flatMap, List.mem_range']
    exact Or.inl (Or.inr ⟨e.index, ⟨e.index, by omega, by omega⟩, hc⟩)
  refine ⟨hlt, ?_, created_slot se w0 w hcs hw e.index hidx, ?_, ?_, ?_, ?_⟩
  · by_cases hm : w.vk.uniform_buffer.map_valid = true
    · rw [(redraw_of_acquired e w hacq hlt hm).2]
      split_ifs <;> decide
    · have hm2 : w.vk.uniform_buffer.map_valid = false := by simpa using hm
      rw [(redraw_of_faulted e w hacq hlt hm2).2]
      decide
  · exact hmem _ (by simp [swapchain_slot])
  · exact hmem _ (by simp [swapchain_slot])
  · exact hmem _ (by simp [swapchain_slot])
  · exact hmem _ (by simp [swapchain_slot])

/-- Witness of `win_buffers_in_bounds`: a four-image swapchain, the most the
array holds, created after an `init_vulkan` in which every call succeeds, and a
frame on its last slot. -/
theorem win_buffers_in_bounds_witness :
    (create_swapchain (surface_env 4) initialised_window).value.vk.image_count ≤
      MAX_NUM_IMAGES ∧
    (redraw (frame_ok 3) (create_swapchain (surface_env 4) initialised_window).value).status ≠
      Status.undefined :=
  ⟨(win_buffers_in_bounds (surface_env 4) initialised_window
      (create_swapchain (surface_env 4) initialised_window).value (frame_ok 3)
      (by decide) rfl).1,
   ((win_buffers_in_bounds (surface_env 4) initialised_window
      (create_swapchain (surface_env 4) initialised_window).value (frame_ok 3)
      (by decide) rfl).2.2.2 rfl (by decide)).2.1⟩

end VulkanDemo
